import Mathlib

/-!
Verification of the color-extraction and token-derivation core of
`image-to-design-tokens` (src/assets/js/app.js), shallowly embedded in Lean.

Numbers: JS numbers are modelled by `ℚ` (channel values by `ℕ`).  The only
transcendental operations the core uses are `Math.pow(x, 2.4)` (inside WCAG
luminance), `Math.log` (population score) and `Math.sqrt` (perceptual
distance).  `sqrt` occurs only under comparisons (`dist < t`, `dist < minDist`),
which we embed as the equivalent comparisons of squares.  `pow` and `log` are
modelled by a parameter structure `RealModel`: `pow24` stands for
`x ↦ x^2.4` and carries exactly the facts used by the proofs
(`x^3 ≤ x^2.4 ≤ x^2` on `[0,1]`, and strict monotonicity — true facts of the
real function); `lg` stands for `Math.log` and is unconstrained because no
verified claim depends on its values.  Theorems quantify over any such model;
concrete witnesses instantiate it with the computable `ratModel` below.
-/

/-- An RGB pixel `{r,g,b}`, channels 0–255 (`extractPixels` output). -/
structure Pixel where
  r : ℕ
  g : ℕ
  b : ℕ
deriving DecidableEq

/-- A palette swatch: rgb plus population and the accent-pass flags.
JS objects lack absent fields (`undefined`, falsy); we default them to
`false`/`0`. -/
structure Swatch where
  r : ℕ
  g : ℕ
  b : ℕ
  population : ℕ
  isVibrant : Bool := false
  isBrandColor : Bool := false
deriving DecidableEq

/-- The rgb part of a swatch. -/
def Swatch.rgb (s : Swatch) : Pixel := ⟨s.r, s.g, s.b⟩

/-- Model of the transcendental real functions used by the source.
`pow24` stands for `x ↦ Math.pow(x, 2.4)`; its three axioms are true
properties of the real function on `[0,1]`.  `lg` stands for `Math.log`;
no claim proved here depends on its values. -/
structure RealModel where
  pow24 : ℚ → ℚ
  lg : ℚ → ℚ
  pow24_lb : ∀ x : ℚ, 0 ≤ x → x ≤ 1 → x ^ 3 ≤ pow24 x
  pow24_ub : ∀ x : ℚ, 0 ≤ x → x ≤ 1 → pow24 x ≤ x ^ 2
  pow24_mono : ∀ x y : ℚ, 0 ≤ x → x < y → y ≤ 1 → pow24 x < pow24 y

/-- A concrete computable instance of `RealModel`:
`(3x² + 2x³)/5` lies between `x³` and `x²` on `[0,1]` and is strictly
monotone there, like `x^2.4`.  Used only to build witnesses. -/
def ratModel : RealModel where
  pow24 := fun x => (3 * x ^ 2 + 2 * x ^ 3) / 5
  lg := fun _ => 0
  pow24_lb := by intro x h0 h1; nlinarith [pow_nonneg h0 2, pow_nonneg h0 3]
  pow24_ub := by intro x h0 h1; nlinarith [pow_nonneg h0 2, pow_nonneg h0 3]
  pow24_mono := by
    intro x y h0 hxy h1
    have hy : 0 < y := lt_of_le_of_lt h0 hxy
    have h2 : x ^ 2 < y ^ 2 := by nlinarith
    have h3 : x ^ 3 ≤ y ^ 3 := by nlinarith
    have : 3 * x ^ 2 + 2 * x ^ 3 < 3 * y ^ 2 + 2 * y ^ 3 := by nlinarith
    calc (3 * x ^ 2 + 2 * x ^ 3) / 5 < (3 * y ^ 2 + 2 * y ^ 3) / 5 := by linarith
    _ = _ := rfl


/-- `Math.min` on rationals, kernel-computable (definitionally `min`). -/
def qmin (a b : ℚ) : ℚ := if a ≤ b then a else b

/-- `Math.max` on rationals, kernel-computable (definitionally `max`). -/
def qmax (a b : ℚ) : ℚ := if a ≤ b then b else a

/-- `Math.abs` on rationals, kernel-computable (equal to `|·|`). -/
def qabs (a : ℚ) : ℚ := if a < 0 then -a else a

/-! ## Color utility functions (source: app.js lines 17–118) -/

/-- Value of one hex digit, case-insensitive (the `[a-f\d]` character class
of `hexToRgb`'s regular expression with the `i` flag). -/
def hexDigitVal (c : Char) : Option ℕ :=
  if '0' ≤ c ∧ c ≤ '9' then some (c.toNat - '0'.toNat)
  else if 'a' ≤ c ∧ c ≤ 'f' then some (c.toNat - 'a'.toNat + 10)
  else if 'A' ≤ c ∧ c ≤ 'F' then some (c.toNat - 'A'.toNat + 10)
  else none

/-- `parseInt(d₁d₂, 16)` for one two-digit channel group. -/
def hexPairVal (a b : Char) : Option ℕ := do
  pure (16 * (← hexDigitVal a) + (← hexDigitVal b))

/-- Parse the six mandatory hex digits of `#?([a-f\d]{2})([a-f\d]{2})([a-f\d]{2})`. -/
def parseHex6 : List Char → Option Pixel
  | [a, b, c, d, e, f] => do
    pure ⟨← hexPairVal a b, ← hexPairVal c d, ← hexPairVal e f⟩
  | _ => none

/-- `hexToRgb(hex)`: parse `#?rrggbb` (case-insensitive), else `null`. -/
def hexToRgb (s : String) : Option Pixel :=
  match s.data with
  | '#' :: rest => parseHex6 rest
  | cs => parseHex6 cs

/-- Lowercase hex digit for `toString(16)`. -/
def toHexDigit (n : ℕ) : Char :=
  if n < 10 then Char.ofNat (48 + n) else Char.ofNat (87 + n)

/-- One channel of `rgbToHex`: `toString(16)` padded to two digits.
(For the byte range 0–255, `x.toString(16)` is `n/16`,`n%16`, with the
single-digit case padded by `'0' = toHexDigit 0`.) -/
def byteToHex (n : ℕ) : List Char := [toHexDigit (n / 16), toHexDigit (n % 16)]

/-- `rgbToHex(r, g, b) = '#' + …`. -/
def rgbToHex (r g b : ℕ) : String :=
  ⟨'#' :: (byteToHex r ++ byteToHex g ++ byteToHex b)⟩

/-- JS `String.prototype.toLowerCase` (ASCII fragment, which is all the
source compares against `rgbToHex` output). -/
def lowerS (s : String) : String := ⟨s.data.map Char.toLower⟩

/-- One channel of WCAG relative luminance: `c/255`, then
`c ≤ 0.03928 → c/12.92`, else `((c+0.055)/1.055)^2.4`. -/
def linearize (M : RealModel) (c : ℕ) : ℚ :=
  let x : ℚ := (c : ℚ) / 255
  if x ≤ 3928 / 100000 then x / (1292 / 100)
  else M.pow24 ((x + 55 / 1000) / (1055 / 1000))

/-- `getLuminance(r, g, b)` per WCAG 2.1. -/
def getLuminance (M : RealModel) (r g b : ℕ) : ℚ :=
  2126 / 10000 * linearize M r + 7152 / 10000 * linearize M g
    + 722 / 10000 * linearize M b

/-- `getContrastRatio(rgb1, rgb2)`. -/
def getContrastRatio (M : RealModel) (c1 c2 : Pixel) : ℚ :=
  let l1 := getLuminance M c1.r c1.g c1.b
  let l2 := getLuminance M c2.r c2.g c2.b
  (qmax l1 l2 + 5 / 100) / (qmin l1 l2 + 5 / 100)

/-- `getSaturation(r, g, b)` (HSL saturation). -/
def getSaturation (r g b : ℕ) : ℚ :=
  let mx : ℚ := (max r (max g b) : ℕ) / 255
  let mn : ℚ := (min r (min g b) : ℕ) / 255
  let l := (mx + mn) / 2
  if mx = mn then 0
  else
    let d := mx - mn
    if l > 1 / 2 then d / (2 - mx - mn) else d / (mx + mn)

/-- An HSL triple as produced by `rgbToHsl` (`h` in degrees). -/
structure Hsl where
  h : ℚ
  s : ℚ
  l : ℚ
deriving DecidableEq

/-- `rgbToHsl(r, g, b)`.  The JS `switch (max)` tests the cases in source
order `r`, `g`, `b`, so ties prefer `r`, then `g`. -/
def rgbToHsl (r g b : ℕ) : Hsl :=
  let rq : ℚ := (r : ℚ) / 255
  let gq : ℚ := (g : ℚ) / 255
  let bq : ℚ := (b : ℚ) / 255
  let mx := max rq (max gq bq)
  let mn := min rq (min gq bq)
  let l := (mx + mn) / 2
  if mx = mn then ⟨0, 0, l⟩
  else
    let d := mx - mn
    let s := if l > 1 / 2 then d / (2 - mx - mn) else d / (mx + mn)
    let h :=
      if rq = mx then ((gq - bq) / d + (if gq < bq then 6 else 0)) / 6
      else if gq = mx then ((bq - rq) / d + 2) / 6
      else ((rq - gq) / d + 4) / 6
    ⟨h * 360, s, l⟩

/-- `isSimilarHue(hsl1, hsl2, threshold)`: circular hue distance `< threshold`. -/
def isSimilarHue (h1 h2 : Hsl) (threshold : ℚ) : Bool :=
  let diff := qabs (h1.h - h2.h)
  let diff := if diff > 180 then 360 - diff else diff
  decide (diff < threshold)

/-- The square of `colorDistance(c1, c2)` (redmean-weighted Euclidean
distance).  The source only ever compares `colorDistance` with
nonnegative thresholds and with other distances, so all its uses are
embedded as comparisons of `colorDistanceSq` (√ is strictly monotone). -/
def colorDistanceSq (c1 c2 : Pixel) : ℚ :=
  let rMean : ℚ := ((c1.r : ℚ) + (c2.r : ℚ)) / 2
  let dr : ℚ := (c1.r : ℚ) - (c2.r : ℚ)
  let dg : ℚ := (c1.g : ℚ) - (c2.g : ℚ)
  let db : ℚ := (c1.b : ℚ) - (c2.b : ℚ)
  (2 + rMean / 256) * dr * dr + 4 * dg * dg + (2 + (255 - rMean) / 256) * db * db

/-- `colorDistance(c1, c2) < t`, embedded on squares: for `t > 0` this is
`distSq < t²`, and for `t ≤ 0` it is false (a square root is nonnegative). -/
def distLt (c1 c2 : Pixel) (t : ℚ) : Bool :=
  decide (0 < t ∧ colorDistanceSq c1 c2 < t * t)


/-- Stable insertion of `a` into a list: `a` goes before the first `b`
with `le a b` (ties keep the earlier element first). -/
def insertLe {α : Type} (le : α → α → Bool) (a : α) : List α → List α
  | [] => [a]
  | b :: l => if le a b then a :: b :: l else b :: insertLe le a l

/-- Stable sort by a total Boolean preorder.  JS `Array.prototype.sort`
is required to be stable, and every comparator the source passes is of
the form `(a, b) => key(b) - key(a)` or `key(a) - key(b)` for a rational
key, a total preorder; a stable insertion sort computes the same
(unique) stable ordering. -/
def sortLe {α : Type} (le : α → α → Bool) : List α → List α
  | [] => []
  | a :: l => insertLe le a (sortLe le l)

/-- Method-style wrapper for `sortLe`. -/
def List.sortStable {α : Type} (l : List α) (le : α → α → Bool) : List α :=
  sortLe le l

/-! ## Median cut (source: app.js lines 234–316) -/

/-- One of the three color channels. -/
inductive ColorChannel
  | r
  | g
  | b
deriving DecidableEq

/-- Channel projection `p[channel]`. -/
def Pixel.channel : Pixel → ColorChannel → ℕ
  | p, .r => p.r
  | p, .g => p.g
  | p, .b => p.b

/-- `max − min` of one channel over a bucket, with the JS initial values
(`min = 255`, `max = 0`; on an empty bucket the JS range is `−255`, our `ℤ`
value likewise, and neither ever beats the running maximum `0`). -/
def channelRange (pixels : List Pixel) (ch : ColorChannel) : ℤ :=
  let mn := pixels.foldl (fun a p => min a (p.channel ch)) 255
  let mx := pixels.foldl (fun a p => max a (p.channel ch)) 0
  (mx : ℤ) - (mn : ℤ)

/-- `findLargestRange(pixels)`: channels scanned in order r, g, b; a channel
wins only with a strictly larger range (`range > maxRange`), starting from
`maxRange = 0, maxChannel = 'r'`. -/
def findLargestRange (pixels : List Pixel) : ColorChannel :=
  ([ColorChannel.r, ColorChannel.g, ColorChannel.b].foldl
    (fun (acc : ℤ × ColorChannel) ch =>
      if channelRange pixels ch > acc.1 then (channelRange pixels ch, ch) else acc)
    (0, ColorChannel.r)).2

/-- One step of the largest-bucket scan: state `(i, maxBucketIndex,
maxBucketSize)`, strict improvement only (`bucket.length > maxBucketSize`). -/
def largestStep (acc : ℕ × ℕ × ℕ) (bkt : List Pixel) : ℕ × ℕ × ℕ :=
  if bkt.length > acc.2.2 then (acc.1 + 1, acc.1, bkt.length)
  else (acc.1 + 1, acc.2.1, acc.2.2)

/-- Index and size of the largest bucket (`maxBucketIndex = 0,
maxBucketSize = 0`, strict improvement, so the first largest wins). -/
def largestBucketIdx (buckets : List (List Pixel)) : ℕ × ℕ :=
  (buckets.foldl largestStep (0, 0, 0)).2

/-- Split one bucket: sort by the widest channel (JS `sort` is stable;
`sortStable` likewise), split at `Math.floor(length / 2)`. -/
def splitBucket (bkt : List Pixel) : List Pixel × List Pixel :=
  let ch := findLargestRange bkt
  let sorted := sortLe (fun a b => decide (a.channel ch ≤ b.channel ch)) bkt
  let median := sorted.length / 2
  (sorted.take median, sorted.drop median)

/-- The `while (buckets.length < targetColors)` loop.  Each pass either
stops (`maxBucketSize ≤ 1`) or replaces the largest bucket by its two
halves (`splice(i, 1, b1, b2)`).  The fuel starts at `targetColors`; since
every pass grows the bucket count by one and the guard stops at
`targetColors`, the fuel is never exhausted before the JS loop exits. -/
def medianCutLoop (target : ℕ) : ℕ → List (List Pixel) → List (List Pixel)
  | 0, buckets => buckets
  | fuel + 1, buckets =>
    if buckets.length < target then
      if (largestBucketIdx buckets).2 ≤ 1 then buckets
      else
        let idx := (largestBucketIdx buckets).1
        let halves := splitBucket (buckets.getD idx [])
        medianCutLoop target fuel
          (buckets.take idx ++ [halves.1, halves.2] ++ buckets.drop (idx + 1))
    else buckets

/-- `Math.round` on a nonnegative rational. -/
def ratRound (q : ℚ) : ℕ := (Rat.floor (q + 1 / 2)).toNat

/-- Final mapping of one bucket to a swatch: arithmetic-mean rgb (rounded)
and population = bucket size; an empty bucket yields `null`. -/
def bucketToSwatch (bkt : List Pixel) : Option Swatch :=
  if bkt.length = 0 then none
  else
    let n : ℚ := bkt.length
    some
      { r := ratRound ((bkt.map fun p => (p.r : ℚ)).sum / n)
        g := ratRound ((bkt.map fun p => (p.g : ℚ)).sum / n)
        b := ratRound ((bkt.map fun p => (p.b : ℚ)).sum / n)
        population := bkt.length }

/-- `medianCut(pixels, targetColors)` (the `.map(...).filter(c => c !== null)`
of the source is `filterMap`). -/
def medianCut (pixels : List Pixel) (targetColors : ℕ) : List Swatch :=
  if pixels.length = 0 then []
  else (medianCutLoop targetColors targetColors [pixels]).filterMap bucketToSwatch

/-! ## Deduplicator (source: app.js lines 321–358) -/

/-- Index of the closest existing swatch (`minDist = Infinity,
closestIndex = 0`, strict improvement ⇒ earliest minimum; distances
compared on squares). -/
def closestIdx (filtered : List Swatch) (color : Swatch) : ℕ :=
  (filtered.foldl
    (fun (acc : ℕ × Option ℚ × ℕ) ex =>
      let (i, best, bi) := acc
      let d := colorDistanceSq color.rgb ex.rgb
      match best with
      | none => (i + 1, some d, i)
      | some m => if d < m then (i + 1, some d, i) else (i + 1, some m, bi))
    (0, none, 0)).2.2

/-- One `forEach` step of `removeDuplicates`: append if no existing swatch
is within `threshold`, else merge into the closest one, keeping the more
saturated rgb and summing populations. -/
def dedupStep (t : ℚ) (filtered : List Swatch) (color : Swatch) : List Swatch :=
  if filtered.any fun ex => distLt color.rgb ex.rgb t then
    let ci := closestIdx filtered color
    match filtered.get? ci with
    | none => filtered
    | some ex =>
      let existingSat := getSaturation ex.r ex.g ex.b
      let newSat := getSaturation color.r color.g color.b
      if newSat > existingSat then
        filtered.set ci { color with population := ex.population + color.population }
      else
        filtered.set ci { ex with population := ex.population + color.population }
  else filtered ++ [color]

/-- `removeDuplicates(colors, threshold)`. -/
def removeDuplicates (colors : List Swatch) (t : ℚ) : List Swatch :=
  colors.foldl (dedupStep t) []

/-! ## Accent recoverers (source: app.js lines 360–496) -/

/-- Admission test of the Vibrant pass: saturation ≥ 0.25 and
lightness ∈ [0.10, 0.90]. -/
def vibrantEligible (p : Pixel) : Bool :=
  let sat := getSaturation p.r p.g p.b
  if sat < 1 / 4 then false
  else
    let hsl := rgbToHsl p.r p.g p.b
    !decide (hsl.l < 1 / 10 ∨ hsl.l > 9 / 10)

/-- `Math.floor(hsl.h / 20) % 18`. -/
def hueBucketIdx (p : Pixel) : ℕ :=
  (Rat.floor ((rgbToHsl p.r p.g p.b).h / 20)).toNat % 18

/-- Sort a pixel list by saturation, highest first (stable, like JS `sort`). -/
def sortBySatDesc (l : List Pixel) : List Pixel :=
  sortLe (fun a b => decide (getSaturation b.r b.g b.b ≤ getSaturation a.r a.g a.b)) l

/-- Candidate of one vibrant hue slice: skip slices of fewer than 5 pixels,
else average the `max(5, ⌊5% of slice⌋)` most saturated pixels.
(`Math.floor(len * 0.05)` is `len / 20` for the list lengths at play.) -/
def vibrantCandidate (bucket : List Pixel) : Option Swatch :=
  if bucket.length < 5 then none
  else
    let sorted := sortBySatDesc bucket
    let topCount := max 5 (bucket.length / 20)
    let top := sorted.take topCount
    let n : ℚ := top.length
    some
      { r := ratRound ((top.map fun p => (p.r : ℚ)).sum / n)
        g := ratRound ((top.map fun p => (p.g : ℚ)).sum / n)
        b := ratRound ((top.map fun p => (p.b : ℚ)).sum / n)
        population := bucket.length
        isVibrant := true }

/-- The duplicate test of the Vibrant pass (app.js lines 399–416): an
existing entry within distance 35, or an existing entry of similar hue
(25°) whose saturation, scaled by 1.15, reaches the candidate's. -/
def vibrantIsDuplicate (avg : Swatch) (existingPalette : List Swatch) : Bool :=
  existingPalette.any fun existing =>
    if distLt avg.rgb existing.rgb 35 then true
    else
      let existingHsl := rgbToHsl existing.r existing.g existing.b
      let avgHsl := rgbToHsl avg.r avg.g avg.b
      if isSimilarHue existingHsl avgHsl 25 then
        decide (avgHsl.s ≤ existingHsl.s * (115 / 100))
      else false

/-- `extractVibrantColors(pixels, existingPalette)`: 18 hue slices of 20°. -/
def extractVibrantColors (pixels : List Pixel) (existingPalette : List Swatch) :
    List Swatch :=
  (List.range 18).filterMap fun i =>
    let bucket := pixels.filter fun p => vibrantEligible p && (hueBucketIdx p == i)
    match vibrantCandidate bucket with
    | none => none
    | some avg =>
      if !vibrantIsDuplicate avg existingPalette
          && decide (getSaturation avg.r avg.g avg.b > 35 / 100) then
        some avg
      else none

/-- Admission test of the Brand pass: saturation ≥ 0.45,
lightness ∈ [0.12, 0.88]. -/
def brandEligible (p : Pixel) : Bool :=
  let sat := getSaturation p.r p.g p.b
  if sat < 45 / 100 then false
  else
    let hsl := rgbToHsl p.r p.g p.b
    !decide (hsl.l < 12 / 100 ∨ hsl.l > 88 / 100)

/-- The seven fixed hue ranges of the Brand pass. -/
def brandRanges : List (ℚ × ℚ) :=
  [(0, 30), (30, 60), (60, 90), (90, 180), (180, 270), (270, 330), (330, 360)]

/-- The duplicate test of the Brand pass: distance < 30, or similar hue
(20°) with the existing saturation at least the candidate's. -/
def brandIsDuplicate (avg : Swatch) (existingPalette : List Swatch) : Bool :=
  existingPalette.any fun existing =>
    if distLt avg.rgb existing.rgb 30 then true
    else
      let existingHsl := rgbToHsl existing.r existing.g existing.b
      let avgHsl := rgbToHsl avg.r avg.g avg.b
      if isSimilarHue existingHsl avgHsl 20 then decide (existingHsl.s ≥ avgHsl.s)
      else false

/-- `extractBrandColors(pixels, existingPalette)`: per hue range, average
the top-3-by-saturation admitted pixels. -/
def extractBrandColors (pixels : List Pixel) (existingPalette : List Swatch) :
    List Swatch :=
  brandRanges.filterMap fun rng =>
    let rps := pixels.filter fun p =>
      brandEligible p &&
        decide ((rgbToHsl p.r p.g p.b).h ≥ rng.1 ∧ (rgbToHsl p.r p.g p.b).h < rng.2)
    if rps.length = 0 then none
    else
      let top := (sortBySatDesc rps).take 3
      let n : ℚ := top.length
      let avg : Swatch :=
        { r := ratRound ((top.map fun p => (p.r : ℚ)).sum / n)
          g := ratRound ((top.map fun p => (p.g : ℚ)).sum / n)
          b := ratRound ((top.map fun p => (p.b : ℚ)).sum / n)
          population := rps.length
          isVibrant := true
          isBrandColor := true }
      if !brandIsDuplicate avg existingPalette
          && decide (getSaturation avg.r avg.g avg.b > 40 / 100) then
        some avg
      else none

/-- `findMostVibrantVariant(color, palette)`: best same-hue (35°) palette
entry with strictly larger saturation and lightness in (0.25, 0.75);
starts from the color itself. -/
def variantStep (colorHsl : Hsl) (acc : Swatch × ℚ) (p : Swatch) : Swatch × ℚ :=
  let pHsl := rgbToHsl p.r p.g p.b
  if isSimilarHue colorHsl pHsl 35 then
    if pHsl.s > acc.2 ∧ pHsl.l > 1 / 4 ∧ pHsl.l < 3 / 4 then (p, pHsl.s) else acc
  else acc

def findMostVibrantVariant (color : Pixel) (palette : List Swatch) : Swatch :=
  let colorHsl := rgbToHsl color.r color.g color.b
  (palette.foldl (variantStep colorHsl)
    (⟨color.r, color.g, color.b, 0, false, false⟩, colorHsl.s)).1

/-! ## Token derivation engine (source: app.js lines 528–1276) -/

/-- The 8 semantic tokens of one mode. -/
structure TokenSet where
  bg : String
  surface : String
  border : String
  text : String
  heading : String
  mutedText : String
  primary : String
  onPrimary : String
deriving DecidableEq

/-- The result of `generateTokens` (its `warnings` array is always empty —
nothing ever pushes to it — and is not modelled). -/
structure TokenPair where
  light : TokenSet
  dark : TokenSet
deriving DecidableEq

/-- One entry of the `analyzed` palette: the swatch plus `hex`,
`luminance`, `saturation`. -/
structure Analyzed where
  r : ℕ
  g : ℕ
  b : ℕ
  population : ℕ
  isVibrant : Bool
  isBrandColor : Bool
  hex : String
  luminance : ℚ
  saturation : ℚ
deriving DecidableEq

/-- The rgb part of an analyzed color. -/
def Analyzed.rgb (c : Analyzed) : Pixel := ⟨c.r, c.g, c.b⟩

/-- `palette.map(c => ({...c, hex, luminance, saturation}))`, one entry. -/
def analyzeSwatch (M : RealModel) (c : Swatch) : Analyzed :=
  { r := c.r, g := c.g, b := c.b, population := c.population
    isVibrant := c.isVibrant, isBrandColor := c.isBrandColor
    hex := rgbToHex c.r c.g c.b
    luminance := getLuminance M c.r c.g c.b
    saturation := getSaturation c.r c.g c.b }

/-- `findBest(filter)` (default sort key `population`): stable-sort the
matches by population, highest first, and take the first (i.e. earliest
maximum). -/
def findBest (analyzed : List Analyzed) (f : Analyzed → Bool) : Option Analyzed :=
  ((analyzed.filter f).sortStable fun a b => decide (b.population ≤ a.population)).head?

/-- `useColor(color, fallbackHex)`. -/
def useColor (color : Option Analyzed) (fallbackHex : String) : String :=
  match color with
  | some c => c.hex
  | none => fallbackHex

/-- `ensureContrast(candidateHex, backgroundRgb, minContrast, fallbackLight,
fallbackDark)`.  All call sites pass parseable candidate hexes and literal
parseable fallback constants, so the `getD ⟨0,0,0⟩` defaults are inert. -/
def ensureContrast (M : RealModel) (candidateHex : Option String)
    (backgroundRgb : Pixel) (minContrast : ℚ)
    (fallbackLight fallbackDark : String) : String :=
  let tryFallbacks : String :=
    let lightRgb := (hexToRgb fallbackLight).getD ⟨0, 0, 0⟩
    let darkRgb := (hexToRgb fallbackDark).getD ⟨0, 0, 0⟩
    let lightContrast := getContrastRatio M lightRgb backgroundRgb
    let darkContrast := getContrastRatio M darkRgb backgroundRgb
    if lightContrast ≥ minContrast then fallbackLight
    else if darkContrast ≥ minContrast then fallbackDark
    else if lightContrast > darkContrast then fallbackLight
    else fallbackDark
  match candidateHex with
  | some hx =>
    match hexToRgb hx with
    | some rgb =>
      if getContrastRatio M rgb backgroundRgb ≥ minContrast then hx else tryFallbacks
    | none => tryFallbacks
  | none => tryFallbacks

/-- JS truthiness of an optional string lock. -/
def isLockSet : Option String → Bool
  | some s => !s.isEmpty
  | none => false

/-- Resolution of a locked hex: first a palette entry whose hex matches
case-insensitively, else a fresh analyzed object parsed from the string
(keeping the locked string verbatim as `hex`), else nothing.  The fresh
object has no `population`/flag fields in JS (`undefined`); they are
defaulted and never observed. -/
def resolveLock (M : RealModel) (analyzed : List Analyzed) (locked : String) :
    Option Analyzed :=
  match analyzed.find? fun c => lowerS c.hex == lowerS locked with
  | some c => some c
  | none =>
    match hexToRgb locked with
    | some rgb =>
      some
        { r := rgb.r, g := rgb.g, b := rgb.b, population := 0
          isVibrant := false, isBrandColor := false
          hex := locked
          luminance := getLuminance M rgb.r rgb.g rgb.b
          saturation := getSaturation rgb.r rgb.g rgb.b }
    | none => none

/-- `getLuminance(...Object.values(hexToRgb(s)))` (call sites only pass
parseable token strings). -/
def lumOfHex (M : RealModel) (s : String) : ℚ :=
  let p := (hexToRgb s).getD ⟨0, 0, 0⟩
  getLuminance M p.r p.g p.b

/-- `palette.find(p => rgbToHex(...).toLowerCase() === c.hex.toLowerCase())
?.isVibrant || false`. -/
def lookupVibrant (palette : List Swatch) (c : Analyzed) : Bool :=
  match palette.find? fun p => lowerS (rgbToHex p.r p.g p.b) == lowerS c.hex with
  | some p => p.isVibrant
  | none => false

/-! ### Light mode -/

/-- Light bg candidate: the lock if set (resolved), else
`findBest(c => c.luminance > 0.75 && c.saturation < 0.20)`. -/
def lightBgCand (M : RealModel) (analyzed : List Analyzed)
    (lockedLightBg : Option String) : Option Analyzed :=
  if isLockSet lockedLightBg then resolveLock M analyzed (lockedLightBg.getD "")
  else findBest analyzed fun c => decide (c.luminance > 3 / 4) && decide (c.saturation < 1 / 5)

/-- Light surface candidate: `luminance > 0.85, saturation < 0.12`, not the
bg candidate's hex. -/
def lightSurfaceCand (analyzed : List Analyzed) (bgCand : Option Analyzed) :
    Option Analyzed :=
  findBest analyzed fun c =>
    decide (c.luminance > 17 / 20) && decide (c.saturation < 3 / 25) &&
      (match bgCand with
       | none => true
       | some bc => c.hex != bc.hex)

/-- Light surface token with the `surface === bg → '#ffffff'` fix. -/
def lightSurfaceTok (bg : String) (cand : Option Analyzed) : String :=
  let s := useColor cand "#ffffff"
  if s == bg then "#ffffff" else s

/-- Light border candidate. -/
def lightBorderCand (analyzed : List Analyzed) (surfaceLum : ℚ)
    (bg surface : String) : Option Analyzed :=
  findBest analyzed fun c =>
    decide (c.luminance < surfaceLum) && decide (c.luminance > 1 / 2) &&
      decide (c.luminance < 19 / 20) && decide (c.saturation < 3 / 20) &&
      (c.hex != bg) && (c.hex != surface)

/-- `textScore` of the light heading/text filter. -/
def lightTextScore (c : Analyzed) : ℚ := (1 - c.luminance) * 2 - c.saturation * 2

/-- Light heading/text candidate list: saturation ≤ 0.25, contrast vs.
surface ≥ 4.5, sorted by `textScore` descending (stable). -/
def lightHeadingCands (M : RealModel) (analyzed : List Analyzed)
    (surfaceRgb : Option Pixel) : List Analyzed :=
  (analyzed.filter fun c =>
    if c.saturation > 1 / 4 then false
    else
      match surfaceRgb with
      | none => decide (c.luminance < 1 / 5)
      | some srgb => decide (getContrastRatio M c.rgb srgb ≥ 9 / 2)).sortStable
    fun a b => decide (lightTextScore b ≤ lightTextScore a)

/-- `cands.find(c => c.hex !== top?.hex) || top`. -/
def secondDistinct (cands : List Analyzed) : Option Analyzed :=
  match cands.head? with
  | none => none
  | some top =>
    match cands.find? fun c => c.hex != top.hex with
    | some c => some c
    | none => some top

/-- Light heading/text swap (if text ended up lighter than heading) and
the forced distinguishable pair when they coincide. -/
def lightSwapFix (M : RealModel) (heading text : String) : String × String :=
  let p :=
    if text != "" && heading != "" then
      if lumOfHex M text < lumOfHex M heading then (text, heading) else (heading, text)
    else (heading, text)
  if p.1 == p.2 then ("#1a1a1a", "#444444") else p

/-- `mutedScore` of the light muted filter. -/
def lightMutedScore (c : Analyzed) : ℚ := (1 - qabs (c.luminance - 2 / 5)) - c.saturation

/-- Light muted candidate list. -/
def lightMutedCands (M : RealModel) (analyzed : List Analyzed)
    (surfaceRgb : Option Pixel) (textLuminance : ℚ) (heading text : String) :
    List Analyzed :=
  (analyzed.filter fun c =>
    if c.saturation > 1 / 4 then false
    else
      match surfaceRgb with
      | none => decide (c.luminance > 1 / 5) && decide (c.luminance < 1 / 2)
      | some srgb =>
        let contrast := getContrastRatio M c.rgb srgb
        decide (contrast ≥ 4) && decide (contrast < 7) &&
          decide (c.luminance > textLuminance) && (c.hex != heading) &&
          (c.hex != text)).sortStable
    fun a b => decide (lightMutedScore b ≤ lightMutedScore a)

/-- One token-vs-candidate-bg contrast check of the bg validation: skipped
when the token does not parse (JS `headingRgb && …`). -/
def bgCheckFails (M : RealModel) (tokenHex : String) (bgRgb : Pixel)
    (minC : ℚ) : Bool :=
  match hexToRgb tokenHex with
  | some t => decide (getContrastRatio M t bgRgb < minC)
  | none => false

/-- Light bg re-validation: if the chosen bg (not user-locked) fails
contrast with heading/text (4.5) or mutedText (3.0), replace it by the
lightest palette color with luminance ≥ 0.65 passing all three, else by
`'#f7f7f7'`. -/
def lightBgFinal (M : RealModel) (analyzed : List Analyzed) (bg : String)
    (heading text muted : String) (lockedLightBg : Option String) : String :=
  match hexToRgb bg with
  | none => bg
  | some bgRgb =>
    if isLockSet lockedLightBg then bg
    else
      let needs := bgCheckFails M heading bgRgb (9 / 2) ||
        bgCheckFails M text bgRgb (9 / 2) || bgCheckFails M muted bgRgb 3
      if needs then
        let cands := (analyzed.filter fun c =>
          !decide (c.luminance < 13 / 20) &&
            !bgCheckFails M heading c.rgb (9 / 2) &&
            !bgCheckFails M text c.rgb (9 / 2) &&
            !bgCheckFails M muted c.rgb 3).sortStable
          fun a b => decide (b.luminance ≤ a.luminance)
        match cands.head? with
        | some c => c.hex
        | none => "#f7f7f7"
      else bg

/-- `primaryScore` of the light primary stage-1 candidates. -/
def lightPrimaryScore (M : RealModel) (c : Analyzed) (surfaceRgb : Pixel) : ℚ :=
  let saturationScore := c.saturation * 4
  let vibrantBonus : ℚ := if c.isVibrant then 5 / 2 else 0
  let luminanceScore := 1 - qabs (c.luminance - 45 / 100)
  let populationScore := M.lg ((c.population : ℚ) + 1) / 12
  let contrastVsSurface := getContrastRatio M c.rgb surfaceRgb
  let contrastBonus := qmin (contrastVsSurface / 10) (1 / 2)
  let lightPenalty : ℚ :=
    if c.luminance > 17 / 20 then 2
    else if c.luminance > 3 / 4 then 4 / 5
    else if c.luminance > 13 / 20 then 3 / 10
    else 0
  let darkPenalty : ℚ := if c.luminance < 3 / 20 then 3 else if c.luminance < 1 / 4 then 1 else 0
  saturationScore + vibrantBonus + luminanceScore + populationScore + contrastBonus -
    lightPenalty - darkPenalty

/-- Light primary, stage 1: saturation ≥ 0.20, hex not a used text color,
contrast vs. surface ≥ 2.5; `isVibrant` re-looked-up in the raw palette;
best `primaryScore`. -/
def lightPrimaryStage1 (M : RealModel) (palette : List Swatch)
    (analyzed : List Analyzed) (usedText : List String) (surfaceRgb : Pixel) :
    Option Analyzed :=
  (((analyzed.filter fun c =>
      if c.saturation < 1 / 5 then false
      else if usedText.contains c.hex then false
      else !decide (getContrastRatio M c.rgb surfaceRgb < 5 / 2)).map fun c =>
      { c with isVibrant := lookupVibrant palette c }).sortStable fun a b =>
      decide (lightPrimaryScore M b surfaceRgb ≤ lightPrimaryScore M a surfaceRgb)).head?

/-- Light primary, stage 2 (relaxed saturation 0.15, luminance clamped to
(0.15, 0.85)), best saturation. -/
def lightPrimaryStage2 (M : RealModel) (analyzed : List Analyzed)
    (usedText : List String) (surfaceRgb : Pixel) : Option Analyzed :=
  ((analyzed.filter fun c =>
      !decide (c.saturation < 3 / 20) && !(usedText.contains c.hex) &&
        !decide (getContrastRatio M c.rgb surfaceRgb < 5 / 2) &&
        !decide (c.luminance < 3 / 20 ∨ c.luminance > 17 / 20)).sortStable fun a b =>
      decide (b.saturation ≤ a.saturation)).head?

/-- Light primary, stage 3 (contrast floor relaxed to 2.0). -/
def lightPrimaryStage3 (M : RealModel) (analyzed : List Analyzed)
    (usedText : List String) (surfaceRgb : Pixel) : Option Analyzed :=
  ((analyzed.filter fun c =>
      !decide (c.saturation < 3 / 20) && !(usedText.contains c.hex) &&
        !decide (getContrastRatio M c.rgb surfaceRgb < 2) &&
        !decide (c.luminance < 3 / 20 ∨ c.luminance > 17 / 20)).sortStable fun a b =>
      decide (b.saturation ≤ a.saturation)).head?

/-- The default-blue light primary (`#0071e3`). -/
def defaultLightPrimary (M : RealModel) : Analyzed :=
  { r := 0, g := 113, b := 227, population := 0
    isVibrant := false, isBrandColor := false
    hex := "#0071e3"
    luminance := getLuminance M 0 113 227
    saturation := getSaturation 0 113 227 }

/-- Brand-fidelity pass on a non-vibrant, non-default light primary:
substitute a same-hue palette variant with ≥ 20 % more saturation and
contrast ≥ 3 vs. surface. -/
def lightPrimaryVariantFix (M : RealModel) (palette : List Swatch)
    (surfaceRgb : Pixel) (lp : Analyzed) : Analyzed :=
  if !lp.isVibrant && lp.hex != "#0071e3" then
    let base := (hexToRgb lp.hex).getD ⟨0, 0, 0⟩
    let mv := findMostVibrantVariant base palette
    if getSaturation mv.r mv.g mv.b > lp.saturation * (12 / 10) then
      if getContrastRatio M mv.rgb surfaceRgb ≥ 3 then
        { r := mv.r, g := mv.g, b := mv.b, population := mv.population
          isVibrant := mv.isVibrant, isBrandColor := mv.isBrandColor
          hex := rgbToHex mv.r mv.g mv.b
          luminance := getLuminance M mv.r mv.g mv.b
          saturation := getSaturation mv.r mv.g mv.b }
      else lp
    else lp
  else lp

/-- The whole algorithmic (non-locked) light primary selection. -/
def lightPrimaryOf (M : RealModel) (palette : List Swatch)
    (analyzed : List Analyzed) (usedText : List String) (surfaceRgb : Pixel) :
    Analyzed :=
  let p1 := lightPrimaryStage1 M palette analyzed usedText surfaceRgb
  let p2 := match p1 with
    | some c => some c
    | none => lightPrimaryStage2 M analyzed usedText surfaceRgb
  let p3 := match p2 with
    | some c => some c
    | none => lightPrimaryStage3 M analyzed usedText surfaceRgb
  let lp := match p3 with
    | some c => c
    | none => defaultLightPrimary M
  lightPrimaryVariantFix M palette surfaceRgb lp

/-- Light `primary`/`onPrimary` tokens from the selected primary:
white/black on-color by contrast; if neither reaches 4.5 and no lock is
set, search the palette for a better primary (substituting both), else
fall back to `#0071e3`/white; with a lock set, keep the primary and take
the higher-contrast on-color. -/
def lightPrimaryAndOn (M : RealModel) (analyzed : List Analyzed)
    (lockSet : Bool) (lp : Analyzed) : String × String :=
  let contrastWithWhite := getContrastRatio M lp.rgb ⟨255, 255, 255⟩
  let contrastWithBlack := getContrastRatio M lp.rgb ⟨0, 0, 0⟩
  if contrastWithWhite ≥ 9 / 2 then (lp.hex, "#ffffff")
  else if contrastWithBlack ≥ 9 / 2 then (lp.hex, "#000000")
  else if !lockSet then
    match analyzed.find? fun c =>
        (decide (getContrastRatio M c.rgb ⟨255, 255, 255⟩ ≥ 9 / 2) ||
          decide (getContrastRatio M c.rgb ⟨0, 0, 0⟩ ≥ 9 / 2)) &&
          decide (c.saturation > 1 / 5) with
    | some bp =>
      (bp.hex,
        if getContrastRatio M bp.rgb ⟨255, 255, 255⟩ ≥ 9 / 2 then "#ffffff"
        else "#000000")
    | none => ("#0071e3", "#ffffff")
  else (lp.hex, if contrastWithWhite > contrastWithBlack then "#ffffff" else "#000000")

/-!
The light-mode pipeline, one named definition per intermediate `const` of
the source (the sequential stages of `generateTokens`), then assembled. -/

/-- `lightTokens.bg` before the re-validation step. -/
def lightBg0 (M : RealModel) (analyzed : List Analyzed)
    (lockedLightBg : Option String) : String :=
  useColor (lightBgCand M analyzed lockedLightBg) "#f7f7f7"

/-- `lightTokens.surface`. -/
def lightSurfaceStr (M : RealModel) (analyzed : List Analyzed)
    (lockedLightBg : Option String) : String :=
  lightSurfaceTok (lightBg0 M analyzed lockedLightBg)
    (lightSurfaceCand analyzed (lightBgCand M analyzed lockedLightBg))

/-- `lightSurfaceLuminance`. -/
def lightSurfaceLumQ (M : RealModel) (analyzed : List Analyzed)
    (lockedLightBg : Option String) : ℚ :=
  if lightSurfaceStr M analyzed lockedLightBg == "" then 1
  else lumOfHex M (lightSurfaceStr M analyzed lockedLightBg)

/-- `lightTokens.border`. -/
def lightBorderStr (M : RealModel) (analyzed : List Analyzed)
    (lockedLightBg : Option String) : String :=
  useColor
    (lightBorderCand analyzed (lightSurfaceLumQ M analyzed lockedLightBg)
      (lightBg0 M analyzed lockedLightBg) (lightSurfaceStr M analyzed lockedLightBg))
    "#e0e0e0"

/-- `surfaceRgb`. -/
def lightSurfaceRgbOpt (M : RealModel) (analyzed : List Analyzed)
    (lockedLightBg : Option String) : Option Pixel :=
  hexToRgb (lightSurfaceStr M analyzed lockedLightBg)

/-- The sorted light heading/text candidate list. -/
def lightHCands (M : RealModel) (analyzed : List Analyzed)
    (lockedLightBg : Option String) : List Analyzed :=
  lightHeadingCands M analyzed (lightSurfaceRgbOpt M analyzed lockedLightBg)

/-- `surfaceRgb || {255,255,255}`, the background of the text contrast
guarantees. -/
def lightBgForText (M : RealModel) (analyzed : List Analyzed)
    (lockedLightBg : Option String) : Pixel :=
  (lightSurfaceRgbOpt M analyzed lockedLightBg).getD ⟨255, 255, 255⟩

/-- `lightTokens.heading` before the swap/distinctness fix. -/
def lightHeading0Str (M : RealModel) (analyzed : List Analyzed)
    (lockedLightBg : Option String) : String :=
  ensureContrast M ((lightHCands M analyzed lockedLightBg).head?.map Analyzed.hex)
    (lightBgForText M analyzed lockedLightBg) (9 / 2) "#1a1a1a" "#000000"

/-- `lightTokens.text` before the swap/distinctness fix. -/
def lightText0Str (M : RealModel) (analyzed : List Analyzed)
    (lockedLightBg : Option String) : String :=
  ensureContrast M
    ((secondDistinct (lightHCands M analyzed lockedLightBg)).map Analyzed.hex)
    (lightBgForText M analyzed lockedLightBg) (9 / 2) "#333333" "#111111"

/-- The final (heading, text) pair. -/
def lightHT (M : RealModel) (analyzed : List Analyzed)
    (lockedLightBg : Option String) : String × String :=
  lightSwapFix M (lightHeading0Str M analyzed lockedLightBg)
    (lightText0Str M analyzed lockedLightBg)

/-- `textLuminance`. -/
def lightTextLumQ (M : RealModel) (analyzed : List Analyzed)
    (lockedLightBg : Option String) : ℚ :=
  if (lightHT M analyzed lockedLightBg).2 == "" then 0
  else lumOfHex M (lightHT M analyzed lockedLightBg).2

/-- `lightTokens.mutedText`. -/
def lightMutedStr (M : RealModel) (analyzed : List Analyzed)
    (lockedLightBg : Option String) : String :=
  ensureContrast M
    ((lightMutedCands M analyzed (lightSurfaceRgbOpt M analyzed lockedLightBg)
        (lightTextLumQ M analyzed lockedLightBg) (lightHT M analyzed lockedLightBg).1
        (lightHT M analyzed lockedLightBg).2).head?.map Analyzed.hex)
    (lightBgForText M analyzed lockedLightBg) (11 / 2) "#555555" "#444444"

/-- `lightTokens.bg` after the re-validation step. -/
def lightBgStr (M : RealModel) (analyzed : List Analyzed)
    (lockedLightBg : Option String) : String :=
  lightBgFinal M analyzed (lightBg0 M analyzed lockedLightBg)
    (lightHT M analyzed lockedLightBg).1 (lightHT M analyzed lockedLightBg).2
    (lightMutedStr M analyzed lockedLightBg) lockedLightBg

/-- `usedTextColors` (`.filter(Boolean)`). -/
def lightUsedText (M : RealModel) (analyzed : List Analyzed)
    (lockedLightBg : Option String) : List String :=
  [(lightHT M analyzed lockedLightBg).1, (lightHT M analyzed lockedLightBg).2,
    lightMutedStr M analyzed lockedLightBg].filter fun s => s != ""

/-- `lightSurfaceForPrimary = hexToRgb(lightTokens.surface || '#ffffff')`. -/
def lightSurfForPrimary (M : RealModel) (analyzed : List Analyzed)
    (lockedLightBg : Option String) : Pixel :=
  (hexToRgb
      (if lightSurfaceStr M analyzed lockedLightBg == "" then "#ffffff"
       else lightSurfaceStr M analyzed lockedLightBg)).getD ⟨0, 0, 0⟩

/-- The final `lightPrimary` object: the resolved lock if any, else the
algorithmic selection. -/
def lightLp (M : RealModel) (palette : List Swatch) (analyzed : List Analyzed)
    (lockedPrimary lockedLightBg : Option String) : Analyzed :=
  match
    (if isLockSet lockedPrimary then resolveLock M analyzed (lockedPrimary.getD "")
     else none) with
  | some c => c
  | none =>
    lightPrimaryOf M palette analyzed (lightUsedText M analyzed lockedLightBg)
      (lightSurfForPrimary M analyzed lockedLightBg)

/-- The complete light-mode token derivation; also returns the
`lightPrimary` object (dark mode's Try-3 fallback reads it). -/
def lightMode (M : RealModel) (palette : List Swatch) (analyzed : List Analyzed)
    (lockedPrimary lockedLightBg : Option String) : TokenSet × Analyzed :=
  let ht := lightHT M analyzed lockedLightBg
  let lp := lightLp M palette analyzed lockedPrimary lockedLightBg
  let pOn := lightPrimaryAndOn M analyzed (isLockSet lockedPrimary) lp
  (⟨lightBgStr M analyzed lockedLightBg, lightSurfaceStr M analyzed lockedLightBg,
    lightBorderStr M analyzed lockedLightBg, ht.2, ht.1,
    lightMutedStr M analyzed lockedLightBg, pOn.1, pOn.2⟩, lp)

/-! ### Dark mode -/

/-- Dark bg candidate: the lock if set, else
`findBest(c => c.luminance < 0.06 && c.saturation < 0.20)`. -/
def darkBgCand (M : RealModel) (analyzed : List Analyzed)
    (lockedDarkBg : Option String) : Option Analyzed :=
  if isLockSet lockedDarkBg then resolveLock M analyzed (lockedDarkBg.getD "")
  else findBest analyzed fun c => decide (c.luminance < 6 / 100) && decide (c.saturation < 1 / 5)

/-- Dark surface candidate: luminance strictly between the bg's and 0.05,
saturation < 0.15, not the bg candidate's hex. -/
def darkSurfaceCand (analyzed : List Analyzed) (bgLuminance : ℚ)
    (bgCand : Option Analyzed) : Option Analyzed :=
  findBest analyzed fun c =>
    decide (c.luminance > bgLuminance) && decide (c.luminance < 5 / 100) &&
      decide (c.saturation < 3 / 20) &&
      (match bgCand with
       | none => true
       | some bc => c.hex != bc.hex)

/-- Dark surface token with the `surface === bg → '#141414'` fix. -/
def darkSurfaceTok (bg : String) (cand : Option Analyzed) : String :=
  let s := useColor cand "#141414"
  if s == bg then "#141414" else s

/-- Dark border candidate. -/
def darkBorderCand (analyzed : List Analyzed) (surfaceLum : ℚ)
    (bg surface : String) : Option Analyzed :=
  findBest analyzed fun c =>
    decide (c.luminance > surfaceLum) && decide (c.luminance < 35 / 100) &&
      decide (c.saturation < 1 / 5) && (c.hex != bg) && (c.hex != surface)

/-- `textScore` of the dark heading/text filter. -/
def darkTextScore (c : Analyzed) : ℚ := c.luminance * 2 - c.saturation * 2

/-- Dark heading/text candidate list. -/
def darkHeadingCands (M : RealModel) (analyzed : List Analyzed)
    (surfaceRgb : Option Pixel) : List Analyzed :=
  (analyzed.filter fun c =>
    if c.saturation > 1 / 4 then false
    else
      match surfaceRgb with
      | none => decide (c.luminance > 7 / 10)
      | some srgb => decide (getContrastRatio M c.rgb srgb ≥ 9 / 2)).sortStable
    fun a b => decide (darkTextScore b ≤ darkTextScore a)

/-- Dark heading/text swap (if text ended up lighter than heading) and the
forced distinguishable pair when they coincide. -/
def darkSwapFix (M : RealModel) (heading text : String) : String × String :=
  let p :=
    if text != "" && heading != "" then
      if lumOfHex M text > lumOfHex M heading then (text, heading) else (heading, text)
    else (heading, text)
  if p.1 == p.2 then ("#ffffff", "#c0c0c0") else p

/-- `mutedScore` of the dark muted filter. -/
def darkMutedScore (c : Analyzed) : ℚ := (1 - qabs (c.luminance - 1 / 2)) - c.saturation

/-- Dark muted candidate list. -/
def darkMutedCands (M : RealModel) (analyzed : List Analyzed)
    (surfaceRgb : Option Pixel) (textLuminance : ℚ) (heading text : String) :
    List Analyzed :=
  (analyzed.filter fun c =>
    if c.saturation > 1 / 4 then false
    else
      match surfaceRgb with
      | none => decide (c.luminance > 3 / 10) && decide (c.luminance < 3 / 5)
      | some srgb =>
        let contrast := getContrastRatio M c.rgb srgb
        decide (contrast ≥ 4) && decide (contrast < 10) &&
          decide (c.luminance < textLuminance) && (c.hex != heading) &&
          (c.hex != text)).sortStable
    fun a b => decide (darkMutedScore b ≤ darkMutedScore a)

/-- Dark bg re-validation: darkest palette color with luminance ≤ 0.15
passing the three text contrasts, else `'#0b0b0b'`. -/
def darkBgFinal (M : RealModel) (analyzed : List Analyzed) (bg : String)
    (heading text muted : String) (lockedDarkBg : Option String) : String :=
  match hexToRgb bg with
  | none => bg
  | some bgRgb =>
    if isLockSet lockedDarkBg then bg
    else
      let needs := bgCheckFails M heading bgRgb (9 / 2) ||
        bgCheckFails M text bgRgb (9 / 2) || bgCheckFails M muted bgRgb 3
      if needs then
        let cands := (analyzed.filter fun c =>
          !decide (c.luminance > 15 / 100) &&
            !bgCheckFails M heading c.rgb (9 / 2) &&
            !bgCheckFails M text c.rgb (9 / 2) &&
            !bgCheckFails M muted c.rgb 3).sortStable
          fun a b => decide (a.luminance ≤ b.luminance)
        match cands.head? with
        | some c => c.hex
        | none => "#0b0b0b"
      else bg

/-- `primaryScore` of the dark primary stage-1 candidates. -/
def darkPrimaryScore (M : RealModel) (c : Analyzed) (surfaceRgb : Pixel) : ℚ :=
  let saturationScore := c.saturation * 4
  let vibrantBonus : ℚ := if c.isVibrant then 5 / 2 else 0
  let luminanceScore := 1 - qabs (c.luminance - 45 / 100)
  let populationScore := M.lg ((c.population : ℚ) + 1) / 12
  let contrastVsSurface := getContrastRatio M c.rgb surfaceRgb
  let contrastBonus := qmin (contrastVsSurface / 10) (1 / 2)
  let darkPenalty : ℚ :=
    if c.luminance < 15 / 100 then 3 / 2 else if c.luminance < 1 / 4 then 1 / 2 else 0
  let lightPenalty : ℚ :=
    if c.luminance > 4 / 5 then 3 / 2 else if c.luminance > 7 / 10 then 1 / 2 else 0
  saturationScore + vibrantBonus + luminanceScore + populationScore + contrastBonus -
    darkPenalty - lightPenalty

/-- Dark primary, stage 1. -/
def darkPrimaryStage1 (M : RealModel) (palette : List Swatch)
    (analyzed : List Analyzed) (usedText : List String) (surfaceRgb : Pixel) :
    Option Analyzed :=
  (((analyzed.filter fun c =>
      if c.saturation < 1 / 5 then false
      else if usedText.contains c.hex then false
      else !decide (getContrastRatio M c.rgb surfaceRgb < 5 / 2)).map fun c =>
      { c with isVibrant := lookupVibrant palette c }).sortStable fun a b =>
      decide (darkPrimaryScore M b surfaceRgb ≤ darkPrimaryScore M a surfaceRgb)).head?

/-- Dark primary, stage 2 (relaxed saturation 0.15, luminance clamped to
(0.2, 0.8)), best saturation. -/
def darkPrimaryStage2 (M : RealModel) (analyzed : List Analyzed)
    (usedText : List String) (surfaceRgb : Pixel) : Option Analyzed :=
  ((analyzed.filter fun c =>
      !decide (c.saturation < 3 / 20) && !(usedText.contains c.hex) &&
        !decide (getContrastRatio M c.rgb surfaceRgb < 5 / 2) &&
        !decide (c.luminance < 1 / 5 ∨ c.luminance > 4 / 5)).sortStable fun a b =>
      decide (b.saturation ≤ a.saturation)).head?

/-- Dark primary, stage 3 (contrast floor relaxed to 2.0). -/
def darkPrimaryStage3 (M : RealModel) (analyzed : List Analyzed)
    (usedText : List String) (surfaceRgb : Pixel) : Option Analyzed :=
  ((analyzed.filter fun c =>
      !decide (c.saturation < 3 / 20) && !(usedText.contains c.hex) &&
        !decide (getContrastRatio M c.rgb surfaceRgb < 2) &&
        !decide (c.luminance < 1 / 5 ∨ c.luminance > 4 / 5)).sortStable fun a b =>
      decide (b.saturation ≤ a.saturation)).head?

/-- The default-blue dark primary (`#409cff`). -/
def defaultDarkPrimary (M : RealModel) : Analyzed :=
  { r := 64, g := 156, b := 255, population := 0
    isVibrant := false, isBrandColor := false
    hex := "#409cff"
    luminance := getLuminance M 64 156 255
    saturation := getSaturation 64 156 255 }

/-- Brand-fidelity pass on a non-vibrant, non-default dark primary (also
requires the variant's luminance > 0.2). -/
def darkPrimaryVariantFix (M : RealModel) (palette : List Swatch)
    (surfaceRgb : Pixel) (dp : Analyzed) : Analyzed :=
  if !dp.isVibrant && dp.hex != "#409cff" then
    let base := (hexToRgb dp.hex).getD ⟨0, 0, 0⟩
    let mv := findMostVibrantVariant base palette
    if getSaturation mv.r mv.g mv.b > dp.saturation * (12 / 10) then
      if getLuminance M mv.r mv.g mv.b > 1 / 5 ∧
          getContrastRatio M mv.rgb surfaceRgb ≥ 3 then
        { r := mv.r, g := mv.g, b := mv.b, population := mv.population
          isVibrant := mv.isVibrant, isBrandColor := mv.isBrandColor
          hex := rgbToHex mv.r mv.g mv.b
          luminance := getLuminance M mv.r mv.g mv.b
          saturation := getSaturation mv.r mv.g mv.b }
      else dp
    else dp
  else dp

/-- The whole algorithmic (non-locked) dark primary selection, including
the Try-3 reuse of the light primary when it shows on the dark surface. -/
def darkPrimaryOf (M : RealModel) (palette : List Swatch)
    (analyzed : List Analyzed) (usedText : List String) (surfaceRgb : Pixel)
    (lightPrimary : Analyzed) : Analyzed :=
  let p1 := darkPrimaryStage1 M palette analyzed usedText surfaceRgb
  let p2 := match p1 with
    | some c => some c
    | none => darkPrimaryStage2 M analyzed usedText surfaceRgb
  let p3 := match p2 with
    | some c => some c
    | none => darkPrimaryStage3 M analyzed usedText surfaceRgb
  let p4 := match p3 with
    | some c => some c
    | none =>
      match hexToRgb lightPrimary.hex with
      | some lpRgb =>
        if getContrastRatio M lpRgb surfaceRgb ≥ 5 / 2 then some lightPrimary else none
      | none => none
  let dp := match p4 with
    | some c => c
    | none => defaultDarkPrimary M
  darkPrimaryVariantFix M palette surfaceRgb dp

/-- Dark `primary`/`onPrimary` tokens: white/black by contrast, else
whichever of the two contrasts is higher (no substitution search). -/
def darkPrimaryAndOn (M : RealModel) (dp : Analyzed) : String × String :=
  let contrastWithWhite := getContrastRatio M dp.rgb ⟨255, 255, 255⟩
  let contrastWithBlack := getContrastRatio M dp.rgb ⟨0, 0, 0⟩
  if contrastWithWhite ≥ 9 / 2 then (dp.hex, "#ffffff")
  else if contrastWithBlack ≥ 9 / 2 then (dp.hex, "#000000")
  else (dp.hex, if contrastWithWhite > contrastWithBlack then "#ffffff" else "#000000")

/-!
The dark-mode pipeline, one named definition per intermediate `const`. -/

/-- `darkTokens.bg` before the re-validation step. -/
def darkBg0 (M : RealModel) (analyzed : List Analyzed)
    (lockedDarkBg : Option String) : String :=
  useColor (darkBgCand M analyzed lockedDarkBg) "#0b0b0b"

/-- `bgLuminance`. -/
def darkBgLumQ (M : RealModel) (analyzed : List Analyzed)
    (lockedDarkBg : Option String) : ℚ :=
  if darkBg0 M analyzed lockedDarkBg == "" then 1 / 100
  else lumOfHex M (darkBg0 M analyzed lockedDarkBg)

/-- `darkTokens.surface`. -/
def darkSurfaceStr (M : RealModel) (analyzed : List Analyzed)
    (lockedDarkBg : Option String) : String :=
  darkSurfaceTok (darkBg0 M analyzed lockedDarkBg)
    (darkSurfaceCand analyzed (darkBgLumQ M analyzed lockedDarkBg)
      (darkBgCand M analyzed lockedDarkBg))

/-- `surfaceLuminance`. -/
def darkSurfaceLumQ (M : RealModel) (analyzed : List Analyzed)
    (lockedDarkBg : Option String) : ℚ :=
  if darkSurfaceStr M analyzed lockedDarkBg == "" then 2 / 100
  else lumOfHex M (darkSurfaceStr M analyzed lockedDarkBg)

/-- `darkTokens.border`. -/
def darkBorderStr (M : RealModel) (analyzed : List Analyzed)
    (lockedDarkBg : Option String) : String :=
  useColor
    (darkBorderCand analyzed (darkSurfaceLumQ M analyzed lockedDarkBg)
      (darkBg0 M analyzed lockedDarkBg) (darkSurfaceStr M analyzed lockedDarkBg))
    "#2a2a2a"

/-- `darkSurfaceRgb`. -/
def darkSurfaceRgbOpt (M : RealModel) (analyzed : List Analyzed)
    (lockedDarkBg : Option String) : Option Pixel :=
  hexToRgb (darkSurfaceStr M analyzed lockedDarkBg)

/-- The sorted dark heading/text candidate list. -/
def darkHCands (M : RealModel) (analyzed : List Analyzed)
    (lockedDarkBg : Option String) : List Analyzed :=
  darkHeadingCands M analyzed (darkSurfaceRgbOpt M analyzed lockedDarkBg)

/-- `darkSurfaceRgb || {11,11,11}`. -/
def darkBgForText (M : RealModel) (analyzed : List Analyzed)
    (lockedDarkBg : Option String) : Pixel :=
  (darkSurfaceRgbOpt M analyzed lockedDarkBg).getD ⟨11, 11, 11⟩

/-- `darkTokens.heading` before the swap/distinctness fix. -/
def darkHeading0Str (M : RealModel) (analyzed : List Analyzed)
    (lockedDarkBg : Option String) : String :=
  ensureContrast M ((darkHCands M analyzed lockedDarkBg).head?.map Analyzed.hex)
    (darkBgForText M analyzed lockedDarkBg) (9 / 2) "#ffffff" "#e8e8e8"

/-- `darkTokens.text` before the swap/distinctness fix. -/
def darkText0Str (M : RealModel) (analyzed : List Analyzed)
    (lockedDarkBg : Option String) : String :=
  ensureContrast M
    ((secondDistinct (darkHCands M analyzed lockedDarkBg)).map Analyzed.hex)
    (darkBgForText M analyzed lockedDarkBg) (9 / 2) "#f0f0f0" "#d4d4d4"

/-- The final dark (heading, text) pair. -/
def darkHT (M : RealModel) (analyzed : List Analyzed)
    (lockedDarkBg : Option String) : String × String :=
  darkSwapFix M (darkHeading0Str M analyzed lockedDarkBg)
    (darkText0Str M analyzed lockedDarkBg)

/-- `darkTextLuminance`. -/
def darkTextLumQ (M : RealModel) (analyzed : List Analyzed)
    (lockedDarkBg : Option String) : ℚ :=
  if (darkHT M analyzed lockedDarkBg).2 == "" then 1
  else lumOfHex M (darkHT M analyzed lockedDarkBg).2

/-- `darkTokens.mutedText`. -/
def darkMutedStr (M : RealModel) (analyzed : List Analyzed)
    (lockedDarkBg : Option String) : String :=
  ensureContrast M
    ((darkMutedCands M analyzed (darkSurfaceRgbOpt M analyzed lockedDarkBg)
        (darkTextLumQ M analyzed lockedDarkBg) (darkHT M analyzed lockedDarkBg).1
        (darkHT M analyzed lockedDarkBg).2).head?.map Analyzed.hex)
    (darkBgForText M analyzed lockedDarkBg) (11 / 2) "#d0d0d0" "#b8b8b8"

/-- `darkTokens.bg` after the re-validation step. -/
def darkBgStr (M : RealModel) (analyzed : List Analyzed)
    (lockedDarkBg : Option String) : String :=
  darkBgFinal M analyzed (darkBg0 M analyzed lockedDarkBg)
    (darkHT M analyzed lockedDarkBg).1 (darkHT M analyzed lockedDarkBg).2
    (darkMutedStr M analyzed lockedDarkBg) lockedDarkBg

/-- Dark `usedTextColors`. -/
def darkUsedText (M : RealModel) (analyzed : List Analyzed)
    (lockedDarkBg : Option String) : List String :=
  [(darkHT M analyzed lockedDarkBg).1, (darkHT M analyzed lockedDarkBg).2,
    darkMutedStr M analyzed lockedDarkBg].filter fun s => s != ""

/-- `darkSurfaceForPrimary = hexToRgb(darkTokens.surface || '#141414')`. -/
def darkSurfForPrimary (M : RealModel) (analyzed : List Analyzed)
    (lockedDarkBg : Option String) : Pixel :=
  (hexToRgb
      (if darkSurfaceStr M analyzed lockedDarkBg == "" then "#141414"
       else darkSurfaceStr M analyzed lockedDarkBg)).getD ⟨0, 0, 0⟩

/-- The final `darkPrimary` object. -/
def darkDp (M : RealModel) (palette : List Swatch) (analyzed : List Analyzed)
    (lockedPrimary lockedDarkBg : Option String) (lightPrimary : Analyzed) :
    Analyzed :=
  match
    (if isLockSet lockedPrimary then resolveLock M analyzed (lockedPrimary.getD "")
     else none) with
  | some c => c
  | none =>
    darkPrimaryOf M palette analyzed (darkUsedText M analyzed lockedDarkBg)
      (darkSurfForPrimary M analyzed lockedDarkBg) lightPrimary

/-- The complete dark-mode token derivation. -/
def darkMode (M : RealModel) (palette : List Swatch) (analyzed : List Analyzed)
    (lockedPrimary lockedDarkBg : Option String) (lightPrimary : Analyzed) :
    TokenSet :=
  let ht := darkHT M analyzed lockedDarkBg
  let pOn := darkPrimaryAndOn M
    (darkDp M palette analyzed lockedPrimary lockedDarkBg lightPrimary)
  ⟨darkBgStr M analyzed lockedDarkBg, darkSurfaceStr M analyzed lockedDarkBg,
    darkBorderStr M analyzed lockedDarkBg, ht.2, ht.1,
    darkMutedStr M analyzed lockedDarkBg, pOn.1, pOn.2⟩

/-- `generateTokens(palette, lockedPrimary, lockedLightBg, lockedDarkBg)`. -/
def generateTokens (M : RealModel) (palette : List Swatch)
    (lockedPrimary lockedLightBg lockedDarkBg : Option String) : TokenPair :=
  let analyzed := palette.map (analyzeSwatch M)
  let lr := lightMode M palette analyzed lockedPrimary lockedLightBg
  ⟨lr.1, darkMode M palette analyzed lockedPrimary lockedDarkBg lr.2⟩

/-! ## Basic facts about hex strings -/

/-- A string is a valid hex color iff `hexToRgb` parses it. -/
def isValidHex (s : String) : Bool := (hexToRgb s).isSome

theorem hexDigitVal_toHexDigit : ∀ n < 16, hexDigitVal (toHexDigit n) = some n := by
  decide

theorem hexPairVal_byteToHex (n : ℕ) (h : n ≤ 255) :
    hexPairVal (toHexDigit (n / 16)) (toHexDigit (n % 16)) = some n := by
  have h1 : n / 16 < 16 := Nat.div_lt_of_lt_mul (by omega)
  have h2 : n % 16 < 16 := Nat.mod_lt _ (by omega)
  have e1 := hexDigitVal_toHexDigit _ h1
  have e2 := hexDigitVal_toHexDigit _ h2
  simp only [hexPairVal, e1, e2, Option.bind_eq_bind, Option.some_bind, Option.pure_def]
  exact congrArg some (Nat.div_add_mod n 16)

/-- C10: for all channel values `r, g, b ≤ 255`, `rgbToHex` produces a
`#rrggbb` string that `hexToRgb` parses back to exactly `{r, g, b}`. -/
theorem hex_roundtrip (r g b : ℕ) (hr : r ≤ 255) (hg : g ≤ 255) (hb : b ≤ 255) :
    hexToRgb (rgbToHex r g b) = some ⟨r, g, b⟩ := by
  show hexToRgb ⟨'#' :: (byteToHex r ++ byteToHex g ++ byteToHex b)⟩ = _
  simp only [hexToRgb, byteToHex, List.cons_append, List.nil_append]
  simp only [parseHex6, hexPairVal_byteToHex r hr, hexPairVal_byteToHex g hg,
    hexPairVal_byteToHex b hb, Option.bind_eq_bind, Option.some_bind, Option.pure_def]

/-- Witness for C10 at the concrete triple (3, 77, 255). -/
theorem hex_roundtrip_witness :
    3 ≤ 255 ∧ 77 ≤ 255 ∧ 255 ≤ 255 ∧ hexToRgb (rgbToHex 3 77 255) = some ⟨3, 77, 255⟩ :=
  ⟨by omega, by omega, by omega, hex_roundtrip 3 77 255 (by omega) (by omega) (by omega)⟩

/-! ## C9: heading and text are always distinct -/

theorem lightSwapFix_ne (M : RealModel) (h t : String) :
    (lightSwapFix M h t).1 ≠ (lightSwapFix M h t).2 := by
  unfold lightSwapFix
  set p := if t != "" && h != "" then
      if lumOfHex M t < lumOfHex M h then (t, h) else (h, t)
    else (h, t) with hp
  by_cases hq : (p.1 == p.2) = true
  · simp only [hq, if_true]
    intro hEq
    exact absurd hEq (by decide)
  · simp only [Bool.not_eq_true] at hq
    simp only [hq, Bool.false_eq_true, if_false]
    intro hEq
    rw [hEq] at hq
    simp at hq

theorem darkSwapFix_ne (M : RealModel) (h t : String) :
    (darkSwapFix M h t).1 ≠ (darkSwapFix M h t).2 := by
  unfold darkSwapFix
  set p := if t != "" && h != "" then
      if lumOfHex M t > lumOfHex M h then (t, h) else (h, t)
    else (h, t) with hp
  by_cases hq : (p.1 == p.2) = true
  · simp only [hq, if_true]
    intro hEq
    exact absurd hEq (by decide)
  · simp only [Bool.not_eq_true] at hq
    simp only [hq, Bool.false_eq_true, if_false]
    intro hEq
    rw [hEq] at hq
    simp at hq

/-- C9: in both modes, for every palette and lock combination, the derived
`heading` and `text` tokens differ: the final distinctness step replaces a
coinciding pair by a hardcoded distinguishable pair, and otherwise the two
are distinct by that very test. -/
theorem heading_ne_text (M : RealModel) (palette : List Swatch)
    (lockP lockLB lockDB : Option String) :
    (generateTokens M palette lockP lockLB lockDB).light.heading ≠
        (generateTokens M palette lockP lockLB lockDB).light.text ∧
      (generateTokens M palette lockP lockLB lockDB).dark.heading ≠
        (generateTokens M palette lockP lockLB lockDB).dark.text :=
  ⟨lightSwapFix_ne M _ _, darkSwapFix_ne M _ _⟩

/-! ## C4: removeDuplicates and idempotence -/

theorem colorDistanceSq_comm (a b : Pixel) :
    colorDistanceSq a b = colorDistanceSq b a := by
  unfold colorDistanceSq
  ring_nf

theorem distLt_comm (a b : Pixel) (t : ℚ) : distLt a b t = distLt b a t := by
  unfold distLt
  rw [colorDistanceSq_comm]

theorem dedupStep_of_separated (t : ℚ) (acc : List Swatch) (color : Swatch)
    (h : ∀ a ∈ acc, distLt color.rgb a.rgb t = false) :
    dedupStep t acc color = acc ++ [color] := by
  unfold dedupStep
  have hany : (acc.any fun ex => distLt color.rgb ex.rgb t) = false := by
    rw [List.any_eq_false]
    intro a ha
    simp [h a ha]
  rw [hany]
  simp

theorem foldl_dedup_of_separated (t : ℚ) :
    ∀ (xs acc : List Swatch),
      (∀ x ∈ xs, ∀ a ∈ acc, distLt x.rgb a.rgb t = false) →
      xs.Pairwise (fun a b => distLt b.rgb a.rgb t = false) →
      List.foldl (dedupStep t) acc xs = acc ++ xs := by
  intro xs
  induction xs with
  | nil => intro acc _ _; simp
  | cons x xs ih =>
    intro acc hc hp
    rw [List.foldl_cons,
      dedupStep_of_separated t acc x (hc x (List.mem_cons_self x xs)),
      ih (acc ++ [x]) ?_ hp.of_cons]
    · simp
    · intro y hy a ha
      rcases List.mem_append.1 ha with hl | hr
      · exact hc y (List.mem_cons_of_mem x hy) a hl
      · rw [List.mem_singleton.1 hr]
        exact (List.pairwise_cons.1 hp).1 y hy

/-- A list whose members are pairwise farther apart than the threshold is
a fixed point: every step appends. -/
theorem removeDuplicates_of_separated (xs : List Swatch) (t : ℚ)
    (h : xs.Pairwise fun a b => distLt a.rgb b.rgb t = false) :
    removeDuplicates xs t = xs := by
  unfold removeDuplicates
  have h' : xs.Pairwise fun a b => distLt b.rgb a.rgb t = false := by
    refine h.imp ?_
    intro a b hab
    rw [distLt_comm]
    exact hab
  exact foldl_dedup_of_separated t xs [] (by intro x _ a ha; cases ha) h'

/-- C4 (amended): a second run of `removeDuplicates` is the identity
whenever the first run's output is pairwise separated by the threshold
(which holds exactly when no saturation-replacement moved a kept color). -/
theorem removeDuplicates_idempotent_of_separated (xs : List Swatch) (t : ℚ)
    (h : (removeDuplicates xs t).Pairwise fun a b => distLt a.rgb b.rgb t = false) :
    removeDuplicates (removeDuplicates xs t) t = removeDuplicates xs t :=
  removeDuplicates_of_separated _ t h

/-- C4 counterexample: with threshold 50 and the three greens
(20,100,20), (20,130,20), (20,112,20), the first run replaces the kept
(20,100,20) by the more saturated (20,112,20) — now within the threshold
of the kept (20,130,20) — so a second run merges further. -/
theorem removeDuplicates_not_idempotent :
    ¬(removeDuplicates
        (removeDuplicates
          [⟨20, 100, 20, 1, false, false⟩, ⟨20, 130, 20, 1, false, false⟩,
            ⟨20, 112, 20, 1, false, false⟩] 50) 50 =
      removeDuplicates
        [⟨20, 100, 20, 1, false, false⟩, ⟨20, 130, 20, 1, false, false⟩,
          ⟨20, 112, 20, 1, false, false⟩] 50) := by
  have e1 : removeDuplicates
      [(⟨20, 100, 20, 1, false, false⟩ : Swatch), ⟨20, 130, 20, 1, false, false⟩,
        ⟨20, 112, 20, 1, false, false⟩] 50 =
      [⟨20, 112, 20, 2, false, false⟩, ⟨20, 130, 20, 1, false, false⟩] := by
    with_unfolding_all rfl
  have e2 : removeDuplicates
      [(⟨20, 112, 20, 2, false, false⟩ : Swatch), ⟨20, 130, 20, 1, false, false⟩] 50 =
      [⟨20, 130, 20, 3, false, false⟩] := by
    with_unfolding_all rfl
  intro h
  rw [e1, e2] at h
  exact absurd h (by decide)

/-- Witness for the amended C4 at a concrete separated list. -/
theorem removeDuplicates_idempotent_witness :
    (removeDuplicates
        [(⟨20, 100, 20, 1, false, false⟩ : Swatch), ⟨20, 130, 20, 1, false, false⟩]
        50).Pairwise (fun a b => distLt a.rgb b.rgb 50 = false) ∧
      removeDuplicates
        (removeDuplicates
          [(⟨20, 100, 20, 1, false, false⟩ : Swatch), ⟨20, 130, 20, 1, false, false⟩] 50)
        50 =
      removeDuplicates
        [(⟨20, 100, 20, 1, false, false⟩ : Swatch), ⟨20, 130, 20, 1, false, false⟩] 50 := by
  have hp : (removeDuplicates
      [(⟨20, 100, 20, 1, false, false⟩ : Swatch), ⟨20, 130, 20, 1, false, false⟩]
      50).Pairwise (fun a b => distLt a.rgb b.rgb 50 = false) := by
    have e : removeDuplicates
        [(⟨20, 100, 20, 1, false, false⟩ : Swatch), ⟨20, 130, 20, 1, false, false⟩] 50 =
        [⟨20, 100, 20, 1, false, false⟩, ⟨20, 130, 20, 1, false, false⟩] := by
      with_unfolding_all rfl
    rw [e]
    refine List.Pairwise.cons ?_ (List.pairwise_singleton _ _)
    intro b hb
    rw [List.mem_singleton.1 hb]
    with_unfolding_all rfl
  exact ⟨hp, removeDuplicates_idempotent_of_separated _ 50 hp⟩

/-! ## C8: the Vibrant-pass duplicate test -/

/-- The discard rule exactly as the specification words it: an existing
entry within distance 35, or an existing entry of similar hue (25°) whose
saturation is at least 85 % of the candidate's. -/
def specVibrantDiscard85 (avg : Swatch) (existingPalette : List Swatch) : Prop :=
  ∃ e ∈ existingPalette,
    distLt avg.rgb e.rgb 35 = true ∨
      (isSimilarHue (rgbToHsl e.r e.g e.b) (rgbToHsl avg.r avg.g avg.b) 25 = true ∧
        (rgbToHsl e.r e.g e.b).s ≥ 85 / 100 * (rgbToHsl avg.r avg.g avg.b).s)

theorem vibrantIsDuplicate_elem (avg e : Swatch) :
    ((if distLt avg.rgb e.rgb 35 then true
      else
        if isSimilarHue (rgbToHsl e.r e.g e.b) (rgbToHsl avg.r avg.g avg.b) 25 then
          decide ((rgbToHsl avg.r avg.g avg.b).s ≤ (rgbToHsl e.r e.g e.b).s * (115 / 100))
        else false) = true) ↔
      (distLt avg.rgb e.rgb 35 = true ∨
        (isSimilarHue (rgbToHsl e.r e.g e.b) (rgbToHsl avg.r avg.g avg.b) 25 = true ∧
          (rgbToHsl avg.r avg.g avg.b).s ≤ (rgbToHsl e.r e.g e.b).s * (115 / 100))) := by
  by_cases hd : distLt avg.rgb e.rgb 35 = true
  · simp [hd]
  · simp only [Bool.not_eq_true] at hd
    by_cases hs : isSimilarHue (rgbToHsl e.r e.g e.b) (rgbToHsl avg.r avg.g avg.b) 25 = true
    · simp [hd, hs]
    · simp only [Bool.not_eq_true] at hs
      simp [hd, hs]

/-- C8 (amended): a vibrant candidate is flagged duplicate exactly when
some existing entry is within distance 35, or some existing entry shares
its hue (within 25°) and the candidate's saturation is at most 1.15 times
the entry's (equivalently, the entry's saturation is at least 1/1.15 ≈
86.96 % of the candidate's — not 85 %). -/
theorem vibrantIsDuplicate_iff (avg : Swatch) (existingPalette : List Swatch) :
    vibrantIsDuplicate avg existingPalette = true ↔
      ∃ e ∈ existingPalette,
        distLt avg.rgb e.rgb 35 = true ∨
          (isSimilarHue (rgbToHsl e.r e.g e.b) (rgbToHsl avg.r avg.g avg.b) 25 = true ∧
            (rgbToHsl avg.r avg.g avg.b).s ≤ (rgbToHsl e.r e.g e.b).s * (115 / 100)) := by
  unfold vibrantIsDuplicate
  rw [List.any_eq_true]
  constructor
  · rintro ⟨e, he, hp⟩
    exact ⟨e, he, (vibrantIsDuplicate_elem avg e).1 hp⟩
  · rintro ⟨e, he, hp⟩
    exact ⟨e, he, (vibrantIsDuplicate_elem avg e).2 hp⟩

/-- C8 counterexample: candidate pure red (saturation 1) against the
single palette entry (233,18,18) (saturation 215/251 ≈ 0.857, hue 0,
distance ≈ 58).  The entry's saturation exceeds 85 % of the candidate's,
so the claim says "discard"; the code compares `1 ≤ (215/251)·1.15`,
which is false, and keeps the candidate. -/
theorem vibrantIsDuplicate_85_counterexample :
    vibrantIsDuplicate ⟨255, 0, 0, 10, true, false⟩ [⟨233, 18, 18, 5, false, false⟩] =
        false ∧
      specVibrantDiscard85 ⟨255, 0, 0, 10, true, false⟩ [⟨233, 18, 18, 5, false, false⟩] := by
  constructor
  · with_unfolding_all rfl
  · refine ⟨⟨233, 18, 18, 5, false, false⟩, List.mem_singleton_self _, Or.inr ⟨?_, ?_⟩⟩
    · with_unfolding_all rfl
    · have e1 : (rgbToHsl 233 18 18).s = 215 / 251 := by with_unfolding_all rfl
      have e2 : (rgbToHsl 255 0 0).s = 1 := by with_unfolding_all rfl
      show (rgbToHsl 233 18 18).s ≥ 85 / 100 * (rgbToHsl 255 0 0).s
      rw [e1, e2]
      norm_num

/-! ## C7: medianCut returns 1..K swatches, populations summing to the
pixel count -/

theorem length_insertLe {α : Type} (le : α → α → Bool) (a : α) :
    ∀ l : List α, (insertLe le a l).length = l.length + 1 := by
  intro l
  induction l with
  | nil => rfl
  | cons b l ih =>
    unfold insertLe
    by_cases h : le a b = true
    · simp [h]
    · simp only [Bool.not_eq_true] at h
      simp [h, ih]

theorem length_sortLe {α : Type} (le : α → α → Bool) :
    ∀ l : List α, (sortLe le l).length = l.length := by
  intro l
  induction l with
  | nil => rfl
  | cons a l ih =>
    unfold sortLe
    rw [length_insertLe, ih]
    rfl

theorem perm_insertLe {α : Type} (le : α → α → Bool) (a : α) :
    ∀ l : List α, (insertLe le a l).Perm (a :: l) := by
  intro l
  induction l with
  | nil => exact List.Perm.refl _
  | cons b l ih =>
    unfold insertLe
    by_cases h : le a b = true
    · simp [h]
    · simp only [Bool.not_eq_true] at h
      simp only [h, Bool.false_eq_true, if_false]
      exact (ih.cons b).trans (List.Perm.swap a b l)

theorem perm_sortLe {α : Type} (le : α → α → Bool) :
    ∀ l : List α, (sortLe le l).Perm l := by
  intro l
  induction l with
  | nil => exact List.Perm.refl _
  | cons a l ih =>
    unfold sortLe
    exact (perm_insertLe le a _).trans (ih.cons a)

theorem mem_sortLe {α : Type} {le : α → α → Bool} {a : α} {l : List α} :
    a ∈ sortLe le l ↔ a ∈ l :=
  (perm_sortLe le l).mem_iff

theorem sortStable_length {α : Type} (l : List α) (le : α → α → Bool) :
    (l.sortStable le).length = l.length :=
  length_sortLe le l

/-- What the largest-bucket fold computes: starting from `(i, bi, bs)`, the
final best either is the initial one (unbeaten) or points at a bucket of
the scanned list whose length is the final size, strictly above `bs`. -/
theorem largestFold_spec :
    ∀ (l : List (List Pixel)) (i bi bs : ℕ),
      ((l.foldl largestStep (i, bi, bs)).2.1 = bi ∧
          (l.foldl largestStep (i, bi, bs)).2.2 = bs) ∨
        ∃ j, ∃ hj : j < l.length,
          (l.foldl largestStep (i, bi, bs)).2.1 = i + j ∧
            (l.foldl largestStep (i, bi, bs)).2.2 = (l.get ⟨j, hj⟩).length ∧
            bs < (l.get ⟨j, hj⟩).length := by
  intro l
  induction l with
  | nil => intro i bi bs; left; constructor <;> rfl
  | cons x l ih =>
    intro i bi bs
    simp only [List.foldl_cons]
    by_cases h : x.length > bs
    · rw [show largestStep (i, bi, bs) x = (i + 1, i, x.length) by
        unfold largestStep; simp [h]]
      rcases ih (i + 1) i x.length with ⟨h1, h2⟩ | ⟨j, hj, h1, h2, h3⟩
      · right
        refine ⟨0, by simp, ?_, ?_, ?_⟩
        · rw [h1]; omega
        · rw [h2]; rfl
        · exact h
      · right
        refine ⟨j + 1, by simpa using hj, ?_, ?_, ?_⟩
        · rw [h1]; omega
        · rw [h2]; rfl
        · exact lt_trans h h3
    · rw [show largestStep (i, bi, bs) x = (i + 1, bi, bs) by
        unfold largestStep; simp [h]]
      rcases ih (i + 1) bi bs with ⟨h1, h2⟩ | ⟨j, hj, h1, h2, h3⟩
      · left; exact ⟨h1, h2⟩
      · right
        refine ⟨j + 1, by simpa using hj, ?_, ?_, ?_⟩
        · rw [h1]; omega
        · rw [h2]; rfl
        · exact h3

theorem largestBucketIdx_spec (buckets : List (List Pixel))
    (h2 : 1 < (largestBucketIdx buckets).2) :
    (largestBucketIdx buckets).1 < buckets.length ∧
      (buckets.getD (largestBucketIdx buckets).1 []).length =
        (largestBucketIdx buckets).2 := by
  unfold largestBucketIdx at *
  rcases largestFold_spec buckets 0 0 0 with ⟨_, h⟩ | ⟨j, hj, e1, e2, _⟩
  · rw [h] at h2; omega
  · rw [Nat.zero_add] at e1
    rw [e1, e2]
    refine ⟨hj, ?_⟩
    rw [List.getD_eq_getElem _ _ hj, List.get_eq_getElem]

theorem splitBucket_lengths (b : List Pixel) :
    (splitBucket b).1.length = b.length / 2 ∧
      (splitBucket b).2.length = b.length - b.length / 2 := by
  unfold splitBucket
  constructor
  · simp [List.sortStable, length_sortLe, Nat.min_def, Nat.div_le_self]
  · simp [List.sortStable, length_sortLe]

theorem medianCutLoop_inv (target N : ℕ) :
    ∀ (fuel : ℕ) (buckets : List (List Pixel)),
      (∀ b ∈ buckets, b ≠ []) → 1 ≤ buckets.length → buckets.length ≤ target →
      (buckets.map List.length).sum = N →
      (∀ b ∈ medianCutLoop target fuel buckets, b ≠ []) ∧
        1 ≤ (medianCutLoop target fuel buckets).length ∧
        (medianCutLoop target fuel buckets).length ≤ target ∧
        ((medianCutLoop target fuel buckets).map List.length).sum = N := by
  intro fuel
  induction fuel with
  | zero => intro buckets h1 h2 h3 h4; exact ⟨h1, h2, h3, h4⟩
  | succ fuel ih =>
    intro buckets h1 h2 h3 h4
    unfold medianCutLoop
    by_cases hlt : buckets.length < target
    · rw [if_pos hlt]
      by_cases hsz : (largestBucketIdx buckets).2 ≤ 1
      · rw [if_pos hsz]
        exact ⟨h1, h2, h3, h4⟩
      · obtain ⟨hidx, hlen⟩ := largestBucketIdx_spec buckets (by omega)
        rw [if_neg hsz]
        set idx := (largestBucketIdx buckets).1 with hidxdef
        have hblen : 2 ≤ (buckets.getD idx []).length := by omega
        have hsplit := splitBucket_lengths (buckets.getD idx [])
        have hb1 : (splitBucket (buckets.getD idx [])).1 ≠ [] := by
          rw [← List.length_pos]
          omega
        have hb2 : (splitBucket (buckets.getD idx [])).2 ≠ [] := by
          rw [← List.length_pos]
          omega
        have hgetd : buckets.getD idx [] = buckets[idx] := List.getD_eq_getElem _ _ hidx
        have hdecomp : buckets = buckets.take idx ++ buckets[idx] :: buckets.drop (idx + 1) := by
          conv_lhs => rw [← List.take_append_drop idx buckets]
          rw [List.drop_eq_getElem_cons hidx]
        apply ih
        · intro b hb
          rcases List.mem_append.1 hb with hb | hb
          · rcases List.mem_append.1 hb with hb | hb
            · exact h1 b (List.take_subset _ _ hb)
            · rcases hb with _ | ⟨_, hb⟩
              · exact hb1
              · rcases hb with _ | ⟨_, hb⟩
                · exact hb2
                · cases hb
          · exact h1 b (List.drop_subset _ _ hb)
        · simp only [List.length_append, List.length_cons]
          omega
        · simp only [List.length_append, List.length_take, List.length_drop,
            List.length_cons, List.length_nil]
          omega
        · have hs : ((buckets.take idx ++
              [(splitBucket (buckets.getD idx [])).1,
                (splitBucket (buckets.getD idx [])).2] ++
              buckets.drop (idx + 1)).map List.length).sum =
              ((buckets.take idx).map List.length).sum +
                ((splitBucket (buckets.getD idx [])).1.length +
                  (splitBucket (buckets.getD idx [])).2.length) +
                ((buckets.drop (idx + 1)).map List.length).sum := by
            simp only [List.map_append, List.sum_append, List.map_cons, List.map_nil,
              List.sum_cons, List.sum_nil]
            omega
          have hs2 : N = ((buckets.take idx).map List.length).sum +
              buckets[idx].length + ((buckets.drop (idx + 1)).map List.length).sum := by
            conv_lhs => rw [← h4]
            conv_lhs => rw [hdecomp]
            simp only [List.map_append, List.sum_append, List.map_cons, List.sum_cons]
            omega
          rw [hs]
          rw [← hgetd] at hs2
          omega
    · rw [if_neg hlt]
      exact ⟨h1, h2, h3, h4⟩

theorem bucketToSwatch_of_ne_nil (b : List Pixel) (h : b ≠ []) :
    ∃ s, bucketToSwatch b = some s ∧ s.population = b.length := by
  unfold bucketToSwatch
  rw [if_neg (by simpa using h)]
  exact ⟨_, rfl, rfl⟩

theorem filterMap_bucketToSwatch_pops :
    ∀ l : List (List Pixel), (∀ b ∈ l, b ≠ []) →
      (l.filterMap bucketToSwatch).map Swatch.population = l.map List.length := by
  intro l
  induction l with
  | nil => intro _; rfl
  | cons b l ih =>
    intro h
    obtain ⟨s, hs, hpop⟩ := bucketToSwatch_of_ne_nil b (h b (List.mem_cons_self b l))
    rw [List.filterMap_cons, hs, List.map_cons, List.map_cons, hpop,
      ih fun x hx => h x (List.mem_cons_of_mem b hx)]

/-- C7: for every non-empty pixel list and K ≥ 1, `medianCut` returns
between 1 and K swatches whose populations sum to the pixel count. -/
theorem medianCut_spec (pixels : List Pixel) (K : ℕ) (hp : pixels ≠ []) (hK : 1 ≤ K) :
    1 ≤ (medianCut pixels K).length ∧ (medianCut pixels K).length ≤ K ∧
      ((medianCut pixels K).map Swatch.population).sum = pixels.length := by
  unfold medianCut
  rw [if_neg (by simpa using hp)]
  have inv := medianCutLoop_inv K pixels.length K [pixels]
    (by intro b hb; rw [List.mem_singleton.1 hb]; exact hp)
    (by simp) (by simpa using hK) (by simp)
  obtain ⟨hne, hlo, hhi, hsum⟩ := inv
  have hmap := filterMap_bucketToSwatch_pops _ hne
  have hlen : ((medianCutLoop K K [pixels]).filterMap bucketToSwatch).length =
      (medianCutLoop K K [pixels]).length := by
    have := congrArg List.length hmap
    simpa using this
  refine ⟨by omega, by omega, ?_⟩
  rw [hmap, hsum]

/-- Witness for C7 at a concrete two-pixel list and K = 2. -/
theorem medianCut_spec_witness :
    ([(⟨1, 2, 3⟩ : Pixel), ⟨4, 5, 6⟩] ≠ []) ∧ 1 ≤ 2 ∧
      (1 ≤ (medianCut [(⟨1, 2, 3⟩ : Pixel), ⟨4, 5, 6⟩] 2).length ∧
        (medianCut [(⟨1, 2, 3⟩ : Pixel), ⟨4, 5, 6⟩] 2).length ≤ 2 ∧
        ((medianCut [(⟨1, 2, 3⟩ : Pixel), ⟨4, 5, 6⟩] 2).map Swatch.population).sum =
          [(⟨1, 2, 3⟩ : Pixel), ⟨4, 5, 6⟩].length) :=
  ⟨by simp, by omega, medianCut_spec _ 2 (by simp) (by omega)⟩

/-! ## C1: every derived token is a valid hex string -/

/-- Well-formed palette: every channel in 0–255 (the `Swatch` data model). -/
def WfPalette (palette : List Swatch) : Prop :=
  ∀ s ∈ palette, s.r ≤ 255 ∧ s.g ≤ 255 ∧ s.b ≤ 255

theorem hexDigitVal_le {c : Char} {n : ℕ} (h : hexDigitVal c = some n) : n ≤ 15 := by
  unfold hexDigitVal at h
  split_ifs at h with h1 h2 h3
  · injection h with h
    have h9 := h1.2
    rw [Char.le_def, UInt32.le_def, BitVec.le_def] at h9
    have h9' : c.toNat ≤ 57 := h9
    have e0 : Char.toNat '0' = 48 := rfl
    omega
  · injection h with h
    have h9 := h2.2
    rw [Char.le_def, UInt32.le_def, BitVec.le_def] at h9
    have h9' : c.toNat ≤ 102 := h9
    have e0 : Char.toNat 'a' = 97 := rfl
    omega
  · injection h with h
    have h9 := h3.2
    rw [Char.le_def, UInt32.le_def, BitVec.le_def] at h9
    have h9' : c.toNat ≤ 70 := h9
    have e0 : Char.toNat 'A' = 65 := rfl
    omega

theorem hexPairVal_le {a b : Char} {n : ℕ} (h : hexPairVal a b = some n) : n ≤ 255 := by
  unfold hexPairVal at h
  cases ha : hexDigitVal a with
  | none => rw [ha] at h; exact absurd h (by simp)
  | some x =>
    cases hb : hexDigitVal b with
    | none => rw [ha, hb] at h; exact absurd h (by simp)
    | some y =>
      rw [ha, hb] at h
      simp only [Option.bind_eq_bind, Option.some_bind, Option.pure_def,
        Option.some.injEq] at h
      have hx := hexDigitVal_le ha
      have hy := hexDigitVal_le hb
      omega

theorem parseHex6_le {l : List Char} {p : Pixel} (h : parseHex6 l = some p) :
    p.r ≤ 255 ∧ p.g ≤ 255 ∧ p.b ≤ 255 := by
  unfold parseHex6 at h
  split at h
  · rename_i a b c d e f
    cases h1 : hexPairVal a b with
    | none => rw [h1] at h; exact absurd h (by simp)
    | some x =>
      cases h2 : hexPairVal c d with
      | none => rw [h1, h2] at h; exact absurd h (by simp)
      | some y =>
        cases h3 : hexPairVal e f with
        | none => rw [h1, h2, h3] at h; exact absurd h (by simp)
        | some z =>
          rw [h1, h2, h3] at h
          simp only [Option.bind_eq_bind, Option.some_bind, Option.pure_def,
            Option.some.injEq] at h
          rw [← h]
          exact ⟨hexPairVal_le h1, hexPairVal_le h2, hexPairVal_le h3⟩
  · exact absurd h (by simp)

theorem hexToRgb_le {s : String} {p : Pixel} (h : hexToRgb s = some p) :
    p.r ≤ 255 ∧ p.g ≤ 255 ∧ p.b ≤ 255 := by
  unfold hexToRgb at h
  split at h
  · exact parseHex6_le h
  · exact parseHex6_le h

theorem validHex_rgbToHex {r g b : ℕ} (hr : r ≤ 255) (hg : g ≤ 255) (hb : b ≤ 255) :
    (hexToRgb (rgbToHex r g b)).isSome = true := by
  rw [hex_roundtrip r g b hr hg hb]
  rfl

theorem head?_mem {α : Type} {l : List α} {a : α} (h : l.head? = some a) : a ∈ l := by
  cases l with
  | nil => cases h
  | cons x xs =>
    injection h with h
    rw [← h]
    exact List.mem_cons_self x xs

theorem sortStable_mem {α : Type} {l : List α} {le : α → α → Bool} {a : α} :
    a ∈ l.sortStable le ↔ a ∈ l :=
  mem_sortLe

theorem analyzeSwatch_valid (M : RealModel) {palette : List Swatch}
    (hwf : WfPalette palette) {c : Analyzed}
    (hc : c ∈ palette.map (analyzeSwatch M)) : (hexToRgb c.hex).isSome = true := by
  obtain ⟨s, hs, rfl⟩ := List.mem_map.1 hc
  exact validHex_rgbToHex (hwf s hs).1 (hwf s hs).2.1 (hwf s hs).2.2

theorem findBest_mem {analyzed : List Analyzed} {f : Analyzed → Bool} {c : Analyzed}
    (h : findBest analyzed f = some c) : c ∈ analyzed ∧ f c = true := by
  unfold findBest at h
  have hm := sortStable_mem.1 (head?_mem h)
  exact ⟨(List.mem_filter.1 hm).1, (List.mem_filter.1 hm).2⟩

theorem resolveLock_cases {M : RealModel} {analyzed : List Analyzed} {s : String}
    {c : Analyzed} (h : resolveLock M analyzed s = some c) :
    c ∈ analyzed ∨ (c.hex = s ∧ (hexToRgb s).isSome = true) := by
  unfold resolveLock at h
  cases hf : analyzed.find? fun c => lowerS c.hex == lowerS s with
  | some c0 =>
    rw [hf] at h
    injection h with h
    exact Or.inl (h ▸ List.mem_of_find?_eq_some hf)
  | none =>
    rw [hf] at h
    cases hp : hexToRgb s with
    | some rgb =>
      rw [hp] at h
      injection h with h
      refine Or.inr ⟨?_, by simp [hp]⟩
      rw [← h]
    | none => rw [hp] at h; cases h

theorem useColor_cases (opt : Option Analyzed) (fb : String) :
    (∃ c, opt = some c ∧ useColor opt fb = c.hex) ∨ useColor opt fb = fb := by
  cases opt with
  | some c => exact Or.inl ⟨c, rfl, rfl⟩
  | none => exact Or.inr rfl

theorem ensureContrast_cases (M : RealModel) (cand : Option String) (bg : Pixel)
    (minC : ℚ) (fl fd : String) :
    ensureContrast M cand bg minC fl fd = fl ∨
      ensureContrast M cand bg minC fl fd = fd ∨
      ∃ hx, cand = some hx ∧ ensureContrast M cand bg minC fl fd = hx := by
  unfold ensureContrast
  cases cand with
  | none =>
    dsimp only
    split_ifs <;> simp
  | some hx =>
    dsimp only
    cases hp : hexToRgb hx with
    | none =>
      dsimp only
      split_ifs <;> simp
    | some rgb =>
      dsimp only
      by_cases hc : getContrastRatio M rgb bg ≥ minC
      · rw [if_pos hc]
        exact Or.inr (Or.inr ⟨hx, rfl, rfl⟩)
      · rw [if_neg hc]
        split_ifs <;> simp

theorem lightSwapFix_cases (M : RealModel) (h t : String) :
    ((lightSwapFix M h t).1 = h ∨ (lightSwapFix M h t).1 = t ∨
        (lightSwapFix M h t).1 = "#1a1a1a") ∧
      ((lightSwapFix M h t).2 = h ∨ (lightSwapFix M h t).2 = t ∨
        (lightSwapFix M h t).2 = "#444444") := by
  unfold lightSwapFix
  set p := if t != "" && h != "" then
      if lumOfHex M t < lumOfHex M h then (t, h) else (h, t)
    else (h, t) with hp
  have hmem : (p.1 = h ∨ p.1 = t) ∧ (p.2 = h ∨ p.2 = t) := by
    rw [hp]
    split_ifs <;> simp
  by_cases hq : (p.1 == p.2) = true
  · simp [hq]
  · simp only [Bool.not_eq_true] at hq
    simp only [hq, Bool.false_eq_true, if_false]
    rcases hmem with ⟨h1 | h1, h2 | h2⟩ <;> simp [h1, h2]

theorem darkSwapFix_cases (M : RealModel) (h t : String) :
    ((darkSwapFix M h t).1 = h ∨ (darkSwapFix M h t).1 = t ∨
        (darkSwapFix M h t).1 = "#ffffff") ∧
      ((darkSwapFix M h t).2 = h ∨ (darkSwapFix M h t).2 = t ∨
        (darkSwapFix M h t).2 = "#c0c0c0") := by
  unfold darkSwapFix
  set p := if t != "" && h != "" then
      if lumOfHex M t > lumOfHex M h then (t, h) else (h, t)
    else (h, t) with hp
  have hmem : (p.1 = h ∨ p.1 = t) ∧ (p.2 = h ∨ p.2 = t) := by
    rw [hp]
    split_ifs <;> simp
  by_cases hq : (p.1 == p.2) = true
  · simp [hq]
  · simp only [Bool.not_eq_true] at hq
    simp only [hq, Bool.false_eq_true, if_false]
    rcases hmem with ⟨h1 | h1, h2 | h2⟩ <;> simp [h1, h2]

theorem variantStep_cases (colorHsl : Hsl) (acc : Swatch × ℚ) (p : Swatch) :
    variantStep colorHsl acc p = acc ∨ (variantStep colorHsl acc p).1 = p := by
  unfold variantStep
  dsimp only
  split_ifs <;> simp

theorem foldVariant_cases (colorHsl : Hsl) :
    ∀ (l : List Swatch) (acc : Swatch × ℚ),
      (l.foldl (variantStep colorHsl) acc).1 = acc.1 ∨
        (l.foldl (variantStep colorHsl) acc).1 ∈ l := by
  intro l
  induction l with
  | nil => intro acc; exact Or.inl rfl
  | cons p l ih =>
    intro acc
    rw [List.foldl_cons]
    rcases ih (variantStep colorHsl acc p) with h | h
    · rcases variantStep_cases colorHsl acc p with h2 | h2
      · rw [h, h2]
        exact Or.inl rfl
      · rw [h, h2]
        exact Or.inr (List.mem_cons_self p l)
    · exact Or.inr (List.mem_cons_of_mem p h)

theorem findMostVibrantVariant_cases (color : Pixel) (palette : List Swatch) :
    findMostVibrantVariant color palette = ⟨color.r, color.g, color.b, 0, false, false⟩ ∨
      findMostVibrantVariant color palette ∈ palette := by
  unfold findMostVibrantVariant
  exact foldVariant_cases _ palette _

theorem lightBgFinal_cases (M : RealModel) (analyzed : List Analyzed)
    (bg h t m : String) (llb : Option String) :
    lightBgFinal M analyzed bg h t m llb = bg ∨
      lightBgFinal M analyzed bg h t m llb = "#f7f7f7" ∨
      ∃ c ∈ analyzed, lightBgFinal M analyzed bg h t m llb = c.hex := by
  unfold lightBgFinal
  cases hbg : hexToRgb bg with
  | none => exact Or.inl rfl
  | some bgRgb =>
    dsimp only
    split_ifs with h1 h2
    · exact Or.inl rfl
    · cases hh : ((analyzed.filter fun c =>
          !decide (c.luminance < 13 / 20) && !bgCheckFails M h c.rgb (9 / 2) &&
            !bgCheckFails M t c.rgb (9 / 2) && !bgCheckFails M m c.rgb 3).sortStable
          fun a b => decide (b.luminance ≤ a.luminance)).head? with
      | some c =>
        dsimp only
        refine Or.inr (Or.inr ⟨c, ?_, rfl⟩)
        exact (List.mem_filter.1 (sortStable_mem.1 (head?_mem hh))).1
      | none =>
        dsimp only
        exact Or.inr (Or.inl rfl)
    · exact Or.inl rfl

theorem darkBgFinal_cases (M : RealModel) (analyzed : List Analyzed)
    (bg h t m : String) (ldb : Option String) :
    darkBgFinal M analyzed bg h t m ldb = bg ∨
      darkBgFinal M analyzed bg h t m ldb = "#0b0b0b" ∨
      ∃ c ∈ analyzed, darkBgFinal M analyzed bg h t m ldb = c.hex := by
  unfold darkBgFinal
  cases hbg : hexToRgb bg with
  | none => exact Or.inl rfl
  | some bgRgb =>
    dsimp only
    split_ifs with h1 h2
    · exact Or.inl rfl
    · cases hh : ((analyzed.filter fun c =>
          !decide (c.luminance > 15 / 100) && !bgCheckFails M h c.rgb (9 / 2) &&
            !bgCheckFails M t c.rgb (9 / 2) && !bgCheckFails M m c.rgb 3).sortStable
          fun a b => decide (a.luminance ≤ b.luminance)).head? with
      | some c =>
        dsimp only
        refine Or.inr (Or.inr ⟨c, ?_, rfl⟩)
        exact (List.mem_filter.1 (sortStable_mem.1 (head?_mem hh))).1
      | none =>
        dsimp only
        exact Or.inr (Or.inl rfl)
    · exact Or.inl rfl

theorem lightPrimaryStage1_hex {M : RealModel} {palette : List Swatch}
    {analyzed : List Analyzed} {used : List String} {surf : Pixel} {c : Analyzed}
    (h : lightPrimaryStage1 M palette analyzed used surf = some c) :
    ∃ c0 ∈ analyzed, c.hex = c0.hex := by
  unfold lightPrimaryStage1 at h
  have hm := sortStable_mem.1 (head?_mem h)
  obtain ⟨c0, hc0, rfl⟩ := List.mem_map.1 hm
  exact ⟨c0, (List.mem_filter.1 hc0).1, rfl⟩

theorem darkPrimaryStage1_hex {M : RealModel} {palette : List Swatch}
    {analyzed : List Analyzed} {used : List String} {surf : Pixel} {c : Analyzed}
    (h : darkPrimaryStage1 M palette analyzed used surf = some c) :
    ∃ c0 ∈ analyzed, c.hex = c0.hex := by
  unfold darkPrimaryStage1 at h
  have hm := sortStable_mem.1 (head?_mem h)
  obtain ⟨c0, hc0, rfl⟩ := List.mem_map.1 hm
  exact ⟨c0, (List.mem_filter.1 hc0).1, rfl⟩

theorem lightPrimaryStage2_mem {M : RealModel} {analyzed : List Analyzed}
    {used : List String} {surf : Pixel} {c : Analyzed}
    (h : lightPrimaryStage2 M analyzed used surf = some c) : c ∈ analyzed := by
  unfold lightPrimaryStage2 at h
  exact (List.mem_filter.1 (sortStable_mem.1 (head?_mem h))).1

theorem lightPrimaryStage3_mem {M : RealModel} {analyzed : List Analyzed}
    {used : List String} {surf : Pixel} {c : Analyzed}
    (h : lightPrimaryStage3 M analyzed used surf = some c) : c ∈ analyzed := by
  unfold lightPrimaryStage3 at h
  exact (List.mem_filter.1 (sortStable_mem.1 (head?_mem h))).1

theorem darkPrimaryStage2_mem {M : RealModel} {analyzed : List Analyzed}
    {used : List String} {surf : Pixel} {c : Analyzed}
    (h : darkPrimaryStage2 M analyzed used surf = some c) : c ∈ analyzed := by
  unfold darkPrimaryStage2 at h
  exact (List.mem_filter.1 (sortStable_mem.1 (head?_mem h))).1

theorem darkPrimaryStage3_mem {M : RealModel} {analyzed : List Analyzed}
    {used : List String} {surf : Pixel} {c : Analyzed}
    (h : darkPrimaryStage3 M analyzed used surf = some c) : c ∈ analyzed := by
  unfold darkPrimaryStage3 at h
  exact (List.mem_filter.1 (sortStable_mem.1 (head?_mem h))).1

theorem lightPrimaryVariantFix_valid (M : RealModel) {palette : List Swatch}
    (hwf : WfPalette palette) (surf : Pixel) (lp : Analyzed)
    (hlp : (hexToRgb lp.hex).isSome = true) :
    (hexToRgb (lightPrimaryVariantFix M palette surf lp).hex).isSome = true := by
  unfold lightPrimaryVariantFix
  obtain ⟨base, hbase⟩ := Option.isSome_iff_exists.1 hlp
  have hbounds := hexToRgb_le hbase
  dsimp only
  split_ifs with h1 h2 h3
  · rcases findMostVibrantVariant_cases ((hexToRgb lp.hex).getD ⟨0, 0, 0⟩) palette
      with hc | hc
    · rw [hc]
      simp only [hbase, Option.getD_some]
      exact validHex_rgbToHex hbounds.1 hbounds.2.1 hbounds.2.2
    · obtain ⟨hr, hg, hb⟩ := hwf _ hc
      exact validHex_rgbToHex hr hg hb
  · exact hlp
  · exact hlp
  · exact hlp

theorem darkPrimaryVariantFix_valid (M : RealModel) {palette : List Swatch}
    (hwf : WfPalette palette) (surf : Pixel) (dp : Analyzed)
    (hdp : (hexToRgb dp.hex).isSome = true) :
    (hexToRgb (darkPrimaryVariantFix M palette surf dp).hex).isSome = true := by
  unfold darkPrimaryVariantFix
  obtain ⟨base, hbase⟩ := Option.isSome_iff_exists.1 hdp
  have hbounds := hexToRgb_le hbase
  dsimp only
  split_ifs with h1 h2 h3
  · rcases findMostVibrantVariant_cases ((hexToRgb dp.hex).getD ⟨0, 0, 0⟩) palette
      with hc | hc
    · rw [hc]
      simp only [hbase, Option.getD_some]
      exact validHex_rgbToHex hbounds.1 hbounds.2.1 hbounds.2.2
    · obtain ⟨hr, hg, hb⟩ := hwf _ hc
      exact validHex_rgbToHex hr hg hb
  · exact hdp
  · exact hdp
  · exact hdp

/-- All 8 fields parse as hex colors. -/
def ValidTokenSet (t : TokenSet) : Prop :=
  (hexToRgb t.bg).isSome = true ∧ (hexToRgb t.surface).isSome = true ∧
    (hexToRgb t.border).isSome = true ∧ (hexToRgb t.text).isSome = true ∧
    (hexToRgb t.heading).isSome = true ∧ (hexToRgb t.mutedText).isSome = true ∧
    (hexToRgb t.primary).isSome = true ∧ (hexToRgb t.onPrimary).isSome = true

/-- Validity of every analyzed entry's hex. -/
def ValidAnalyzed (analyzed : List Analyzed) : Prop :=
  ∀ c ∈ analyzed, (hexToRgb c.hex).isSome = true

theorem secondDistinct_mem {cands : List Analyzed} {c : Analyzed}
    (h : secondDistinct cands = some c) : c ∈ cands := by
  unfold secondDistinct at h
  cases hh : cands.head? with
  | none =>
    rw [hh] at h
    dsimp only at h
    cases h
  | some top =>
    rw [hh] at h
    dsimp only at h
    cases hf : cands.find? fun c => c.hex != top.hex with
    | some c0 =>
      rw [hf] at h
      dsimp only at h
      injection h with h
      exact h ▸ List.mem_of_find?_eq_some hf
    | none =>
      rw [hf] at h
      dsimp only at h
      injection h with h
      exact h ▸ head?_mem hh

theorem lightHCands_sub {M : RealModel} {analyzed : List Analyzed}
    {llb : Option String} {c : Analyzed} (h : c ∈ lightHCands M analyzed llb) :
    c ∈ analyzed := by
  unfold lightHCands lightHeadingCands at h
  exact (List.mem_filter.1 (sortStable_mem.1 h)).1

theorem darkHCands_sub {M : RealModel} {analyzed : List Analyzed}
    {ldb : Option String} {c : Analyzed} (h : c ∈ darkHCands M analyzed ldb) :
    c ∈ analyzed := by
  unfold darkHCands darkHeadingCands at h
  exact (List.mem_filter.1 (sortStable_mem.1 h)).1

theorem ensureContrast_valid {M : RealModel} {cand : Option String} {bg : Pixel}
    {minC : ℚ} {fl fd : String}
    (hcand : ∀ hx, cand = some hx → (hexToRgb hx).isSome = true)
    (hfl : (hexToRgb fl).isSome = true) (hfd : (hexToRgb fd).isSome = true) :
    (hexToRgb (ensureContrast M cand bg minC fl fd)).isSome = true := by
  rcases ensureContrast_cases M cand bg minC fl fd with h | h | ⟨hx, he, h⟩
  · rw [h]; exact hfl
  · rw [h]; exact hfd
  · rw [h]; exact hcand hx he

theorem lightBgCand_valid {M : RealModel} {analyzed : List Analyzed}
    {llb : Option String} (hv : ValidAnalyzed analyzed) {c : Analyzed}
    (h : lightBgCand M analyzed llb = some c) : (hexToRgb c.hex).isSome = true := by
  unfold lightBgCand at h
  split_ifs at h
  · rcases resolveLock_cases h with hm | hm
    · exact hv c hm
    · rw [hm.1]; exact hm.2
  · exact hv c (findBest_mem h).1

theorem darkBgCand_valid {M : RealModel} {analyzed : List Analyzed}
    {ldb : Option String} (hv : ValidAnalyzed analyzed) {c : Analyzed}
    (h : darkBgCand M analyzed ldb = some c) : (hexToRgb c.hex).isSome = true := by
  unfold darkBgCand at h
  split_ifs at h
  · rcases resolveLock_cases h with hm | hm
    · exact hv c hm
    · rw [hm.1]; exact hm.2
  · exact hv c (findBest_mem h).1

theorem lightBg0_valid (M : RealModel) {analyzed : List Analyzed}
    (hv : ValidAnalyzed analyzed) (llb : Option String) :
    (hexToRgb (lightBg0 M analyzed llb)).isSome = true := by
  unfold lightBg0
  rcases useColor_cases (lightBgCand M analyzed llb) "#f7f7f7" with ⟨c, hc, he⟩ | he
  · rw [he]; exact lightBgCand_valid hv hc
  · rw [he]; rfl

theorem darkBg0_valid (M : RealModel) {analyzed : List Analyzed}
    (hv : ValidAnalyzed analyzed) (ldb : Option String) :
    (hexToRgb (darkBg0 M analyzed ldb)).isSome = true := by
  unfold darkBg0
  rcases useColor_cases (darkBgCand M analyzed ldb) "#0b0b0b" with ⟨c, hc, he⟩ | he
  · rw [he]; exact darkBgCand_valid hv hc
  · rw [he]; rfl

theorem lightSurfaceStr_valid (M : RealModel) {analyzed : List Analyzed}
    (hv : ValidAnalyzed analyzed) (llb : Option String) :
    (hexToRgb (lightSurfaceStr M analyzed llb)).isSome = true := by
  unfold lightSurfaceStr lightSurfaceTok
  dsimp only
  rcases useColor_cases (lightSurfaceCand analyzed (lightBgCand M analyzed llb))
    "#ffffff" with ⟨c, hc, he⟩ | he <;> rw [he] <;> split_ifs
  · rfl
  · exact hv c (findBest_mem hc).1
  · rfl
  · rfl

theorem darkSurfaceStr_valid (M : RealModel) {analyzed : List Analyzed}
    (hv : ValidAnalyzed analyzed) (ldb : Option String) :
    (hexToRgb (darkSurfaceStr M analyzed ldb)).isSome = true := by
  unfold darkSurfaceStr darkSurfaceTok
  dsimp only
  rcases useColor_cases
    (darkSurfaceCand analyzed (darkBgLumQ M analyzed ldb) (darkBgCand M analyzed ldb))
    "#141414" with ⟨c, hc, he⟩ | he <;> rw [he] <;> split_ifs
  · rfl
  · exact hv c (findBest_mem hc).1
  · rfl
  · rfl

theorem lightBorderStr_valid (M : RealModel) {analyzed : List Analyzed}
    (hv : ValidAnalyzed analyzed) (llb : Option String) :
    (hexToRgb (lightBorderStr M analyzed llb)).isSome = true := by
  unfold lightBorderStr
  rcases useColor_cases
    (lightBorderCand analyzed (lightSurfaceLumQ M analyzed llb)
      (lightBg0 M analyzed llb) (lightSurfaceStr M analyzed llb)) "#e0e0e0"
    with ⟨c, hc, he⟩ | he
  · rw [he]; exact hv c (findBest_mem hc).1
  · rw [he]; rfl

theorem darkBorderStr_valid (M : RealModel) {analyzed : List Analyzed}
    (hv : ValidAnalyzed analyzed) (ldb : Option String) :
    (hexToRgb (darkBorderStr M analyzed ldb)).isSome = true := by
  unfold darkBorderStr
  rcases useColor_cases
    (darkBorderCand analyzed (darkSurfaceLumQ M analyzed ldb)
      (darkBg0 M analyzed ldb) (darkSurfaceStr M analyzed ldb)) "#2a2a2a"
    with ⟨c, hc, he⟩ | he
  · rw [he]; exact hv c (findBest_mem hc).1
  · rw [he]; rfl

theorem lightHeading0Str_valid (M : RealModel) {analyzed : List Analyzed}
    (hv : ValidAnalyzed analyzed) (llb : Option String) :
    (hexToRgb (lightHeading0Str M analyzed llb)).isSome = true := by
  unfold lightHeading0Str
  refine ensureContrast_valid ?_ (by rfl) (by rfl)
  intro hx he
  obtain ⟨c, hc, rfl⟩ := Option.map_eq_some'.1 he
  exact hv c (lightHCands_sub (head?_mem hc))

theorem lightText0Str_valid (M : RealModel) {analyzed : List Analyzed}
    (hv : ValidAnalyzed analyzed) (llb : Option String) :
    (hexToRgb (lightText0Str M analyzed llb)).isSome = true := by
  unfold lightText0Str
  refine ensureContrast_valid ?_ (by rfl) (by rfl)
  intro hx he
  obtain ⟨c, hc, rfl⟩ := Option.map_eq_some'.1 he
  exact hv c (lightHCands_sub (secondDistinct_mem hc))

theorem darkHeading0Str_valid (M : RealModel) {analyzed : List Analyzed}
    (hv : ValidAnalyzed analyzed) (ldb : Option String) :
    (hexToRgb (darkHeading0Str M analyzed ldb)).isSome = true := by
  unfold darkHeading0Str
  refine ensureContrast_valid ?_ (by rfl) (by rfl)
  intro hx he
  obtain ⟨c, hc, rfl⟩ := Option.map_eq_some'.1 he
  exact hv c (darkHCands_sub (head?_mem hc))

theorem darkText0Str_valid (M : RealModel) {analyzed : List Analyzed}
    (hv : ValidAnalyzed analyzed) (ldb : Option String) :
    (hexToRgb (darkText0Str M analyzed ldb)).isSome = true := by
  unfold darkText0Str
  refine ensureContrast_valid ?_ (by rfl) (by rfl)
  intro hx he
  obtain ⟨c, hc, rfl⟩ := Option.map_eq_some'.1 he
  exact hv c (darkHCands_sub (secondDistinct_mem hc))

theorem lightHT_valid (M : RealModel) {analyzed : List Analyzed}
    (hv : ValidAnalyzed analyzed) (llb : Option String) :
    (hexToRgb (lightHT M analyzed llb).1).isSome = true ∧
      (hexToRgb (lightHT M analyzed llb).2).isSome = true := by
  unfold lightHT
  obtain ⟨h1, h2⟩ := lightSwapFix_cases M (lightHeading0Str M analyzed llb)
    (lightText0Str M analyzed llb)
  constructor
  · rcases h1 with h | h | h
    · rw [h]; exact lightHeading0Str_valid M hv llb
    · rw [h]; exact lightText0Str_valid M hv llb
    · rw [h]; rfl
  · rcases h2 with h | h | h
    · rw [h]; exact lightHeading0Str_valid M hv llb
    · rw [h]; exact lightText0Str_valid M hv llb
    · rw [h]; rfl

theorem darkHT_valid (M : RealModel) {analyzed : List Analyzed}
    (hv : ValidAnalyzed analyzed) (ldb : Option String) :
    (hexToRgb (darkHT M analyzed ldb).1).isSome = true ∧
      (hexToRgb (darkHT M analyzed ldb).2).isSome = true := by
  unfold darkHT
  obtain ⟨h1, h2⟩ := darkSwapFix_cases M (darkHeading0Str M analyzed ldb)
    (darkText0Str M analyzed ldb)
  constructor
  · rcases h1 with h | h | h
    · rw [h]; exact darkHeading0Str_valid M hv ldb
    · rw [h]; exact darkText0Str_valid M hv ldb
    · rw [h]; rfl
  · rcases h2 with h | h | h
    · rw [h]; exact darkHeading0Str_valid M hv ldb
    · rw [h]; exact darkText0Str_valid M hv ldb
    · rw [h]; rfl

theorem lightMutedStr_valid (M : RealModel) {analyzed : List Analyzed}
    (hv : ValidAnalyzed analyzed) (llb : Option String) :
    (hexToRgb (lightMutedStr M analyzed llb)).isSome = true := by
  unfold lightMutedStr
  refine ensureContrast_valid ?_ (by rfl) (by rfl)
  intro hx he
  obtain ⟨c, hc, rfl⟩ := Option.map_eq_some'.1 he
  have hm := head?_mem hc
  unfold lightMutedCands at hm
  exact hv c (List.mem_filter.1 (sortStable_mem.1 hm)).1

theorem darkMutedStr_valid (M : RealModel) {analyzed : List Analyzed}
    (hv : ValidAnalyzed analyzed) (ldb : Option String) :
    (hexToRgb (darkMutedStr M analyzed ldb)).isSome = true := by
  unfold darkMutedStr
  refine ensureContrast_valid ?_ (by rfl) (by rfl)
  intro hx he
  obtain ⟨c, hc, rfl⟩ := Option.map_eq_some'.1 he
  have hm := head?_mem hc
  unfold darkMutedCands at hm
  exact hv c (List.mem_filter.1 (sortStable_mem.1 hm)).1

theorem lightBgStr_valid (M : RealModel) {analyzed : List Analyzed}
    (hv : ValidAnalyzed analyzed) (llb : Option String) :
    (hexToRgb (lightBgStr M analyzed llb)).isSome = true := by
  unfold lightBgStr
  rcases lightBgFinal_cases M analyzed (lightBg0 M analyzed llb)
    (lightHT M analyzed llb).1 (lightHT M analyzed llb).2
    (lightMutedStr M analyzed llb) llb with h | h | ⟨c, hc, h⟩
  · rw [h]; exact lightBg0_valid M hv llb
  · rw [h]; rfl
  · rw [h]; exact hv c hc

theorem darkBgStr_valid (M : RealModel) {analyzed : List Analyzed}
    (hv : ValidAnalyzed analyzed) (ldb : Option String) :
    (hexToRgb (darkBgStr M analyzed ldb)).isSome = true := by
  unfold darkBgStr
  rcases darkBgFinal_cases M analyzed (darkBg0 M analyzed ldb)
    (darkHT M analyzed ldb).1 (darkHT M analyzed ldb).2
    (darkMutedStr M analyzed ldb) ldb with h | h | ⟨c, hc, h⟩
  · rw [h]; exact darkBg0_valid M hv ldb
  · rw [h]; rfl
  · rw [h]; exact hv c hc

theorem lightPrimaryOf_valid (M : RealModel) {palette : List Swatch}
    (hwf : WfPalette palette) {analyzed : List Analyzed}
    (hv : ValidAnalyzed analyzed) (used : List String) (surf : Pixel) :
    (hexToRgb (lightPrimaryOf M palette analyzed used surf).hex).isSome = true := by
  unfold lightPrimaryOf
  dsimp only
  refine lightPrimaryVariantFix_valid M hwf surf _ ?_
  cases h1 : lightPrimaryStage1 M palette analyzed used surf with
  | some c =>
    dsimp only
    obtain ⟨c0, hc0, he⟩ := lightPrimaryStage1_hex h1
    rw [he]
    exact hv c0 hc0
  | none =>
    dsimp only
    cases h2 : lightPrimaryStage2 M analyzed used surf with
    | some c =>
      dsimp only
      exact hv c (lightPrimaryStage2_mem h2)
    | none =>
      dsimp only
      cases h3 : lightPrimaryStage3 M analyzed used surf with
      | some c =>
        dsimp only
        exact hv c (lightPrimaryStage3_mem h3)
      | none =>
        dsimp only
        rfl

theorem darkPrimaryOf_valid (M : RealModel) {palette : List Swatch}
    (hwf : WfPalette palette) {analyzed : List Analyzed}
    (hv : ValidAnalyzed analyzed) (used : List String) (surf : Pixel)
    {lp : Analyzed} (hlp : (hexToRgb lp.hex).isSome = true) :
    (hexToRgb (darkPrimaryOf M palette analyzed used surf lp).hex).isSome = true := by
  unfold darkPrimaryOf
  dsimp only
  refine darkPrimaryVariantFix_valid M hwf surf _ ?_
  cases h1 : darkPrimaryStage1 M palette analyzed used surf with
  | some c =>
    dsimp only
    obtain ⟨c0, hc0, he⟩ := darkPrimaryStage1_hex h1
    rw [he]
    exact hv c0 hc0
  | none =>
    dsimp only
    cases h2 : darkPrimaryStage2 M analyzed used surf with
    | some c =>
      dsimp only
      exact hv c (darkPrimaryStage2_mem h2)
    | none =>
      dsimp only
      cases h3 : darkPrimaryStage3 M analyzed used surf with
      | some c =>
        dsimp only
        exact hv c (darkPrimaryStage3_mem h3)
      | none =>
        dsimp only
        cases hp : hexToRgb lp.hex with
        | some lpRgb =>
          dsimp only
          split_ifs
          · exact hlp
          · rfl
        | none =>
          dsimp only
          rfl

theorem lightLp_valid (M : RealModel) {palette : List Swatch}
    (hwf : WfPalette palette) {analyzed : List Analyzed}
    (hv : ValidAnalyzed analyzed) (lockP llb : Option String) :
    (hexToRgb (lightLp M palette analyzed lockP llb).hex).isSome = true := by
  unfold lightLp
  by_cases hl : isLockSet lockP = true
  · simp only [hl, if_true]
    cases hr : resolveLock M analyzed (lockP.getD "") with
    | some c =>
      simp only [hr]
      rcases resolveLock_cases hr with h | h
      · exact hv c h
      · rw [h.1]; exact h.2
    | none =>
      simp only [hr]
      exact lightPrimaryOf_valid M hwf hv _ _
  · simp only [Bool.not_eq_true] at hl
    simp only [hl, Bool.false_eq_true, if_false]
    exact lightPrimaryOf_valid M hwf hv _ _

theorem darkDp_valid (M : RealModel) {palette : List Swatch}
    (hwf : WfPalette palette) {analyzed : List Analyzed}
    (hv : ValidAnalyzed analyzed) (lockP ldb : Option String) {lp : Analyzed}
    (hlp : (hexToRgb lp.hex).isSome = true) :
    (hexToRgb (darkDp M palette analyzed lockP ldb lp).hex).isSome = true := by
  unfold darkDp
  by_cases hl : isLockSet lockP = true
  · simp only [hl, if_true]
    cases hr : resolveLock M analyzed (lockP.getD "") with
    | some c =>
      simp only [hr]
      rcases resolveLock_cases hr with h | h
      · exact hv c h
      · rw [h.1]; exact h.2
    | none =>
      simp only [hr]
      exact darkPrimaryOf_valid M hwf hv _ _ hlp
  · simp only [Bool.not_eq_true] at hl
    simp only [hl, Bool.false_eq_true, if_false]
    exact darkPrimaryOf_valid M hwf hv _ _ hlp

theorem lightPrimaryAndOn_valid (M : RealModel) {analyzed : List Analyzed}
    (hv : ValidAnalyzed analyzed) (lockSet : Bool) {lp : Analyzed}
    (hlp : (hexToRgb lp.hex).isSome = true) :
    (hexToRgb (lightPrimaryAndOn M analyzed lockSet lp).1).isSome = true ∧
      (hexToRgb (lightPrimaryAndOn M analyzed lockSet lp).2).isSome = true := by
  unfold lightPrimaryAndOn
  dsimp only
  split_ifs with h1 h2 h3 h4
  · exact ⟨hlp, by rfl⟩
  · exact ⟨hlp, by rfl⟩
  · cases hf : analyzed.find? fun c =>
        (decide (getContrastRatio M c.rgb ⟨255, 255, 255⟩ ≥ 9 / 2) ||
          decide (getContrastRatio M c.rgb ⟨0, 0, 0⟩ ≥ 9 / 2)) &&
          decide (c.saturation > 1 / 5) with
    | some bp =>
      dsimp only
      refine ⟨hv bp (List.mem_of_find?_eq_some hf), ?_⟩
      split_ifs <;> rfl
    | none =>
      dsimp only
      exact ⟨by rfl, by rfl⟩
  · exact ⟨hlp, by rfl⟩
  · exact ⟨hlp, by rfl⟩

theorem darkPrimaryAndOn_valid (M : RealModel) {dp : Analyzed}
    (hdp : (hexToRgb dp.hex).isSome = true) :
    (hexToRgb (darkPrimaryAndOn M dp).1).isSome = true ∧
      (hexToRgb (darkPrimaryAndOn M dp).2).isSome = true := by
  unfold darkPrimaryAndOn
  dsimp only
  split_ifs <;> exact ⟨hdp, by rfl⟩

/-- C1: for every palette of byte-range swatches and any combination of
lock arguments, `generateTokens` returns light and dark `TokenSet`s in
which all 8 fields are valid hex color strings (every fallback constant
and every palette-derived hex parses). -/
theorem generateTokens_valid (M : RealModel) (palette : List Swatch)
    (hwf : WfPalette palette) (lockP lockLB lockDB : Option String) :
    ValidTokenSet (generateTokens M palette lockP lockLB lockDB).light ∧
      ValidTokenSet (generateTokens M palette lockP lockLB lockDB).dark := by
  have hv : ValidAnalyzed (palette.map (analyzeSwatch M)) := fun c hc =>
    analyzeSwatch_valid M hwf hc
  have hlp := lightLp_valid M hwf hv lockP lockLB
  have hdp := darkDp_valid M hwf hv lockP lockDB hlp
  constructor
  · exact ⟨lightBgStr_valid M hv lockLB, lightSurfaceStr_valid M hv lockLB,
      lightBorderStr_valid M hv lockLB, (lightHT_valid M hv lockLB).2,
      (lightHT_valid M hv lockLB).1, lightMutedStr_valid M hv lockLB,
      (lightPrimaryAndOn_valid M hv (isLockSet lockP) hlp).1,
      (lightPrimaryAndOn_valid M hv (isLockSet lockP) hlp).2⟩
  · exact ⟨darkBgStr_valid M hv lockDB, darkSurfaceStr_valid M hv lockDB,
      darkBorderStr_valid M hv lockDB, (darkHT_valid M hv lockDB).2,
      (darkHT_valid M hv lockDB).1, darkMutedStr_valid M hv lockDB,
      (darkPrimaryAndOn_valid M hdp).1, (darkPrimaryAndOn_valid M hdp).2⟩

/-- Witness for C1 at the empty palette (degenerate input) and no locks. -/
theorem generateTokens_valid_witness :
    WfPalette [] ∧
      (ValidTokenSet (generateTokens ratModel [] none none none).light ∧
        ValidTokenSet (generateTokens ratModel [] none none none).dark) :=
  ⟨fun s hs => absurd hs (List.not_mem_nil s),
    generateTokens_valid ratModel [] (fun s hs => absurd hs (List.not_mem_nil s))
      none none none⟩

/-! ## C2: the 4.5:1 contrast guarantee for heading and text -/

theorem qmax_eq_max (a b : ℚ) : qmax a b = max a b := by
  unfold qmax
  rw [max_def]

theorem qmin_eq_min (a b : ℚ) : qmin a b = min a b := by
  unfold qmin
  rw [min_def]

theorem pow24_one (M : RealModel) : M.pow24 1 = 1 := by
  have h1 := M.pow24_lb 1 (by norm_num) (by norm_num)
  have h2 := M.pow24_ub 1 (by norm_num) (by norm_num)
  norm_num at h1 h2
  linarith

theorem linearize_nonneg (M : RealModel) (c : ℕ) (hc : c ≤ 255) :
    0 ≤ linearize M c := by
  unfold linearize
  dsimp only
  split_ifs with h
  · positivity
  · have harg0 : (0 : ℚ) ≤ ((c : ℚ) / 255 + 55 / 1000) / (1055 / 1000) := by positivity
    have harg1 : ((c : ℚ) / 255 + 55 / 1000) / (1055 / 1000) ≤ 1 := by
      have : (c : ℚ) ≤ 255 := by exact_mod_cast hc
      rw [div_le_one (by norm_num)]
      rw [div_add' _ _ _ (by norm_num)]
      rw [div_le_iff (by norm_num)]
      linarith
    have := M.pow24_lb _ harg0 harg1
    have hcube : (0 : ℚ) ≤ (((c : ℚ) / 255 + 55 / 1000) / (1055 / 1000)) ^ 3 := by
      positivity
    linarith

theorem linearize_le_one (M : RealModel) (c : ℕ) (hc : c ≤ 255) :
    linearize M c ≤ 1 := by
  unfold linearize
  dsimp only
  split_ifs with h
  · have hx0 : (0 : ℚ) ≤ (c : ℚ) / 255 := by positivity
    have he : (c : ℚ) / 255 / (1292 / 100) = (c : ℚ) / 255 * (100 / 1292) := by ring
    rw [he]
    nlinarith
  · have harg0 : (0 : ℚ) ≤ ((c : ℚ) / 255 + 55 / 1000) / (1055 / 1000) := by positivity
    have harg1 : ((c : ℚ) / 255 + 55 / 1000) / (1055 / 1000) ≤ 1 := by
      have : (c : ℚ) ≤ 255 := by exact_mod_cast hc
      rw [div_le_one (by norm_num)]
      rw [div_add' _ _ _ (by norm_num)]
      rw [div_le_iff (by norm_num)]
      linarith
    have := M.pow24_ub _ harg0 harg1
    have hsq : (((c : ℚ) / 255 + 55 / 1000) / (1055 / 1000)) ^ 2 ≤ 1 := by
      nlinarith
    linarith

theorem getLuminance_nonneg (M : RealModel) (r g b : ℕ) (hr : r ≤ 255)
    (hg : g ≤ 255) (hb : b ≤ 255) : 0 ≤ getLuminance M r g b := by
  unfold getLuminance
  have h1 := linearize_nonneg M r hr
  have h2 := linearize_nonneg M g hg
  have h3 := linearize_nonneg M b hb
  nlinarith

theorem getLuminance_le_one (M : RealModel) (r g b : ℕ) (hr : r ≤ 255)
    (hg : g ≤ 255) (hb : b ≤ 255) : getLuminance M r g b ≤ 1 := by
  unfold getLuminance
  have h1 := linearize_le_one M r hr
  have h2 := linearize_le_one M g hg
  have h3 := linearize_le_one M b hb
  nlinarith [linearize_nonneg M r hr, linearize_nonneg M g hg, linearize_nonneg M b hb]

theorem lum_white (M : RealModel) : getLuminance M 255 255 255 = 1 := by
  unfold getLuminance linearize
  dsimp only
  rw [if_neg (by norm_num)]
  have harg : (((255 : ℕ) : ℚ) / 255 + 55 / 1000) / (1055 / 1000) = 1 := by norm_num
  rw [harg, pow24_one]
  norm_num

theorem lum_black (M : RealModel) : getLuminance M 0 0 0 = 0 := by
  unfold getLuminance linearize
  dsimp only
  rw [if_pos (by norm_num)]
  norm_num

/-- Luminance of a gray above the linear-segment cutoff is just the
gamma-corrected channel (the three WCAG weights sum to 1). -/
theorem lum_gray_eq (M : RealModel) (c : ℕ) (h : ¬((c : ℚ) / 255 ≤ 3928 / 100000)) :
    getLuminance M c c c = M.pow24 (((c : ℚ) / 255 + 55 / 1000) / (1055 / 1000)) := by
  unfold getLuminance linearize
  dsimp only
  rw [if_neg h]
  ring

theorem lum_gray_ub (M : RealModel) (c : ℕ) (hc : c ≤ 255)
    (h : ¬((c : ℚ) / 255 ≤ 3928 / 100000)) :
    getLuminance M c c c ≤ (((c : ℚ) / 255 + 55 / 1000) / (1055 / 1000)) ^ 2 := by
  rw [lum_gray_eq M c h]
  refine M.pow24_ub _ (by positivity) ?_
  have : (c : ℚ) ≤ 255 := by exact_mod_cast hc
  rw [div_le_one (by norm_num)]
  rw [div_add' _ _ _ (by norm_num)]
  rw [div_le_iff (by norm_num)]
  linarith

theorem lum_gray_lb (M : RealModel) (c : ℕ) (hc : c ≤ 255)
    (h : ¬((c : ℚ) / 255 ≤ 3928 / 100000)) :
    (((c : ℚ) / 255 + 55 / 1000) / (1055 / 1000)) ^ 3 ≤ getLuminance M c c c := by
  rw [lum_gray_eq M c h]
  refine M.pow24_lb _ (by positivity) ?_
  have : (c : ℚ) ≤ 255 := by exact_mod_cast hc
  rw [div_le_one (by norm_num)]
  rw [div_add' _ _ _ (by norm_num)]
  rw [div_le_iff (by norm_num)]
  linarith

theorem lum_111111_le (M : RealModel) : getLuminance M 17 17 17 ≤ 3 / 20 := by
  have := lum_gray_ub M 17 (by norm_num) (by norm_num)
  refine this.trans ?_
  norm_num

theorem lum_1a1a1a_le (M : RealModel) : getLuminance M 26 26 26 ≤ 3 / 20 := by
  have := lum_gray_ub M 26 (by norm_num) (by norm_num)
  refine this.trans ?_
  norm_num

theorem lum_444444_le (M : RealModel) : getLuminance M 68 68 68 ≤ 3 / 20 := by
  have := lum_gray_ub M 68 (by norm_num) (by norm_num)
  refine this.trans ?_
  norm_num

theorem lum_141414_le (M : RealModel) : getLuminance M 20 20 20 ≤ 1 / 20 := by
  have := lum_gray_ub M 20 (by norm_num) (by norm_num)
  refine this.trans ?_
  norm_num

theorem lum_f0f0f0_ge (M : RealModel) : 2 / 5 ≤ getLuminance M 240 240 240 := by
  refine le_trans ?_ (lum_gray_lb M 240 (by norm_num) (by norm_num))
  norm_num

theorem lum_c0c0c0_ge (M : RealModel) : 2 / 5 ≤ getLuminance M 192 192 192 := by
  refine le_trans ?_ (lum_gray_lb M 192 (by norm_num) (by norm_num))
  norm_num

theorem getContrastRatio_comm (M : RealModel) (a b : Pixel) :
    getContrastRatio M a b = getContrastRatio M b a := by
  unfold getContrastRatio
  dsimp only
  rw [qmax_eq_max, qmin_eq_min, qmax_eq_max, qmin_eq_min, max_comm, min_comm]

/-- Contrast between two token strings (as the tests measure it: parse
both sides and compare luminances). -/
def contrastOfHex (M : RealModel) (s1 s2 : String) : ℚ :=
  getContrastRatio M ((hexToRgb s1).getD ⟨0, 0, 0⟩) ((hexToRgb s2).getD ⟨0, 0, 0⟩)

theorem contrast_ge (M : RealModel) (c1 c2 : Pixel) (m : ℚ)
    (h0 : 0 ≤ getLuminance M c1.r c1.g c1.b)
    (h12 : getLuminance M c1.r c1.g c1.b ≤ getLuminance M c2.r c2.g c2.b)
    (hm : m * (getLuminance M c1.r c1.g c1.b + 5 / 100) ≤
      getLuminance M c2.r c2.g c2.b + 5 / 100) :
    getContrastRatio M c1 c2 ≥ m := by
  unfold getContrastRatio
  dsimp only
  rw [qmax_eq_max, qmin_eq_min, max_eq_right h12, min_eq_left h12]
  rw [ge_iff_le, le_div_iff (by linarith)]
  linarith

theorem ensureContrast_contrast (M : RealModel) (cand : Option String) (bg : Pixel)
    (minC : ℚ) (fl fd : String)
    (hpass : getContrastRatio M ((hexToRgb fl).getD ⟨0, 0, 0⟩) bg ≥ minC ∨
      getContrastRatio M ((hexToRgb fd).getD ⟨0, 0, 0⟩) bg ≥ minC) :
    getContrastRatio M
        ((hexToRgb (ensureContrast M cand bg minC fl fd)).getD ⟨0, 0, 0⟩) bg ≥
      minC := by
  unfold ensureContrast
  cases cand with
  | none =>
    dsimp only
    split_ifs with hA hB
    · exact hA
    · exact hB
    · rcases hpass with h | h
      · exact absurd h hA
      · exact absurd h hB
    · rcases hpass with h | h
      · exact absurd h hA
      · exact absurd h hB
  | some hx =>
    dsimp only
    cases hp : hexToRgb hx with
    | some rgb =>
      dsimp only
      split_ifs with hc hA hB
      · rw [hp]
        exact hc
      · exact hA
      · exact hB
      · rcases hpass with h | h
        · exact absurd h hA
        · exact absurd h hB
      · rcases hpass with h | h
        · exact absurd h hA
        · exact absurd h hB
    | none =>
      dsimp only
      split_ifs with hA hB
      · exact hA
      · exact hB
      · rcases hpass with h | h
        · exact absurd h hA
        · exact absurd h hB
      · rcases hpass with h | h
        · exact absurd h hA
        · exact absurd h hB

/-- The light surface always parses and its luminance exceeds 0.85: the
palette candidate passes the `> 0.85` filter and the `'#ffffff'`
fallback has luminance 1. -/
theorem lightSurface_lum (M : RealModel) {palette : List Swatch}
    (hwf : WfPalette palette) (llb : Option String) :
    ∃ srgb, hexToRgb (lightSurfaceStr M (palette.map (analyzeSwatch M)) llb) =
        some srgb ∧
      17 / 20 < getLuminance M srgb.r srgb.g srgb.b := by
  have hwhite : ∃ srgb, hexToRgb "#ffffff" = some srgb ∧
      17 / 20 < getLuminance M srgb.r srgb.g srgb.b := by
    refine ⟨⟨255, 255, 255⟩, by rfl, ?_⟩
    rw [show getLuminance M (255 : ℕ) 255 255 = 1 from lum_white M]
    norm_num
  unfold lightSurfaceStr lightSurfaceTok
  dsimp only
  rcases useColor_cases
    (lightSurfaceCand (palette.map (analyzeSwatch M))
      (lightBgCand M (palette.map (analyzeSwatch M)) llb)) "#ffffff"
    with ⟨c, hc, he⟩ | he <;> rw [he] <;> split_ifs
  · exact hwhite
  · unfold lightSurfaceCand at hc
    obtain ⟨hmem, hfil⟩ := findBest_mem hc
    simp only [Bool.and_eq_true, decide_eq_true_eq] at hfil
    obtain ⟨s, hsmem, rfl⟩ := List.mem_map.1 hmem
    obtain ⟨hr, hg, hb⟩ := hwf s hsmem
    refine ⟨⟨s.r, s.g, s.b⟩, ?_, ?_⟩
    · exact hex_roundtrip s.r s.g s.b hr hg hb
    · exact hfil.1.1
  · exact hwhite
  · exact hwhite

/-- The dark surface always parses and its luminance is at most 0.05. -/
theorem darkSurface_lum (M : RealModel) {palette : List Swatch}
    (hwf : WfPalette palette) (ldb : Option String) :
    ∃ srgb, hexToRgb (darkSurfaceStr M (palette.map (analyzeSwatch M)) ldb) =
        some srgb ∧
      getLuminance M srgb.r srgb.g srgb.b ≤ 1 / 20 := by
  have hfall : ∃ srgb, hexToRgb "#141414" = some srgb ∧
      getLuminance M srgb.r srgb.g srgb.b ≤ 1 / 20 := by
    exact ⟨⟨20, 20, 20⟩, by rfl, lum_141414_le M⟩
  unfold darkSurfaceStr darkSurfaceTok
  dsimp only
  rcases useColor_cases
    (darkSurfaceCand (palette.map (analyzeSwatch M))
      (darkBgLumQ M (palette.map (analyzeSwatch M)) ldb)
      (darkBgCand M (palette.map (analyzeSwatch M)) ldb)) "#141414"
    with ⟨c, hc, he⟩ | he <;> rw [he] <;> split_ifs
  · exact hfall
  · unfold darkSurfaceCand at hc
    obtain ⟨hmem, hfil⟩ := findBest_mem hc
    simp only [Bool.and_eq_true, decide_eq_true_eq] at hfil
    obtain ⟨s, hsmem, rfl⟩ := List.mem_map.1 hmem
    obtain ⟨hr, hg, hb⟩ := hwf s hsmem
    refine ⟨⟨s.r, s.g, s.b⟩, hex_roundtrip s.r s.g s.b hr hg hb, ?_⟩
    have h2 : (analyzeSwatch M s).luminance < 5 / 100 := hfil.1.1.2
    have h3 : getLuminance M s.r s.g s.b < 5 / 100 := h2
    have h4 : (5 : ℚ) / 100 ≤ 1 / 20 := by norm_num
    exact le_of_lt (lt_of_lt_of_le h3 h4)
  · exact hfall
  · exact hfall

theorem lightHT_contrast (M : RealModel) {palette : List Swatch}
    (hwf : WfPalette palette) (llb : Option String) :
    contrastOfHex M (lightHT M (palette.map (analyzeSwatch M)) llb).1
        (lightSurfaceStr M (palette.map (analyzeSwatch M)) llb) ≥ 9 / 2 ∧
      contrastOfHex M (lightHT M (palette.map (analyzeSwatch M)) llb).2
        (lightSurfaceStr M (palette.map (analyzeSwatch M)) llb) ≥ 9 / 2 := by
  obtain ⟨srgb, hs, hlum⟩ := lightSurface_lum M hwf llb
  have hsb := hexToRgb_le hs
  have h0s := getLuminance_nonneg M srgb.r srgb.g srgb.b hsb.1 hsb.2.1 hsb.2.2
  have hbft : lightBgForText M (palette.map (analyzeSwatch M)) llb = srgb := by
    unfold lightBgForText lightSurfaceRgbOpt
    rw [hs]
    rfl
  have hconst : ∀ t : Pixel, 0 ≤ getLuminance M t.r t.g t.b →
      getLuminance M t.r t.g t.b ≤ 3 / 20 → getContrastRatio M t srgb ≥ 9 / 2 := by
    intro t ht0 ht
    refine contrast_ge M t srgb _ ht0 (by linarith) (by linarith)
  have hh0 : getContrastRatio M
      ((hexToRgb (lightHeading0Str M (palette.map (analyzeSwatch M)) llb)).getD
        ⟨0, 0, 0⟩) srgb ≥ 9 / 2 := by
    unfold lightHeading0Str
    rw [hbft]
    refine ensureContrast_contrast M _ _ _ _ _ (Or.inr ?_)
    show getContrastRatio M ⟨0, 0, 0⟩ srgb ≥ 9 / 2
    refine hconst ⟨0, 0, 0⟩ ?_ ?_
    · rw [show getLuminance M (0 : ℕ) 0 0 = 0 from lum_black M]
    · rw [show getLuminance M (0 : ℕ) 0 0 = 0 from lum_black M]
      norm_num
  have ht0 : getContrastRatio M
      ((hexToRgb (lightText0Str M (palette.map (analyzeSwatch M)) llb)).getD
        ⟨0, 0, 0⟩) srgb ≥ 9 / 2 := by
    unfold lightText0Str
    rw [hbft]
    refine ensureContrast_contrast M _ _ _ _ _ (Or.inr ?_)
    show getContrastRatio M ⟨17, 17, 17⟩ srgb ≥ 9 / 2
    refine hconst ⟨17, 17, 17⟩ ?_ ?_
    · exact getLuminance_nonneg M 17 17 17 (by omega) (by omega) (by omega)
    · exact lum_111111_le M
  have h1a : getContrastRatio M ((hexToRgb "#1a1a1a").getD ⟨0, 0, 0⟩) srgb ≥ 9 / 2 := by
    show getContrastRatio M ⟨26, 26, 26⟩ srgb ≥ 9 / 2
    refine hconst ⟨26, 26, 26⟩ ?_ (lum_1a1a1a_le M)
    exact getLuminance_nonneg M 26 26 26 (by omega) (by omega) (by omega)
  have h44 : getContrastRatio M ((hexToRgb "#444444").getD ⟨0, 0, 0⟩) srgb ≥ 9 / 2 := by
    show getContrastRatio M ⟨68, 68, 68⟩ srgb ≥ 9 / 2
    refine hconst ⟨68, 68, 68⟩ ?_ (lum_444444_le M)
    exact getLuminance_nonneg M 68 68 68 (by omega) (by omega) (by omega)
  obtain ⟨hc1, hc2⟩ := lightSwapFix_cases M
    (lightHeading0Str M (palette.map (analyzeSwatch M)) llb)
    (lightText0Str M (palette.map (analyzeSwatch M)) llb)
  constructor
  · show getContrastRatio M
        ((hexToRgb (lightHT M (palette.map (analyzeSwatch M)) llb).1).getD ⟨0, 0, 0⟩)
        ((hexToRgb (lightSurfaceStr M (palette.map (analyzeSwatch M)) llb)).getD
          ⟨0, 0, 0⟩) ≥ 9 / 2
    rw [hs]
    rcases hc1 with h | h | h
    · rw [show lightHT M (palette.map (analyzeSwatch M)) llb =
          lightSwapFix M (lightHeading0Str M (palette.map (analyzeSwatch M)) llb)
            (lightText0Str M (palette.map (analyzeSwatch M)) llb) from rfl, h]
      exact hh0
    · rw [show lightHT M (palette.map (analyzeSwatch M)) llb =
          lightSwapFix M (lightHeading0Str M (palette.map (analyzeSwatch M)) llb)
            (lightText0Str M (palette.map (analyzeSwatch M)) llb) from rfl, h]
      exact ht0
    · rw [show lightHT M (palette.map (analyzeSwatch M)) llb =
          lightSwapFix M (lightHeading0Str M (palette.map (analyzeSwatch M)) llb)
            (lightText0Str M (palette.map (analyzeSwatch M)) llb) from rfl, h]
      exact h1a
  · show getContrastRatio M
        ((hexToRgb (lightHT M (palette.map (analyzeSwatch M)) llb).2).getD ⟨0, 0, 0⟩)
        ((hexToRgb (lightSurfaceStr M (palette.map (analyzeSwatch M)) llb)).getD
          ⟨0, 0, 0⟩) ≥ 9 / 2
    rw [hs]
    rcases hc2 with h | h | h
    · rw [show lightHT M (palette.map (analyzeSwatch M)) llb =
          lightSwapFix M (lightHeading0Str M (palette.map (analyzeSwatch M)) llb)
            (lightText0Str M (palette.map (analyzeSwatch M)) llb) from rfl, h]
      exact hh0
    · rw [show lightHT M (palette.map (analyzeSwatch M)) llb =
          lightSwapFix M (lightHeading0Str M (palette.map (analyzeSwatch M)) llb)
            (lightText0Str M (palette.map (analyzeSwatch M)) llb) from rfl, h]
      exact ht0
    · rw [show lightHT M (palette.map (analyzeSwatch M)) llb =
          lightSwapFix M (lightHeading0Str M (palette.map (analyzeSwatch M)) llb)
            (lightText0Str M (palette.map (analyzeSwatch M)) llb) from rfl, h]
      exact h44

theorem darkHT_contrast (M : RealModel) {palette : List Swatch}
    (hwf : WfPalette palette) (ldb : Option String) :
    contrastOfHex M (darkHT M (palette.map (analyzeSwatch M)) ldb).1
        (darkSurfaceStr M (palette.map (analyzeSwatch M)) ldb) ≥ 9 / 2 ∧
      contrastOfHex M (darkHT M (palette.map (analyzeSwatch M)) ldb).2
        (darkSurfaceStr M (palette.map (analyzeSwatch M)) ldb) ≥ 9 / 2 := by
  obtain ⟨srgb, hs, hlum⟩ := darkSurface_lum M hwf ldb
  have hsb := hexToRgb_le hs
  have h0s := getLuminance_nonneg M srgb.r srgb.g srgb.b hsb.1 hsb.2.1 hsb.2.2
  have hbft : darkBgForText M (palette.map (analyzeSwatch M)) ldb = srgb := by
    unfold darkBgForText darkSurfaceRgbOpt
    rw [hs]
    rfl
  have hconst : ∀ t : Pixel, 2 / 5 ≤ getLuminance M t.r t.g t.b →
      getContrastRatio M t srgb ≥ 9 / 2 := by
    intro t ht
    rw [getContrastRatio_comm]
    refine contrast_ge M srgb t _ h0s (by linarith) (by linarith)
  have hh0 : getContrastRatio M
      ((hexToRgb (darkHeading0Str M (palette.map (analyzeSwatch M)) ldb)).getD
        ⟨0, 0, 0⟩) srgb ≥ 9 / 2 := by
    unfold darkHeading0Str
    rw [hbft]
    refine ensureContrast_contrast M _ _ _ _ _ (Or.inl ?_)
    show getContrastRatio M ⟨255, 255, 255⟩ srgb ≥ 9 / 2
    refine hconst ⟨255, 255, 255⟩ ?_
    rw [show getLuminance M (255 : ℕ) 255 255 = 1 from lum_white M]
    norm_num
  have ht0 : getContrastRatio M
      ((hexToRgb (darkText0Str M (palette.map (analyzeSwatch M)) ldb)).getD
        ⟨0, 0, 0⟩) srgb ≥ 9 / 2 := by
    unfold darkText0Str
    rw [hbft]
    refine ensureContrast_contrast M _ _ _ _ _ (Or.inl ?_)
    show getContrastRatio M ⟨240, 240, 240⟩ srgb ≥ 9 / 2
    exact hconst ⟨240, 240, 240⟩ (lum_f0f0f0_ge M)
  have hwt : getContrastRatio M ((hexToRgb "#ffffff").getD ⟨0, 0, 0⟩) srgb ≥ 9 / 2 := by
    show getContrastRatio M ⟨255, 255, 255⟩ srgb ≥ 9 / 2
    refine hconst ⟨255, 255, 255⟩ ?_
    rw [show getLuminance M (255 : ℕ) 255 255 = 1 from lum_white M]
    norm_num
  have hc0 : getContrastRatio M ((hexToRgb "#c0c0c0").getD ⟨0, 0, 0⟩) srgb ≥ 9 / 2 := by
    show getContrastRatio M ⟨192, 192, 192⟩ srgb ≥ 9 / 2
    exact hconst ⟨192, 192, 192⟩ (lum_c0c0c0_ge M)
  obtain ⟨hc1, hc2⟩ := darkSwapFix_cases M
    (darkHeading0Str M (palette.map (analyzeSwatch M)) ldb)
    (darkText0Str M (palette.map (analyzeSwatch M)) ldb)
  constructor
  · show getContrastRatio M
        ((hexToRgb (darkHT M (palette.map (analyzeSwatch M)) ldb).1).getD ⟨0, 0, 0⟩)
        ((hexToRgb (darkSurfaceStr M (palette.map (analyzeSwatch M)) ldb)).getD
          ⟨0, 0, 0⟩) ≥ 9 / 2
    rw [hs]
    rcases hc1 with h | h | h <;>
      rw [show darkHT M (palette.map (analyzeSwatch M)) ldb =
        darkSwapFix M (darkHeading0Str M (palette.map (analyzeSwatch M)) ldb)
          (darkText0Str M (palette.map (analyzeSwatch M)) ldb) from rfl, h]
    · exact hh0
    · exact ht0
    · exact hwt
  · show getContrastRatio M
        ((hexToRgb (darkHT M (palette.map (analyzeSwatch M)) ldb).2).getD ⟨0, 0, 0⟩)
        ((hexToRgb (darkSurfaceStr M (palette.map (analyzeSwatch M)) ldb)).getD
          ⟨0, 0, 0⟩) ≥ 9 / 2
    rw [hs]
    rcases hc2 with h | h | h <;>
      rw [show darkHT M (palette.map (analyzeSwatch M)) ldb =
        darkSwapFix M (darkHeading0Str M (palette.map (analyzeSwatch M)) ldb)
          (darkText0Str M (palette.map (analyzeSwatch M)) ldb) from rfl, h]
    · exact hh0
    · exact ht0
    · exact hc0

/-- C2: for every byte-range palette and lock combination, in both modes
the derived heading and text tokens have contrast ratio at least 4.5
against the derived surface token — the guarantee step makes this hold
unconditionally, fallbacks included. -/
theorem contrast_guarantee (M : RealModel) (palette : List Swatch)
    (hwf : WfPalette palette) (lockP lockLB lockDB : Option String) :
    contrastOfHex M (generateTokens M palette lockP lockLB lockDB).light.heading
        (generateTokens M palette lockP lockLB lockDB).light.surface ≥ 9 / 2 ∧
      contrastOfHex M (generateTokens M palette lockP lockLB lockDB).light.text
        (generateTokens M palette lockP lockLB lockDB).light.surface ≥ 9 / 2 ∧
      contrastOfHex M (generateTokens M palette lockP lockLB lockDB).dark.heading
        (generateTokens M palette lockP lockLB lockDB).dark.surface ≥ 9 / 2 ∧
      contrastOfHex M (generateTokens M palette lockP lockLB lockDB).dark.text
        (generateTokens M palette lockP lockLB lockDB).dark.surface ≥ 9 / 2 :=
  ⟨(lightHT_contrast M hwf lockLB).1, (lightHT_contrast M hwf lockLB).2,
    (darkHT_contrast M hwf lockDB).1, (darkHT_contrast M hwf lockDB).2⟩

/-- Witness for C2 at the empty palette and no locks. -/
theorem contrast_guarantee_witness :
    WfPalette [] ∧
      (contrastOfHex ratModel (generateTokens ratModel [] none none none).light.heading
          (generateTokens ratModel [] none none none).light.surface ≥ 9 / 2 ∧
        contrastOfHex ratModel (generateTokens ratModel [] none none none).light.text
          (generateTokens ratModel [] none none none).light.surface ≥ 9 / 2 ∧
        contrastOfHex ratModel (generateTokens ratModel [] none none none).dark.heading
          (generateTokens ratModel [] none none none).dark.surface ≥ 9 / 2 ∧
        contrastOfHex ratModel (generateTokens ratModel [] none none none).dark.text
          (generateTokens ratModel [] none none none).dark.surface ≥ 9 / 2) :=
  ⟨fun s hs => absurd hs (List.not_mem_nil s),
    contrast_guarantee ratModel [] (fun s hs => absurd hs (List.not_mem_nil s))
      none none none⟩

/-! ## C6: honoring a parseable locked primary -/

theorem toLower_toHexDigit : ∀ n < 16, Char.toLower (toHexDigit n) = toHexDigit n := by
  intro n h
  unfold toHexDigit
  interval_cases n <;> decide

theorem lowerS_rgbToHex (r g b : ℕ) (hr : r ≤ 255) (hg : g ≤ 255) (hb : b ≤ 255) :
    lowerS (rgbToHex r g b) = rgbToHex r g b := by
  unfold rgbToHex lowerS byteToHex
  show String.mk _ = String.mk _
  congr 1
  simp only [String.data]
  have hdig : ∀ m : ℕ, m ≤ 255 →
      Char.toLower (toHexDigit (m / 16)) = toHexDigit (m / 16) ∧
      Char.toLower (toHexDigit (m % 16)) = toHexDigit (m % 16) := by
    intro m hm
    exact ⟨toLower_toHexDigit _ (Nat.div_lt_of_lt_mul (by omega)),
      toLower_toHexDigit _ (Nat.mod_lt _ (by omega))⟩
  simp only [List.map_cons, List.map_append, List.map_nil]
  rw [(hdig r hr).1, (hdig r hr).2, (hdig g hg).1, (hdig g hg).2,
    (hdig b hb).1, (hdig b hb).2]
  rfl

theorem resolveLock_lower (M : RealModel) {analyzed : List Analyzed}
    {locked : String} (hp : (hexToRgb locked).isSome = true) :
    ∃ c, resolveLock M analyzed locked = some c ∧ lowerS c.hex = lowerS locked := by
  unfold resolveLock
  cases hf : analyzed.find? fun c => lowerS c.hex == lowerS locked with
  | some c =>
    refine ⟨c, rfl, ?_⟩
    have := List.find?_some hf
    simpa using this
  | none =>
    obtain ⟨rgb, hrgb⟩ := Option.isSome_iff_exists.1 hp
    rw [hrgb]
    exact ⟨_, rfl, rfl⟩

theorem lightPrimaryAndOn_locked (M : RealModel) (analyzed : List Analyzed)
    (lp : Analyzed) : (lightPrimaryAndOn M analyzed true lp).1 = lp.hex := by
  unfold lightPrimaryAndOn
  dsimp only
  simp only [Bool.not_true, Bool.false_eq_true, if_false]
  split_ifs <;> rfl

theorem darkPrimaryAndOn_fst (M : RealModel) (dp : Analyzed) :
    (darkPrimaryAndOn M dp).1 = dp.hex := by
  unfold darkPrimaryAndOn
  dsimp only
  split_ifs <;> rfl

theorem isLockSet_of_parse {locked : String}
    (hp : (hexToRgb locked).isSome = true) : isLockSet (some locked) = true := by
  have hne : locked ≠ "" := by
    intro he
    rw [he] at hp
    exact absurd hp (by decide)
  unfold isLockSet
  dsimp only
  cases hq : locked.isEmpty
  · rfl
  · exact absurd ((String.isEmpty_iff locked).1 hq) hne

/-- C6 (amended): for every palette and every locked primary that parses,
the resulting `primary` token equals the locked hex up to ASCII letter
case, in both modes: it is the palette's lowercase form of the same color
when the palette contains it, and the locked string verbatim otherwise —
candidate scoring and the onPrimary-driven substitution are bypassed. -/
theorem lockedPrimary_honored (M : RealModel) (palette : List Swatch)
    (locked : String) (hp : (hexToRgb locked).isSome = true)
    (lockLB lockDB : Option String) :
    lowerS (generateTokens M palette (some locked) lockLB lockDB).light.primary =
        lowerS locked ∧
      lowerS (generateTokens M palette (some locked) lockLB lockDB).dark.primary =
        lowerS locked := by
  have hls := isLockSet_of_parse hp
  obtain ⟨c, hc, hlow⟩ :=
    @resolveLock_lower M (palette.map (analyzeSwatch M)) locked hp
  have hlp : lightLp M palette (palette.map (analyzeSwatch M)) (some locked) lockLB =
      c := by
    unfold lightLp
    simp only [hls, if_true, Option.getD_some, hc]
  have hdp : darkDp M palette (palette.map (analyzeSwatch M)) (some locked) lockDB
      (lightLp M palette (palette.map (analyzeSwatch M)) (some locked) lockLB) = c := by
    unfold darkDp
    simp only [hls, if_true, Option.getD_some, hc]
  constructor
  · show lowerS (lightPrimaryAndOn M (palette.map (analyzeSwatch M))
        (isLockSet (some locked))
        (lightLp M palette (palette.map (analyzeSwatch M)) (some locked) lockLB)).1 =
      lowerS locked
    rw [hls, hlp, lightPrimaryAndOn_locked]
    exact hlow
  · show lowerS (darkPrimaryAndOn M
        (darkDp M palette (palette.map (analyzeSwatch M)) (some locked) lockDB
          (lightLp M palette (palette.map (analyzeSwatch M)) (some locked) lockLB))).1 =
      lowerS locked
    rw [darkPrimaryAndOn_fst, hdp]
    exact hlow

/-- Witness for the amended C6 at a concrete lock. -/
theorem lockedPrimary_honored_witness :
    (hexToRgb "#ff0000").isSome = true ∧
      (lowerS (generateTokens ratModel [] (some "#ff0000") none none).light.primary =
          lowerS "#ff0000" ∧
        lowerS (generateTokens ratModel [] (some "#ff0000") none none).dark.primary =
          lowerS "#ff0000") :=
  ⟨by decide, lockedPrimary_honored ratModel [] "#ff0000" (by decide) none none⟩

set_option maxRecDepth 100000

/-- C6 counterexample: the lock `"#FF0000"` parses, the palette contains
pure red, and the resulting light primary is the palette's lowercase
`"#ff0000"`, not the locked string verbatim. -/
theorem lockedPrimary_not_verbatim :
    (hexToRgb "#FF0000").isSome = true ∧
      (generateTokens ratModel [⟨255, 0, 0, 1, false, false⟩] (some "#FF0000") none
            none).light.primary ≠ "#FF0000" := by
  refine ⟨by decide, ?_⟩
  have e : (generateTokens ratModel [⟨255, 0, 0, 1, false, false⟩] (some "#FF0000")
      none none).light.primary = "#ff0000" := by
    with_unfolding_all rfl
  rw [e]
  decide

/-! ## C5: an unparseable locked primary is ignored -/

theorem toNat_ofNat_valid {n : ℕ} (h : n < 55296) : (Char.ofNat n).toNat = n := by
  rw [Char.ofNat, dif_pos (Or.inl h)]
  rfl

theorem toLower_toNat (c : Char) :
    (Char.toLower c).toNat =
      if 65 ≤ c.toNat ∧ c.toNat ≤ 90 then c.toNat + 32 else c.toNat := by
  unfold Char.toLower
  dsimp only
  split_ifs with h
  · exact toNat_ofNat_valid (by omega)
  · rfl

theorem char_le_iff (a b : Char) : a ≤ b ↔ a.toNat ≤ b.toNat := by
  rw [Char.le_def, UInt32.le_def, BitVec.le_def]
  exact Iff.rfl

theorem char_eq_iff (a b : Char) : a = b ↔ a.toNat = b.toNat := by
  constructor
  · intro h; rw [h]
  · intro h
    apply Char.ext
    apply UInt32.eq_of_toBitVec_eq
    apply BitVec.eq_of_toNat_eq
    exact h

theorem hexDigitVal_toNat (c : Char) :
    hexDigitVal c =
      if 48 ≤ c.toNat ∧ c.toNat ≤ 57 then some (c.toNat - 48)
      else if 97 ≤ c.toNat ∧ c.toNat ≤ 102 then some (c.toNat - 97 + 10)
      else if 65 ≤ c.toNat ∧ c.toNat ≤ 70 then some (c.toNat - 65 + 10)
      else none := by
  unfold hexDigitVal
  simp only [char_le_iff]
  rfl

theorem hexDigitVal_toLower (c : Char) :
    hexDigitVal (Char.toLower c) = hexDigitVal c := by
  rw [hexDigitVal_toNat, hexDigitVal_toNat, toLower_toNat]
  by_cases h : 65 ≤ c.toNat ∧ c.toNat ≤ 90
  · rw [if_pos h]
    split_ifs <;>
      first
        | rfl
        | omega
        | (exfalso; omega)
        | (rw [Option.some.injEq]; omega)
  · rw [if_neg h]

theorem parseHex6_map_toLower (l : List Char) :
    parseHex6 (l.map Char.toLower) = parseHex6 l := by
  rcases l with _ | ⟨a, _ | ⟨b, _ | ⟨c, _ | ⟨d, _ | ⟨e, _ | ⟨f, _ | ⟨g, rest⟩⟩⟩⟩⟩⟩⟩ <;>
    first
      | rfl
      | simp only [List.map, parseHex6, hexPairVal, hexDigitVal_toLower]

theorem toLower_hash (c : Char) : Char.toLower c = '#' ↔ c = '#' := by
  rw [char_eq_iff, char_eq_iff, toLower_toNat]
  have : Char.toNat '#' = 35 := rfl
  split_ifs with h <;> omega

/-- `hexToRgb` is ASCII-case-insensitive: lowercasing the input first does
not change the parse. -/
theorem hexToRgb_lowerS (s : String) : hexToRgb (lowerS s) = hexToRgb s := by
  show (match (lowerS s).data with
    | '#' :: rest => parseHex6 rest
    | cs => parseHex6 cs) =
    (match s.data with
    | '#' :: rest => parseHex6 rest
    | cs => parseHex6 cs)
  rcases hd : s.data with _ | ⟨c, rest⟩
  · have : (lowerS s).data = [] := by
      show s.data.map Char.toLower = []
      rw [hd]; rfl
    rw [this]
  · have hld : (lowerS s).data = Char.toLower c :: rest.map Char.toLower := by
      show s.data.map Char.toLower = _
      rw [hd]; rfl
    rw [hld]
    by_cases hc : c = '#'
    · subst hc
      rw [show Char.toLower '#' = '#' from rfl]
      exact parseHex6_map_toLower rest
    · have hlc : Char.toLower c ≠ '#' := fun h => hc ((toLower_hash c).1 h)
      split
      · rename_i r heq
        exact absurd (List.cons.inj heq).1 hlc
      · split
        · rename_i r heq
          exact absurd (List.cons.inj heq).1 hc
        · exact parseHex6_map_toLower (c :: rest)

/-- A lock that does not parse also matches no palette entry (palette hexes
are `rgbToHex` output, which always parses, also after lowercasing), so
`resolveLock` yields nothing. -/
theorem resolveLock_unparseable (M : RealModel) {palette : List Swatch}
    (hw : WfPalette palette) {s : String} (hs : hexToRgb s = none) :
    resolveLock M (palette.map (analyzeSwatch M)) s = none := by
  unfold resolveLock
  cases hf : (palette.map (analyzeSwatch M)).find? fun c => lowerS c.hex == lowerS s with
  | none =>
    rw [hs]
  | some c =>
    exfalso
    have hmem := List.mem_of_find?_eq_some hf
    have hbeq := List.find?_some hf
    rw [beq_iff_eq] at hbeq
    obtain ⟨sw, hsw, rfl⟩ := List.mem_map.1 hmem
    obtain ⟨h1, h2, h3⟩ := hw sw hsw
    have hL : lowerS (rgbToHex sw.r sw.g sw.b) = lowerS s := hbeq
    rw [lowerS_rgbToHex _ _ _ h1 h2 h3] at hL
    have hsome : hexToRgb (lowerS s) = some ⟨sw.r, sw.g, sw.b⟩ := by
      rw [← hL]
      exact hex_roundtrip _ _ _ h1 h2 h3
    rw [hexToRgb_lowerS, hs] at hsome
    cases hsome

theorem lightLp_unlocked (M : RealModel) (palette : List Swatch)
    (analyzed : List Analyzed) (lockP llb : Option String)
    (h : (if isLockSet lockP then resolveLock M analyzed (lockP.getD "") else none) =
      (none : Option Analyzed)) :
    lightLp M palette analyzed lockP llb = lightLp M palette analyzed none llb := by
  unfold lightLp
  rw [h]
  rfl

theorem darkDp_unlocked (M : RealModel) (palette : List Swatch)
    (analyzed : List Analyzed) (lockP ldb : Option String) (lp : Analyzed)
    (h : (if isLockSet lockP then resolveLock M analyzed (lockP.getD "") else none) =
      (none : Option Analyzed)) :
    darkDp M palette analyzed lockP ldb lp = darkDp M palette analyzed none ldb lp := by
  unfold darkDp
  rw [h]
  rfl

theorem lightLp_none (M : RealModel) (palette : List Swatch)
    (analyzed : List Analyzed) (llb : Option String) :
    lightLp M palette analyzed none llb =
      lightPrimaryOf M palette analyzed (lightUsedText M analyzed llb)
        (lightSurfForPrimary M analyzed llb) := by
  unfold lightLp
  rfl

theorem lightPrimaryStage1_chan {M : RealModel} {palette : List Swatch}
    {analyzed : List Analyzed} {used : List String} {surf : Pixel} {c : Analyzed}
    (h : lightPrimaryStage1 M palette analyzed used surf = some c) :
    ∃ c0 ∈ analyzed, c.r = c0.r ∧ c.g = c0.g ∧ c.b = c0.b := by
  unfold lightPrimaryStage1 at h
  have hm := sortStable_mem.1 (head?_mem h)
  obtain ⟨c0, hc0, rfl⟩ := List.mem_map.1 hm
  exact ⟨c0, (List.mem_filter.1 hc0).1, rfl, rfl, rfl⟩

theorem lightPrimaryVariantFix_chan (M : RealModel) {palette : List Swatch}
    (hwf : WfPalette palette) (surf : Pixel) (lp : Analyzed)
    (hlp : lp.r ≤ 255 ∧ lp.g ≤ 255 ∧ lp.b ≤ 255) :
    (lightPrimaryVariantFix M palette surf lp).r ≤ 255 ∧
      (lightPrimaryVariantFix M palette surf lp).g ≤ 255 ∧
      (lightPrimaryVariantFix M palette surf lp).b ≤ 255 := by
  unfold lightPrimaryVariantFix
  dsimp only
  split_ifs with h1 h2 h3
  · rcases findMostVibrantVariant_cases ((hexToRgb lp.hex).getD ⟨0, 0, 0⟩) palette
      with hc | hc
    · rw [hc]
      cases hb : hexToRgb lp.hex with
      | some p =>
        simp only [hb, Option.getD_some]
        exact ⟨(hexToRgb_le hb).1, (hexToRgb_le hb).2.1, (hexToRgb_le hb).2.2⟩
      | none =>
        simp only [hb, Option.getD_none]
        exact ⟨by norm_num, by norm_num, by norm_num⟩
    · obtain ⟨hr, hg, hb⟩ := hwf _ hc
      exact ⟨hr, hg, hb⟩
  · exact hlp
  · exact hlp
  · exact hlp

theorem lightPrimaryOf_chan (M : RealModel) {palette : List Swatch}
    (hwf : WfPalette palette) {analyzed : List Analyzed}
    (hca : ∀ c ∈ analyzed, c.r ≤ 255 ∧ c.g ≤ 255 ∧ c.b ≤ 255)
    (used : List String) (surf : Pixel) :
    (lightPrimaryOf M palette analyzed used surf).r ≤ 255 ∧
      (lightPrimaryOf M palette analyzed used surf).g ≤ 255 ∧
      (lightPrimaryOf M palette analyzed used surf).b ≤ 255 := by
  unfold lightPrimaryOf
  dsimp only
  refine lightPrimaryVariantFix_chan M hwf surf _ ?_
  cases h1 : lightPrimaryStage1 M palette analyzed used surf with
  | some c =>
    dsimp only
    obtain ⟨c0, hc0, hr, hg, hb⟩ := lightPrimaryStage1_chan h1
    obtain ⟨h1', h2', h3'⟩ := hca c0 hc0
    refine ⟨?_, ?_, ?_⟩
    · rw [hr]; exact h1'
    · rw [hg]; exact h2'
    · rw [hb]; exact h3'
  | none =>
    dsimp only
    cases h2 : lightPrimaryStage2 M analyzed used surf with
    | some c =>
      dsimp only
      exact hca c (lightPrimaryStage2_mem h2)
    | none =>
      dsimp only
      cases h3 : lightPrimaryStage3 M analyzed used surf with
      | some c =>
        dsimp only
        exact hca c (lightPrimaryStage3_mem h3)
      | none =>
        dsimp only
        refine ⟨?_, ?_, ?_⟩ <;>
          · unfold defaultLightPrimary
            dsimp only
            omega

/-- Any color with byte channels clears 4.5:1 against white or against
black (the luminance band [0, 1] makes the two thresholds overlap). -/
theorem onWhiteBlack_dichotomy (M : RealModel) (p : Pixel)
    (h1 : p.r ≤ 255) (h2 : p.g ≤ 255) (h3 : p.b ≤ 255) :
    getContrastRatio M p ⟨255, 255, 255⟩ ≥ 9 / 2 ∨
      getContrastRatio M p ⟨0, 0, 0⟩ ≥ 9 / 2 := by
  have hL0 := getLuminance_nonneg M p.r p.g p.b h1 h2 h3
  have hL1 := getLuminance_le_one M p.r p.g p.b h1 h2 h3
  unfold getContrastRatio
  dsimp only
  rw [lum_white, lum_black]
  set L := getLuminance M p.r p.g p.b with hLd
  unfold qmax qmin
  by_cases hc : L ≤ 11 / 60
  · left
    rw [if_pos hL1, if_pos hL1, ge_iff_le, le_div_iff (by linarith)]
    linarith
  · right
    push_neg at hc
    rw [if_neg (by linarith), if_neg (by linarith), ge_iff_le,
      le_div_iff (by norm_num)]
    linarith

/-- The "neither on-color passes" substitution branch is unreachable for a
byte-channel primary, so the lock flag does not affect the result. -/
theorem lightPrimaryAndOn_flag (M : RealModel) (analyzed : List Analyzed)
    (flag : Bool) (lp : Analyzed)
    (h1 : lp.r ≤ 255) (h2 : lp.g ≤ 255) (h3 : lp.b ≤ 255) :
    lightPrimaryAndOn M analyzed flag lp = lightPrimaryAndOn M analyzed false lp := by
  unfold lightPrimaryAndOn
  dsimp only
  rcases onWhiteBlack_dichotomy M lp.rgb h1 h2 h3 with hd | hd
  · rw [if_pos hd, if_pos hd]
  · by_cases hw : getContrastRatio M lp.rgb ⟨255, 255, 255⟩ ≥ 9 / 2
    · rw [if_pos hw, if_pos hw]
    · rw [if_neg hw, if_neg hw, if_pos hd, if_pos hd]

/-- C5: for every well-formed palette and every lock string that does not
parse as a hex color, `generateTokens` returns exactly the same light and
dark `TokenSet`s as with no lock at all. -/
theorem unparseableLock_ignored (M : RealModel) (palette : List Swatch)
    (hw : WfPalette palette) (s : String) (hs : hexToRgb s = none)
    (lockLB lockDB : Option String) :
    generateTokens M palette (some s) lockLB lockDB =
      generateTokens M palette none lockLB lockDB := by
  have hres : (if isLockSet (some s) then
      resolveLock M (palette.map (analyzeSwatch M)) ((some s).getD "") else none) =
      (none : Option Analyzed) := by
    by_cases he : isLockSet (some s) = true
    · simp only [he, if_true, Option.getD_some]
      exact resolveLock_unparseable M hw hs
    · simp only [Bool.not_eq_true] at he
      simp only [he, Bool.false_eq_true, if_false]
  have hca : ∀ c ∈ palette.map (analyzeSwatch M),
      c.r ≤ 255 ∧ c.g ≤ 255 ∧ c.b ≤ 255 := by
    intro c hc
    obtain ⟨sw, hsw, rfl⟩ := List.mem_map.1 hc
    exact hw sw hsw
  have hlp := lightLp_unlocked M palette (palette.map (analyzeSwatch M)) (some s)
    lockLB hres
  have hchan : (lightLp M palette (palette.map (analyzeSwatch M)) none lockLB).r ≤ 255 ∧
      (lightLp M palette (palette.map (analyzeSwatch M)) none lockLB).g ≤ 255 ∧
      (lightLp M palette (palette.map (analyzeSwatch M)) none lockLB).b ≤ 255 := by
    rw [lightLp_none]
    exact lightPrimaryOf_chan M hw hca _ _
  have hflag : lightPrimaryAndOn M (palette.map (analyzeSwatch M)) (isLockSet (some s))
      (lightLp M palette (palette.map (analyzeSwatch M)) none lockLB) =
      lightPrimaryAndOn M (palette.map (analyzeSwatch M))
        (isLockSet (none : Option String))
        (lightLp M palette (palette.map (analyzeSwatch M)) none lockLB) :=
    lightPrimaryAndOn_flag M _ _ _ hchan.1 hchan.2.1 hchan.2.2
  have hdp := darkDp_unlocked M palette (palette.map (analyzeSwatch M)) (some s)
    lockDB (lightLp M palette (palette.map (analyzeSwatch M)) none lockLB) hres
  unfold generateTokens lightMode darkMode
  dsimp only
  rw [hlp, hflag, hdp]

/-- Witness for C5 at a concrete palette and the unparseable lock `"zzz"`. -/
theorem unparseableLock_ignored_witness :
    WfPalette [⟨10, 20, 30, 1, false, false⟩] ∧ hexToRgb "zzz" = none ∧
      generateTokens ratModel [⟨10, 20, 30, 1, false, false⟩] (some "zzz") none none =
        generateTokens ratModel [⟨10, 20, 30, 1, false, false⟩] none none none := by
  have hwp : WfPalette [⟨10, 20, 30, 1, false, false⟩] := by
    intro t ht
    rcases List.mem_singleton.1 ht with rfl
    exact ⟨by norm_num, by norm_num, by norm_num⟩
  exact ⟨hwp, by decide,
    unparseableLock_ignored ratModel [⟨10, 20, 30, 1, false, false⟩] hwp
      "zzz" (by decide) none none⟩

/-! ## C3: the all-gray pixel list scenario -/

theorem insertLe_replicate {α : Type} (le : α → α → Bool) (a : α) (h : le a a = true)
    (k : ℕ) : insertLe le a (List.replicate k a) = List.replicate (k + 1) a := by
  cases k with
  | zero => rfl
  | succ k =>
    show insertLe le a (a :: List.replicate k a) = _
    unfold insertLe
    simp [h, List.replicate_succ]

theorem sortLe_replicate {α : Type} (le : α → α → Bool) (a : α) (h : le a a = true) :
    ∀ k : ℕ, sortLe le (List.replicate k a) = List.replicate k a := by
  intro k
  induction k with
  | zero => rfl
  | succ k ih =>
    show sortLe le (a :: List.replicate k a) = _
    unfold sortLe
    rw [show sortLe le (List.replicate k a) = List.replicate k a from ih]
    exact insertLe_replicate le a h k

theorem splitBucket_replicate (p : Pixel) (k : ℕ) :
    splitBucket (List.replicate k p) =
      (List.replicate (k / 2) p, List.replicate (k - k / 2) p) := by
  unfold splitBucket
  dsimp only
  rw [sortLe_replicate _ _ (by simp) k, List.length_replicate, List.take_replicate,
    List.drop_replicate]
  rw [Nat.min_eq_left (Nat.div_le_self k 2)]

theorem medianCutLoop_replicate (p : Pixel) (target : ℕ) :
    ∀ (fuel : ℕ) (buckets : List (List Pixel)),
      (∀ b ∈ buckets, ∃ k, b = List.replicate k p) →
      ∀ b ∈ medianCutLoop target fuel buckets, ∃ k, b = List.replicate k p := by
  intro fuel
  induction fuel with
  | zero => intro buckets h b hb; exact h b hb
  | succ fuel ih =>
    intro buckets h b hb
    unfold medianCutLoop at hb
    by_cases hlt : buckets.length < target
    · rw [if_pos hlt] at hb
      by_cases hsz : (largestBucketIdx buckets).2 ≤ 1
      · rw [if_pos hsz] at hb
        exact h b hb
      · rw [if_neg hsz] at hb
        refine ih _ ?_ b hb
        intro b' hb'
        have hrep : ∃ k, buckets.getD (largestBucketIdx buckets).1 [] =
            List.replicate k p := by
          by_cases hi : (largestBucketIdx buckets).1 < buckets.length
          · rw [List.getD_eq_getElem _ _ hi]
            exact h _ (List.getElem_mem hi)
          · rw [List.getD_eq_default _ _ (by omega)]
            exact ⟨0, rfl⟩
        obtain ⟨kb, hkb⟩ := hrep
        rcases List.mem_append.1 hb' with hb' | hb'
        · rcases List.mem_append.1 hb' with hb' | hb'
          · exact h b' (List.take_subset _ _ hb')
          · rw [hkb, splitBucket_replicate] at hb'
            rcases hb' with _ | ⟨_, hb'⟩
            · exact ⟨kb / 2, rfl⟩
            · rcases hb' with _ | ⟨_, hb'⟩
              · exact ⟨kb - kb / 2, rfl⟩
              · cases hb'
        · exact h b' (List.drop_subset _ _ hb')
    · rw [if_neg hlt] at hb
      exact h b hb

theorem rat_floor_add_half (n : ℕ) : Rat.floor ((n : ℚ) + 1 / 2) = n := by
  have h1 : Rat.floor ((n : ℚ) + 1 / 2) = ⌊((n : ℚ) + 1 / 2)⌋ := rfl
  rw [h1, add_comm, Int.floor_add_nat, show ⌊(1 / 2 : ℚ)⌋ = 0 by norm_num]
  omega

theorem ratRound_natCast (n : ℕ) : ratRound (n : ℚ) = n := by
  unfold ratRound
  rw [rat_floor_add_half]
  rfl

theorem bucketToSwatch_replicate (p : Pixel) (k : ℕ) (hk : 0 < k) :
    bucketToSwatch (List.replicate k p) =
      some ⟨p.r, p.g, p.b, k, false, false⟩ := by
  unfold bucketToSwatch
  rw [List.length_replicate]
  rw [if_neg (by omega)]
  dsimp only
  have havg : ∀ f : Pixel → ℚ,
      ((List.replicate k p).map f).sum / (k : ℚ) = f p := by
    intro f
    have hk0 : (k : ℚ) ≠ 0 := by exact_mod_cast hk.ne'
    rw [List.map_replicate, List.sum_replicate, nsmul_eq_mul, mul_comm,
      mul_div_assoc, div_self hk0, mul_one]
  rw [show ((List.replicate k p).map fun q => (q.r : ℚ)).sum / (k : ℚ) = (p.r : ℚ) from
      havg _,
    show ((List.replicate k p).map fun q => (q.g : ℚ)).sum / (k : ℚ) = (p.g : ℚ) from
      havg _,
    show ((List.replicate k p).map fun q => (q.b : ℚ)).sum / (k : ℚ) = (p.b : ℚ) from
      havg _,
    ratRound_natCast, ratRound_natCast, ratRound_natCast]

theorem filterMap_bucketToSwatch_replicate (p : Pixel) :
    ∀ l : List (List Pixel),
      (∀ b ∈ l, ∃ k, 0 < k ∧ b = List.replicate k p) →
      l.filterMap bucketToSwatch =
        (l.map List.length).map fun k => ⟨p.r, p.g, p.b, k, false, false⟩ := by
  intro l
  induction l with
  | nil => intro _; rfl
  | cons b l ih =>
    intro h
    obtain ⟨k, hk, rfl⟩ := h _ (List.mem_cons_self b l)
    rw [List.filterMap_cons, bucketToSwatch_replicate p k hk, List.map_cons,
      List.map_cons, List.length_replicate,
      ih fun x hx => h x (List.mem_cons_of_mem _ hx)]

/-- `medianCut` on `N` copies of one pixel returns one swatch of that exact
color per bucket, with positive populations summing to `N`. -/
theorem medianCut_replicate (p : Pixel) (N target : ℕ) (hN : 0 < N)
    (ht : 1 ≤ target) :
    ∃ ks : List ℕ, ks ≠ [] ∧ (∀ k ∈ ks, 0 < k) ∧ ks.sum = N ∧
      medianCut (List.replicate N p) target =
        ks.map fun k => ⟨p.r, p.g, p.b, k, false, false⟩ := by
  unfold medianCut
  rw [List.length_replicate, if_neg (by omega)]
  have hinv := medianCutLoop_inv target N target [List.replicate N p]
    (by intro b hb; rw [List.mem_singleton.1 hb]; simp; omega)
    (by simp) (by simpa using ht) (by simp)
  obtain ⟨hne, hlo, _, hsum⟩ := hinv
  have hrep := medianCutLoop_replicate p target target [List.replicate N p]
    (by intro b hb; rw [List.mem_singleton.1 hb]; exact ⟨N, rfl⟩)
  refine ⟨(medianCutLoop target target [List.replicate N p]).map List.length,
    ?_, ?_, hsum, ?_⟩
  · have : 0 < ((medianCutLoop target target [List.replicate N p]).map
        List.length).length := by
      rw [List.length_map]; omega
    exact List.ne_nil_of_length_pos this
  · intro k hk
    obtain ⟨b, hb, rfl⟩ := List.mem_map.1 hk
    exact List.length_pos.2 (hne b hb)
  · refine filterMap_bucketToSwatch_replicate p _ ?_
    intro b hb
    obtain ⟨k, hkrep⟩ := hrep b hb
    refine ⟨k, ?_, hkrep⟩
    have hbne := hne b hb
    rw [hkrep] at hbne
    rcases Nat.eq_zero_or_pos k with rfl | hpos
    · exact absurd rfl hbne
    · exact hpos

theorem colorDistanceSq_same {a b : Pixel} (hr : a.r = b.r) (hg : a.g = b.g)
    (hb : a.b = b.b) : colorDistanceSq a b = 0 := by
  unfold colorDistanceSq
  rw [hr, hg, hb]
  ring

theorem dedupStep_same (r g b : ℕ) (P q : ℕ) (f1 f2 g1 g2 : Bool) :
    dedupStep 30 [⟨r, g, b, P, f1, f2⟩] ⟨r, g, b, q, g1, g2⟩ =
      [⟨r, g, b, P + q, f1, f2⟩] := by
  have hd : distLt (⟨r, g, b⟩ : Pixel) (⟨r, g, b⟩ : Pixel) 30 = true := by
    unfold distLt
    rw [colorDistanceSq_same rfl rfl rfl]
    simp only [decide_eq_true_eq]
    norm_num
  have hci : closestIdx [⟨r, g, b, P, f1, f2⟩] ⟨r, g, b, q, g1, g2⟩ = 0 := rfl
  unfold dedupStep
  dsimp only [Swatch.rgb]
  simp only [List.any_cons, List.any_nil, Bool.or_false, hd, if_true]
  rw [hci]
  dsimp only [List.get?]
  rw [if_neg (lt_irrefl (getSaturation r g b))]
  rfl

theorem foldl_dedupStep_same (r g b : ℕ) (f1 f2 : Bool) :
    ∀ (ks : List ℕ) (P : ℕ),
      (ks.map fun k => (⟨r, g, b, k, false, false⟩ : Swatch)).foldl (dedupStep 30)
        [⟨r, g, b, P, f1, f2⟩] = [⟨r, g, b, P + ks.sum, f1, f2⟩] := by
  intro ks
  induction ks with
  | nil => intro P; simp
  | cons k ks ih =>
    intro P
    rw [List.map_cons, List.foldl_cons, dedupStep_same, ih]
    have hsum : P + k + ks.sum = P + (k :: ks).sum := by
      rw [List.sum_cons]
      omega
    rw [hsum]

theorem removeDuplicates_same (r g b : ℕ) (ks : List ℕ) (hne : ks ≠ []) :
    removeDuplicates (ks.map fun k => ⟨r, g, b, k, false, false⟩) 30 =
      [⟨r, g, b, ks.sum, false, false⟩] := by
  obtain ⟨k, ks2, rfl⟩ := List.exists_cons_of_ne_nil hne
  unfold removeDuplicates
  rw [List.map_cons, List.foldl_cons]
  have h0 : dedupStep 30 [] (⟨r, g, b, k, false, false⟩ : Swatch) =
      [⟨r, g, b, k, false, false⟩] := by
    unfold dedupStep
    simp only [List.any_nil, Bool.false_eq_true, if_false]
    rfl
  rw [h0, foldl_dedupStep_same]
  have hsum : k + ks2.sum = (k :: ks2).sum := by
    rw [List.sum_cons]
  rw [hsum]

theorem extractVibrant_gray (N : ℕ) (pal : List Swatch) :
    extractVibrantColors (List.replicate N ⟨128, 128, 128⟩) pal = [] := by
  have hel : vibrantEligible ⟨128, 128, 128⟩ = false := by with_unfolding_all rfl
  have hf : ∀ i : ℕ, (List.replicate N (⟨128, 128, 128⟩ : Pixel)).filter
      (fun p => vibrantEligible p && (hueBucketIdx p == i)) = [] := by
    intro i
    induction N with
    | zero => rfl
    | succ n ih =>
      rw [List.replicate_succ, List.filter_cons]
      simp only [hel, Bool.false_and, Bool.false_eq_true, if_false]
      exact ih
  unfold extractVibrantColors
  rw [List.filterMap_eq_nil]
  intro i _
  dsimp only
  rw [hf i]
  rfl

theorem extractBrand_gray (N : ℕ) (pal : List Swatch) :
    extractBrandColors (List.replicate N ⟨128, 128, 128⟩) pal = [] := by
  have hel : brandEligible ⟨128, 128, 128⟩ = false := by with_unfolding_all rfl
  have hf : ∀ rng : ℚ × ℚ, (List.replicate N (⟨128, 128, 128⟩ : Pixel)).filter
      (fun p => brandEligible p &&
        decide ((rgbToHsl p.r p.g p.b).h ≥ rng.1 ∧ (rgbToHsl p.r p.g p.b).h < rng.2)) =
      [] := by
    intro rng
    induction N with
    | zero => rfl
    | succ n ih =>
      rw [List.replicate_succ, List.filter_cons]
      simp only [hel, Bool.false_and, Bool.false_eq_true, if_false]
      exact ih
  unfold extractBrandColors
  rw [List.filterMap_eq_nil]
  intro rng _
  dsimp only
  rw [hf rng]
  rfl

theorem findBest_singleton_neg (c : Analyzed) (f : Analyzed → Bool)
    (h : f c = false) : findBest [c] f = none := by
  unfold findBest
  rw [List.filter_singleton, h]
  rfl

theorem findBest_singleton_pos (c : Analyzed) (f : Analyzed → Bool)
    (h : f c = true) : findBest [c] f = some c := by
  unfold findBest
  rw [List.filter_singleton, h]
  rfl

theorem hexV_ffffff : hexToRgb "#ffffff" = some ⟨255, 255, 255⟩ := by
  with_unfolding_all rfl

theorem hexV_f7f7f7 : hexToRgb "#f7f7f7" = some ⟨247, 247, 247⟩ := by
  with_unfolding_all rfl

theorem hexV_1a1a1a : hexToRgb "#1a1a1a" = some ⟨26, 26, 26⟩ := by
  with_unfolding_all rfl

theorem hexV_333333 : hexToRgb "#333333" = some ⟨51, 51, 51⟩ := by
  with_unfolding_all rfl

theorem hexV_555555 : hexToRgb "#555555" = some ⟨85, 85, 85⟩ := by
  with_unfolding_all rfl

theorem hexV_0b0b0b : hexToRgb "#0b0b0b" = some ⟨11, 11, 11⟩ := by
  with_unfolding_all rfl

theorem hexV_141414 : hexToRgb "#141414" = some ⟨20, 20, 20⟩ := by
  with_unfolding_all rfl

theorem hexV_808080 : hexToRgb "#808080" = some ⟨128, 128, 128⟩ := by
  with_unfolding_all rfl

theorem hexV_c0c0c0 : hexToRgb "#c0c0c0" = some ⟨192, 192, 192⟩ := by
  with_unfolding_all rfl

theorem hexV_d0d0d0 : hexToRgb "#d0d0d0" = some ⟨208, 208, 208⟩ := by
  with_unfolding_all rfl

theorem hexV_0071e3 : hexToRgb "#0071e3" = some ⟨0, 113, 227⟩ := by
  with_unfolding_all rfl

theorem gray_hex : rgbToHex 128 128 128 = "#808080" := by
  with_unfolding_all rfl

theorem gray_sat : getSaturation 128 128 128 = 0 := by
  with_unfolding_all rfl

theorem lumOfHex_of (M : RealModel) {s : String} {p : Pixel}
    (h : hexToRgb s = some p) : lumOfHex M s = getLuminance M p.r p.g p.b := by
  unfold lumOfHex
  rw [h]
  rfl

theorem lum_808080 (M : RealModel) :
    getLuminance M 128 128 128 = M.pow24 (5681 / 10761) := by
  rw [lum_gray_eq M 128 (by norm_num)]
  congr 1
  norm_num

theorem lum_141414_eq (M : RealModel) :
    getLuminance M 20 20 20 = M.pow24 (1361 / 10761) := by
  rw [lum_gray_eq M 20 (by norm_num)]
  congr 1
  norm_num

theorem lum_141414_lb (M : RealModel) : 1 / 500 ≤ getLuminance M 20 20 20 := by
  refine le_trans ?_ (lum_gray_lb M 20 (by norm_num) (by norm_num))
  norm_num

theorem lum_141414_ub (M : RealModel) : getLuminance M 20 20 20 ≤ 2 / 125 := by
  refine (lum_gray_ub M 20 (by norm_num) (by norm_num)).trans ?_
  norm_num

theorem lum_0b0b0b_ub (M : RealModel) : getLuminance M 11 11 11 ≤ 9 / 1000 := by
  refine (lum_gray_ub M 11 (by norm_num) (by norm_num)).trans ?_
  norm_num

theorem lum_1a1a1a_ub (M : RealModel) : getLuminance M 26 26 26 ≤ 23 / 1000 := by
  refine (lum_gray_ub M 26 (by norm_num) (by norm_num)).trans ?_
  norm_num

theorem lum_333333_ub (M : RealModel) : getLuminance M 51 51 51 ≤ 6 / 100 := by
  refine (lum_gray_ub M 51 (by norm_num) (by norm_num)).trans ?_
  norm_num

theorem lum_1a_lt_33 (M : RealModel) :
    getLuminance M 26 26 26 < getLuminance M 51 51 51 := by
  rw [lum_gray_eq M 26 (by norm_num), lum_gray_eq M 51 (by norm_num)]
  have := M.pow24_mono ((26 / 255 + 55 / 1000) / (1055 / 1000))
    ((51 / 255 + 55 / 1000) / (1055 / 1000)) (by norm_num) (by norm_num) (by norm_num)
  exact this

theorem lum_555555_ub (M : RealModel) : getLuminance M 85 85 85 ≤ 14 / 100 := by
  refine (lum_gray_ub M 85 (by norm_num) (by norm_num)).trans ?_
  norm_num

theorem lum_f7f7f7_lb (M : RealModel) : 9 / 10 ≤ getLuminance M 247 247 247 := by
  refine le_trans ?_ (lum_gray_lb M 247 (by norm_num) (by norm_num))
  norm_num

theorem lum_d0d0d0_lb (M : RealModel) : 1 / 2 ≤ getLuminance M 208 208 208 := by
  refine le_trans ?_ (lum_gray_lb M 208 (by norm_num) (by norm_num))
  norm_num

theorem lum_0071e3_eq (M : RealModel) :
    getLuminance M 0 113 227 =
      7152 / 10000 * M.pow24 (5081 / 10761) + 722 / 10000 * M.pow24 (9641 / 10761) := by
  have l0 : linearize M 0 = 0 := by
    unfold linearize
    dsimp only
    rw [if_pos (by norm_num)]
    norm_num
  have l113 : linearize M 113 = M.pow24 (5081 / 10761) := by
    unfold linearize
    dsimp only
    rw [if_neg (by norm_num)]
    congr 1
    norm_num
  have l227 : linearize M 227 = M.pow24 (9641 / 10761) := by
    unfold linearize
    dsimp only
    rw [if_neg (by norm_num)]
    congr 1
    norm_num
  unfold getLuminance
  rw [l0, l113, l227]
  ring

theorem lum_0071e3_lb (M : RealModel) : 12 / 100 ≤ getLuminance M 0 113 227 := by
  rw [lum_0071e3_eq]
  have h1 := M.pow24_lb (5081 / 10761) (by norm_num) (by norm_num)
  have h2 := M.pow24_lb (9641 / 10761) (by norm_num) (by norm_num)
  nlinarith

theorem contrast_lt (M : RealModel) (c1 c2 : Pixel) (m : ℚ)
    (h0 : 0 ≤ getLuminance M c1.r c1.g c1.b)
    (h12 : getLuminance M c1.r c1.g c1.b ≤ getLuminance M c2.r c2.g c2.b)
    (hstrict : getLuminance M c2.r c2.g c2.b + 5 / 100 <
      m * (getLuminance M c1.r c1.g c1.b + 5 / 100)) :
    getContrastRatio M c1 c2 < m := by
  unfold getContrastRatio
  dsimp only
  rw [qmax_eq_max, qmin_eq_min, max_eq_right h12, min_eq_left h12]
  rw [div_lt_iff (by linarith)]
  linarith

theorem gray_lightBgCand (M : RealModel) (N : ℕ)
    (hD : M.pow24 (5681 / 10761) ≤ 23 / 100) :
    lightBgCand M [analyzeSwatch M ⟨128, 128, 128, N, false, false⟩] none = none := by
  unfold lightBgCand
  rw [show isLockSet none = false from rfl]
  simp only [Bool.false_eq_true, if_false]
  refine findBest_singleton_neg _ _ ?_
  dsimp only [analyzeSwatch]
  have h1 : decide (getLuminance M 128 128 128 > 3 / 4) = false :=
    decide_eq_false (by rw [lum_808080]; intro hc; linarith)
  rw [h1, Bool.false_and]

theorem gray_lightBg0 (M : RealModel) (N : ℕ)
    (hD : M.pow24 (5681 / 10761) ≤ 23 / 100) :
    lightBg0 M [analyzeSwatch M ⟨128, 128, 128, N, false, false⟩] none = "#f7f7f7" := by
  unfold lightBg0
  rw [gray_lightBgCand M N hD]
  rfl

theorem gray_lightSurfaceCand (M : RealModel) (N : ℕ) (bgCand : Option Analyzed)
    (hD : M.pow24 (5681 / 10761) ≤ 23 / 100) :
    lightSurfaceCand [analyzeSwatch M ⟨128, 128, 128, N, false, false⟩] bgCand =
      none := by
  unfold lightSurfaceCand
  refine findBest_singleton_neg _ _ ?_
  dsimp only [analyzeSwatch]
  have h1 : decide (getLuminance M 128 128 128 > 17 / 20) = false :=
    decide_eq_false (by rw [lum_808080]; intro hc; linarith)
  rw [h1, Bool.false_and, Bool.false_and]

theorem gray_lightSurfaceStr (M : RealModel) (N : ℕ)
    (hD : M.pow24 (5681 / 10761) ≤ 23 / 100) :
    lightSurfaceStr M [analyzeSwatch M ⟨128, 128, 128, N, false, false⟩] none =
      "#ffffff" := by
  unfold lightSurfaceStr lightSurfaceTok
  rw [gray_lightSurfaceCand M N _ hD, gray_lightBg0 M N hD]
  dsimp only
  rw [show ((useColor none "#ffffff" : String) == "#f7f7f7") = false by
    with_unfolding_all rfl]
  rfl

theorem gray_lightSurfaceLumQ (M : RealModel) (N : ℕ)
    (hD : M.pow24 (5681 / 10761) ≤ 23 / 100) :
    lightSurfaceLumQ M [analyzeSwatch M ⟨128, 128, 128, N, false, false⟩] none = 1 := by
  unfold lightSurfaceLumQ
  rw [gray_lightSurfaceStr M N hD]
  rw [show (("#ffffff" : String) == "") = false by with_unfolding_all rfl]
  simp only [Bool.false_eq_true, if_false]
  rw [lumOfHex_of M hexV_ffffff]
  exact lum_white M

theorem gray_lightBorderStr (M : RealModel) (N : ℕ)
    (hD : M.pow24 (5681 / 10761) ≤ 23 / 100) :
    lightBorderStr M [analyzeSwatch M ⟨128, 128, 128, N, false, false⟩] none =
      "#e0e0e0" := by
  unfold lightBorderStr
  rw [show lightBorderCand [analyzeSwatch M ⟨128, 128, 128, N, false, false⟩]
      (lightSurfaceLumQ M [analyzeSwatch M ⟨128, 128, 128, N, false, false⟩] none)
      (lightBg0 M [analyzeSwatch M ⟨128, 128, 128, N, false, false⟩] none)
      (lightSurfaceStr M [analyzeSwatch M ⟨128, 128, 128, N, false, false⟩] none) =
      none from ?_]
  · rfl
  unfold lightBorderCand
  refine findBest_singleton_neg _ _ ?_
  dsimp only [analyzeSwatch]
  have h2 : decide (getLuminance M 128 128 128 > 1 / 2) = false :=
    decide_eq_false (by rw [lum_808080]; intro hc; linarith)
  rw [h2]
  simp only [Bool.and_false, Bool.false_and]

theorem gray_lightSurfaceRgbOpt (M : RealModel) (N : ℕ)
    (hD : M.pow24 (5681 / 10761) ≤ 23 / 100) :
    lightSurfaceRgbOpt M [analyzeSwatch M ⟨128, 128, 128, N, false, false⟩] none =
      some ⟨255, 255, 255⟩ := by
  unfold lightSurfaceRgbOpt
  rw [gray_lightSurfaceStr M N hD]
  exact hexV_ffffff

theorem gray_lightHCands (M : RealModel) (N : ℕ)
    (hA : M.pow24 (5681 / 10761) > 17 / 80)
    (hD : M.pow24 (5681 / 10761) ≤ 23 / 100) :
    lightHCands M [analyzeSwatch M ⟨128, 128, 128, N, false, false⟩] none = [] := by
  unfold lightHCands lightHeadingCands
  rw [gray_lightSurfaceRgbOpt M N hD]
  rw [List.filter_singleton]
  dsimp only [analyzeSwatch, Analyzed.rgb]
  rw [gray_sat]
  rw [if_neg (by norm_num : ¬((0 : ℚ) > 1 / 4))]
  rw [show decide
      (getContrastRatio M (⟨128, 128, 128⟩ : Pixel) (⟨255, 255, 255⟩ : Pixel) ≥ 9 / 2) =
      false from decide_eq_false ?_]
  · rfl
  rw [ge_iff_le, not_le]
  refine contrast_lt M _ _ _ (getLuminance_nonneg M _ _ _ (by norm_num) (by norm_num)
    (by norm_num)) ?_ ?_
  · rw [lum_white, lum_808080]
    linarith
  · rw [lum_white, lum_808080]
    linarith

theorem gray_lightBgForText (M : RealModel) (N : ℕ)
    (hD : M.pow24 (5681 / 10761) ≤ 23 / 100) :
    lightBgForText M [analyzeSwatch M ⟨128, 128, 128, N, false, false⟩] none =
      ⟨255, 255, 255⟩ := by
  unfold lightBgForText
  rw [gray_lightSurfaceRgbOpt M N hD]
  rfl

theorem gray_lightHeading0Str (M : RealModel) (N : ℕ)
    (hA : M.pow24 (5681 / 10761) > 17 / 80)
    (hD : M.pow24 (5681 / 10761) ≤ 23 / 100) :
    lightHeading0Str M [analyzeSwatch M ⟨128, 128, 128, N, false, false⟩] none =
      "#1a1a1a" := by
  unfold lightHeading0Str
  rw [gray_lightHCands M N hA hD, gray_lightBgForText M N hD]
  unfold ensureContrast
  dsimp only
  rw [hexV_1a1a1a]
  dsimp only [Option.getD]
  rw [if_pos ?hc]
  · rfl
  case hc =>
    refine contrast_ge M _ _ _ (getLuminance_nonneg M _ _ _ (by norm_num) (by norm_num)
      (by norm_num)) ?_ ?_
    · rw [lum_white]
      have := lum_1a1a1a_ub M
      linarith
    · rw [lum_white]
      have := lum_1a1a1a_ub M
      linarith

theorem gray_lightText0Str (M : RealModel) (N : ℕ)
    (hA : M.pow24 (5681 / 10761) > 17 / 80)
    (hD : M.pow24 (5681 / 10761) ≤ 23 / 100) :
    lightText0Str M [analyzeSwatch M ⟨128, 128, 128, N, false, false⟩] none =
      "#333333" := by
  unfold lightText0Str
  rw [gray_lightHCands M N hA hD, gray_lightBgForText M N hD]
  unfold ensureContrast
  dsimp only
  rw [hexV_333333]
  dsimp only [Option.getD]
  rw [if_pos ?hc]
  · rfl
  case hc =>
    refine contrast_ge M _ _ _ (getLuminance_nonneg M _ _ _ (by norm_num) (by norm_num)
      (by norm_num)) ?_ ?_
    · rw [lum_white]
      have := lum_333333_ub M
      linarith
    · rw [lum_white]
      have := lum_333333_ub M
      linarith

theorem gray_lightHT (M : RealModel) (N : ℕ)
    (hA : M.pow24 (5681 / 10761) > 17 / 80)
    (hD : M.pow24 (5681 / 10761) ≤ 23 / 100) :
    lightHT M [analyzeSwatch M ⟨128, 128, 128, N, false, false⟩] none =
      ("#1a1a1a", "#333333") := by
  unfold lightHT
  rw [gray_lightHeading0Str M N hA hD, gray_lightText0Str M N hA hD]
  unfold lightSwapFix
  dsimp only
  rw [show ((("#333333" : String) != "") && (("#1a1a1a" : String) != "")) = true by
    with_unfolding_all rfl]
  simp only [if_true]
  rw [lumOfHex_of M hexV_333333, lumOfHex_of M hexV_1a1a1a]
  rw [if_neg (not_lt.2 (le_of_lt (lum_1a_lt_33 M)))]
  rw [show ((("#1a1a1a", "#333333") : String × String).1 ==
      ("#1a1a1a", "#333333").2) = false by with_unfolding_all rfl]
  rfl

theorem gray_lightTextLumQ (M : RealModel) (N : ℕ)
    (hA : M.pow24 (5681 / 10761) > 17 / 80)
    (hD : M.pow24 (5681 / 10761) ≤ 23 / 100) :
    lightTextLumQ M [analyzeSwatch M ⟨128, 128, 128, N, false, false⟩] none =
      getLuminance M 51 51 51 := by
  unfold lightTextLumQ
  rw [gray_lightHT M N hA hD]
  rw [show ((("#1a1a1a", "#333333") : String × String).2 == "") = false by
    with_unfolding_all rfl]
  simp only [Bool.false_eq_true, if_false]
  rw [lumOfHex_of M hexV_333333]

theorem gray_lightMutedCands (M : RealModel) (N : ℕ) (textLum : ℚ) (h t : String)
    (hA : M.pow24 (5681 / 10761) > 17 / 80)
    (hD : M.pow24 (5681 / 10761) ≤ 23 / 100) :
    lightMutedCands M [analyzeSwatch M ⟨128, 128, 128, N, false, false⟩]
      (some ⟨255, 255, 255⟩) textLum h t = [] := by
  unfold lightMutedCands
  rw [List.filter_singleton]
  dsimp only [analyzeSwatch, Analyzed.rgb]
  rw [gray_sat]
  rw [if_neg (by norm_num : ¬((0 : ℚ) > 1 / 4))]
  rw [show decide
      (getContrastRatio M (⟨128, 128, 128⟩ : Pixel) (⟨255, 255, 255⟩ : Pixel) ≥ 4) =
      false from decide_eq_false ?_]
  · simp only [Bool.false_and]
    rfl
  rw [ge_iff_le, not_le]
  refine contrast_lt M _ _ _ (getLuminance_nonneg M _ _ _ (by norm_num) (by norm_num)
    (by norm_num)) ?_ ?_
  · rw [lum_white, lum_808080]
    linarith
  · rw [lum_white, lum_808080]
    linarith

theorem gray_lightMutedStr (M : RealModel) (N : ℕ)
    (hA : M.pow24 (5681 / 10761) > 17 / 80)
    (hD : M.pow24 (5681 / 10761) ≤ 23 / 100) :
    lightMutedStr M [analyzeSwatch M ⟨128, 128, 128, N, false, false⟩] none =
      "#555555" := by
  unfold lightMutedStr
  rw [gray_lightSurfaceRgbOpt M N hD]
  rw [gray_lightMutedCands M N _ _ _ hA hD]
  rw [gray_lightBgForText M N hD]
  unfold ensureContrast
  dsimp only
  rw [hexV_555555]
  dsimp only [Option.getD]
  rw [if_pos ?hc]
  · rfl
  case hc =>
    refine contrast_ge M _ _ _ (getLuminance_nonneg M _ _ _ (by norm_num) (by norm_num)
      (by norm_num)) ?_ ?_
    · rw [lum_white]
      have := lum_555555_ub M
      linarith
    · rw [lum_white]
      have := lum_555555_ub M
      linarith

theorem bgCheckFails_false (M : RealModel) {s : String} {p : Pixel}
    (hs : hexToRgb s = some p) (bg : Pixel) (minC : ℚ)
    (h : getContrastRatio M p bg ≥ minC) : bgCheckFails M s bg minC = false := by
  unfold bgCheckFails
  rw [hs]
  exact decide_eq_false (not_lt.2 h)

theorem lightBgFinal_keep (M : RealModel) (analyzed : List Analyzed)
    (bg h t m : String) (llb : Option String) {p : Pixel}
    (hp : hexToRgb bg = some p) (hlock : isLockSet llb = false)
    (h1 : bgCheckFails M h p (9 / 2) = false)
    (h2 : bgCheckFails M t p (9 / 2) = false)
    (h3 : bgCheckFails M m p 3 = false) :
    lightBgFinal M analyzed bg h t m llb = bg := by
  unfold lightBgFinal
  rw [hp]
  dsimp only
  rw [hlock]
  simp only [Bool.false_eq_true, if_false]
  rw [h1, h2, h3]
  simp only [Bool.or_false, Bool.false_eq_true, if_false]

theorem darkBgFinal_keep (M : RealModel) (analyzed : List Analyzed)
    (bg h t m : String) (ldb : Option String) {p : Pixel}
    (hp : hexToRgb bg = some p) (hlock : isLockSet ldb = false)
    (h1 : bgCheckFails M h p (9 / 2) = false)
    (h2 : bgCheckFails M t p (9 / 2) = false)
    (h3 : bgCheckFails M m p 3 = false) :
    darkBgFinal M analyzed bg h t m ldb = bg := by
  unfold darkBgFinal
  rw [hp]
  dsimp only
  rw [hlock]
  simp only [Bool.false_eq_true, if_false]
  rw [h1, h2, h3]
  simp only [Bool.or_false, Bool.false_eq_true, if_false]

theorem gray_lightBgStr (M : RealModel) (N : ℕ)
    (hA : M.pow24 (5681 / 10761) > 17 / 80)
    (hD : M.pow24 (5681 / 10761) ≤ 23 / 100) :
    lightBgStr M [analyzeSwatch M ⟨128, 128, 128, N, false, false⟩] none =
      "#f7f7f7" := by
  have hh : bgCheckFails M "#1a1a1a" ⟨247, 247, 247⟩ (9 / 2) = false := by
    refine bgCheckFails_false M hexV_1a1a1a _ _ ?_
    refine contrast_ge M _ _ _ (getLuminance_nonneg M _ _ _ (by norm_num) (by norm_num)
      (by norm_num)) ?_ ?_
    · have h1 := lum_1a1a1a_ub M
      have h2 := lum_f7f7f7_lb M
      linarith
    · have h1 := lum_1a1a1a_ub M
      have h2 := lum_f7f7f7_lb M
      linarith
  have ht : bgCheckFails M "#333333" ⟨247, 247, 247⟩ (9 / 2) = false := by
    refine bgCheckFails_false M hexV_333333 _ _ ?_
    refine contrast_ge M _ _ _ (getLuminance_nonneg M _ _ _ (by norm_num) (by norm_num)
      (by norm_num)) ?_ ?_
    · have h1 := lum_333333_ub M
      have h2 := lum_f7f7f7_lb M
      linarith
    · have h1 := lum_333333_ub M
      have h2 := lum_f7f7f7_lb M
      linarith
  have hm : bgCheckFails M "#555555" ⟨247, 247, 247⟩ 3 = false := by
    refine bgCheckFails_false M hexV_555555 _ _ ?_
    refine contrast_ge M _ _ _ (getLuminance_nonneg M _ _ _ (by norm_num) (by norm_num)
      (by norm_num)) ?_ ?_
    · have h1 := lum_555555_ub M
      have h2 := lum_f7f7f7_lb M
      linarith
    · have h1 := lum_555555_ub M
      have h2 := lum_f7f7f7_lb M
      linarith
  unfold lightBgStr
  rw [gray_lightHT M N hA hD, gray_lightMutedStr M N hA hD, gray_lightBg0 M N hD]
  exact lightBgFinal_keep M _ _ _ _ _ _ hexV_f7f7f7 rfl hh ht hm

theorem gray_lightUsedText (M : RealModel) (N : ℕ)
    (hA : M.pow24 (5681 / 10761) > 17 / 80)
    (hD : M.pow24 (5681 / 10761) ≤ 23 / 100) :
    lightUsedText M [analyzeSwatch M ⟨128, 128, 128, N, false, false⟩] none =
      ["#1a1a1a", "#333333", "#555555"] := by
  unfold lightUsedText
  rw [gray_lightHT M N hA hD, gray_lightMutedStr M N hA hD]
  rfl

theorem gray_lightSurfForPrimary (M : RealModel) (N : ℕ)
    (hD : M.pow24 (5681 / 10761) ≤ 23 / 100) :
    lightSurfForPrimary M [analyzeSwatch M ⟨128, 128, 128, N, false, false⟩] none =
      ⟨255, 255, 255⟩ := by
  unfold lightSurfForPrimary
  rw [gray_lightSurfaceStr M N hD]
  rw [show (("#ffffff" : String) == "") = false by with_unfolding_all rfl]
  simp only [Bool.false_eq_true, if_false]
  rw [hexV_ffffff]
  rfl

theorem gray_lightStage1 (M : RealModel) (N : ℕ) (pal : List Swatch)
    (used : List String) (surf : Pixel) :
    lightPrimaryStage1 M pal [analyzeSwatch M ⟨128, 128, 128, N, false, false⟩]
      used surf = none := by
  unfold lightPrimaryStage1
  rw [List.filter_singleton]
  dsimp only [analyzeSwatch]
  rw [gray_sat, if_pos (by norm_num : (0 : ℚ) < 1 / 5)]
  rfl

theorem gray_lightStage2 (M : RealModel) (N : ℕ)
    (used : List String) (surf : Pixel) :
    lightPrimaryStage2 M [analyzeSwatch M ⟨128, 128, 128, N, false, false⟩]
      used surf = none := by
  unfold lightPrimaryStage2
  rw [List.filter_singleton]
  dsimp only [analyzeSwatch]
  rw [gray_sat]
  rw [show decide ((0 : ℚ) < 3 / 20) = true from by norm_num]
  simp only [Bool.not_true, Bool.false_and]
  rfl

theorem gray_lightStage3 (M : RealModel) (N : ℕ)
    (used : List String) (surf : Pixel) :
    lightPrimaryStage3 M [analyzeSwatch M ⟨128, 128, 128, N, false, false⟩]
      used surf = none := by
  unfold lightPrimaryStage3
  rw [List.filter_singleton]
  dsimp only [analyzeSwatch]
  rw [gray_sat]
  rw [show decide ((0 : ℚ) < 3 / 20) = true from by norm_num]
  simp only [Bool.not_true, Bool.false_and]
  rfl

theorem gray_lightLp (M : RealModel) (N : ℕ) (pal : List Swatch)
    (hA : M.pow24 (5681 / 10761) > 17 / 80)
    (hD : M.pow24 (5681 / 10761) ≤ 23 / 100) :
    lightLp M pal [analyzeSwatch M ⟨128, 128, 128, N, false, false⟩] none none =
      defaultLightPrimary M := by
  rw [lightLp_none]
  unfold lightPrimaryOf
  dsimp only
  rw [gray_lightStage1 M N pal _ _]
  dsimp only
  rw [gray_lightStage2 M N _ _]
  dsimp only
  rw [gray_lightStage3 M N _ _]
  dsimp only
  unfold lightPrimaryVariantFix
  rw [show (!(defaultLightPrimary M).isVibrant &&
      ((defaultLightPrimary M).hex != "#0071e3")) = false from by
    with_unfolding_all rfl]
  simp only [Bool.false_eq_true, if_false]

theorem gray_lightPOn (M : RealModel) (N : ℕ)
    (hB : 7152 / 10000 * M.pow24 (5081 / 10761) +
      722 / 10000 * M.pow24 (9641 / 10761) ≤ 1832 / 10000) :
    lightPrimaryAndOn M [analyzeSwatch M ⟨128, 128, 128, N, false, false⟩] false
      (defaultLightPrimary M) = ("#0071e3", "#ffffff") := by
  unfold lightPrimaryAndOn
  dsimp only [defaultLightPrimary, Analyzed.rgb]
  rw [if_pos ?hc]
  case hc =>
    refine contrast_ge M _ _ _ (getLuminance_nonneg M _ _ _ (by norm_num) (by norm_num)
      (by norm_num)) ?_ ?_
    · rw [lum_white, lum_0071e3_eq]
      linarith
    · rw [lum_white, lum_0071e3_eq]
      linarith

theorem gray_lightMode (M : RealModel) (N : ℕ) (pal : List Swatch)
    (hA : M.pow24 (5681 / 10761) > 17 / 80)
    (hB : 7152 / 10000 * M.pow24 (5081 / 10761) +
      722 / 10000 * M.pow24 (9641 / 10761) ≤ 1832 / 10000)
    (hD : M.pow24 (5681 / 10761) ≤ 23 / 100) :
    lightMode M pal [analyzeSwatch M ⟨128, 128, 128, N, false, false⟩] none none =
      (⟨"#f7f7f7", "#ffffff", "#e0e0e0", "#333333", "#1a1a1a", "#555555",
        "#0071e3", "#ffffff"⟩, defaultLightPrimary M) := by
  unfold lightMode
  dsimp only
  rw [gray_lightHT M N hA hD, gray_lightLp M N pal hA hD,
    show isLockSet none = false from rfl, gray_lightPOn M N hB,
    gray_lightBgStr M N hA hD, gray_lightSurfaceStr M N hD,
    gray_lightBorderStr M N hD, gray_lightMutedStr M N hA hD]

theorem gray_darkBgCand (M : RealModel) (N : ℕ)
    (hA : M.pow24 (5681 / 10761) > 17 / 80) :
    darkBgCand M [analyzeSwatch M ⟨128, 128, 128, N, false, false⟩] none = none := by
  unfold darkBgCand
  rw [show isLockSet none = false from rfl]
  simp only [Bool.false_eq_true, if_false]
  refine findBest_singleton_neg _ _ ?_
  dsimp only [analyzeSwatch]
  have h1 : decide (getLuminance M 128 128 128 < 6 / 100) = false :=
    decide_eq_false (by rw [lum_808080]; intro hc; linarith)
  rw [h1, Bool.false_and]

theorem gray_darkBg0 (M : RealModel) (N : ℕ)
    (hA : M.pow24 (5681 / 10761) > 17 / 80) :
    darkBg0 M [analyzeSwatch M ⟨128, 128, 128, N, false, false⟩] none = "#0b0b0b" := by
  unfold darkBg0
  rw [gray_darkBgCand M N hA]
  rfl

theorem gray_darkSurfaceCand (M : RealModel) (N : ℕ) (bgLum : ℚ)
    (bgCand : Option Analyzed)
    (hA : M.pow24 (5681 / 10761) > 17 / 80) :
    darkSurfaceCand [analyzeSwatch M ⟨128, 128, 128, N, false, false⟩] bgLum
      bgCand = none := by
  unfold darkSurfaceCand
  refine findBest_singleton_neg _ _ ?_
  dsimp only [analyzeSwatch]
  have h2 : decide (getLuminance M 128 128 128 < 5 / 100) = false :=
    decide_eq_false (by rw [lum_808080]; intro hc; linarith)
  rw [h2]
  simp only [Bool.and_false, Bool.false_and]

theorem gray_darkSurfaceStr (M : RealModel) (N : ℕ)
    (hA : M.pow24 (5681 / 10761) > 17 / 80) :
    darkSurfaceStr M [analyzeSwatch M ⟨128, 128, 128, N, false, false⟩] none =
      "#141414" := by
  unfold darkSurfaceStr darkSurfaceTok
  rw [gray_darkSurfaceCand M N _ _ hA, gray_darkBg0 M N hA]
  dsimp only
  rw [show ((useColor none "#141414" : String) == "#0b0b0b") = false by
    with_unfolding_all rfl]
  rfl

theorem gray_darkSurfaceLumQ (M : RealModel) (N : ℕ)
    (hA : M.pow24 (5681 / 10761) > 17 / 80) :
    darkSurfaceLumQ M [analyzeSwatch M ⟨128, 128, 128, N, false, false⟩] none =
      getLuminance M 20 20 20 := by
  unfold darkSurfaceLumQ
  rw [gray_darkSurfaceStr M N hA]
  rw [show (("#141414" : String) == "") = false by with_unfolding_all rfl]
  simp only [Bool.false_eq_true, if_false]
  rw [lumOfHex_of M hexV_141414]

theorem gray_darkBorderStr (M : RealModel) (N : ℕ)
    (hA : M.pow24 (5681 / 10761) > 17 / 80)
    (hD : M.pow24 (5681 / 10761) ≤ 23 / 100) :
    darkBorderStr M [analyzeSwatch M ⟨128, 128, 128, N, false, false⟩] none =
      "#808080" := by
  unfold darkBorderStr
  rw [gray_darkSurfaceLumQ M N hA, gray_darkBg0 M N hA, gray_darkSurfaceStr M N hA]
  rw [show darkBorderCand [analyzeSwatch M ⟨128, 128, 128, N, false, false⟩]
      (getLuminance M 20 20 20) "#0b0b0b" "#141414" =
      some (analyzeSwatch M ⟨128, 128, 128, N, false, false⟩) from ?_]
  · unfold useColor
    dsimp only [analyzeSwatch]
    exact gray_hex
  unfold darkBorderCand
  refine findBest_singleton_pos _ _ ?_
  dsimp only [analyzeSwatch]
  rw [gray_sat]
  have hgt : decide (getLuminance M 128 128 128 > getLuminance M 20 20 20) = true := by
    refine decide_eq_true ?_
    rw [lum_808080]
    have := lum_141414_ub M
    linarith
  have hlt : decide (getLuminance M 128 128 128 < 35 / 100) = true := by
    refine decide_eq_true ?_
    rw [lum_808080]
    linarith
  rw [hgt, hlt]
  rw [show decide ((0 : ℚ) < 1 / 5) = true from by norm_num]
  rw [gray_hex]
  rw [show (("#808080" : String) != "#0b0b0b") = true from by with_unfolding_all rfl,
    show (("#808080" : String) != "#141414") = true from by with_unfolding_all rfl]
  rfl

theorem gray_darkSurfaceRgbOpt (M : RealModel) (N : ℕ)
    (hA : M.pow24 (5681 / 10761) > 17 / 80) :
    darkSurfaceRgbOpt M [analyzeSwatch M ⟨128, 128, 128, N, false, false⟩] none =
      some ⟨20, 20, 20⟩ := by
  unfold darkSurfaceRgbOpt
  rw [gray_darkSurfaceStr M N hA]
  exact hexV_141414

theorem gray_contrast_surface_ge (M : RealModel)
    (hC : M.pow24 (5681 / 10761) ≥ 9 / 2 * M.pow24 (1361 / 10761) + 7 / 40) :
    getContrastRatio M (⟨128, 128, 128⟩ : Pixel) (⟨20, 20, 20⟩ : Pixel) ≥ 9 / 2 := by
  rw [getContrastRatio_comm]
  refine contrast_ge M _ _ _ (getLuminance_nonneg M _ _ _ (by norm_num) (by norm_num)
    (by norm_num)) ?_ ?_
  · rw [lum_808080, lum_141414_eq]
    have h1 := M.pow24_lb (1361 / 10761) (by norm_num) (by norm_num)
    have h2 : ((1361 : ℚ) / 10761) ^ 3 ≥ 0 := by positivity
    nlinarith
  · rw [lum_808080, lum_141414_eq]
    linarith

theorem gray_darkHCands (M : RealModel) (N : ℕ)
    (hA : M.pow24 (5681 / 10761) > 17 / 80)
    (hC : M.pow24 (5681 / 10761) ≥ 9 / 2 * M.pow24 (1361 / 10761) + 7 / 40) :
    darkHCands M [analyzeSwatch M ⟨128, 128, 128, N, false, false⟩] none =
      [analyzeSwatch M ⟨128, 128, 128, N, false, false⟩] := by
  unfold darkHCands darkHeadingCands
  rw [gray_darkSurfaceRgbOpt M N hA]
  rw [List.filter_singleton]
  dsimp only [analyzeSwatch, Analyzed.rgb]
  rw [gray_sat]
  rw [if_neg (by norm_num : ¬((0 : ℚ) > 1 / 4))]
  rw [show decide
      (getContrastRatio M (⟨128, 128, 128⟩ : Pixel) (⟨20, 20, 20⟩ : Pixel) ≥ 9 / 2) =
      true from decide_eq_true (gray_contrast_surface_ge M hC)]
  rfl

theorem gray_darkBgForText (M : RealModel) (N : ℕ)
    (hA : M.pow24 (5681 / 10761) > 17 / 80) :
    darkBgForText M [analyzeSwatch M ⟨128, 128, 128, N, false, false⟩] none =
      ⟨20, 20, 20⟩ := by
  unfold darkBgForText
  rw [gray_darkSurfaceRgbOpt M N hA]
  rfl

theorem gray_darkHeading0Str (M : RealModel) (N : ℕ)
    (hA : M.pow24 (5681 / 10761) > 17 / 80)
    (hC : M.pow24 (5681 / 10761) ≥ 9 / 2 * M.pow24 (1361 / 10761) + 7 / 40) :
    darkHeading0Str M [analyzeSwatch M ⟨128, 128, 128, N, false, false⟩] none =
      "#808080" := by
  unfold darkHeading0Str
  rw [gray_darkHCands M N hA hC, gray_darkBgForText M N hA]
  rw [show ([analyzeSwatch M ⟨128, 128, 128, N, false, false⟩].head?.map
      Analyzed.hex) = some "#808080" from by
    dsimp only [List.head?, Option.map, analyzeSwatch]
    rw [gray_hex]]
  unfold ensureContrast
  dsimp only
  rw [hexV_808080]
  dsimp only
  rw [if_pos (gray_contrast_surface_ge M hC)]

theorem gray_darkText0Str (M : RealModel) (N : ℕ)
    (hA : M.pow24 (5681 / 10761) > 17 / 80)
    (hC : M.pow24 (5681 / 10761) ≥ 9 / 2 * M.pow24 (1361 / 10761) + 7 / 40) :
    darkText0Str M [analyzeSwatch M ⟨128, 128, 128, N, false, false⟩] none =
      "#808080" := by
  unfold darkText0Str
  rw [gray_darkHCands M N hA hC, gray_darkBgForText M N hA]
  rw [show (secondDistinct [analyzeSwatch M ⟨128, 128, 128, N, false, false⟩]).map
      Analyzed.hex = some "#808080" from by
    unfold secondDistinct
    dsimp only [List.head?]
    rw [show List.find?
        (fun c => c.hex != (analyzeSwatch M ⟨128, 128, 128, N, false, false⟩).hex)
        [analyzeSwatch M ⟨128, 128, 128, N, false, false⟩] = none from by
      simp [List.find?]]
    dsimp only [Option.map, analyzeSwatch]
    rw [gray_hex]]
  unfold ensureContrast
  dsimp only
  rw [hexV_808080]
  dsimp only
  rw [if_pos (gray_contrast_surface_ge M hC)]

theorem gray_darkHT (M : RealModel) (N : ℕ)
    (hA : M.pow24 (5681 / 10761) > 17 / 80)
    (hC : M.pow24 (5681 / 10761) ≥ 9 / 2 * M.pow24 (1361 / 10761) + 7 / 40) :
    darkHT M [analyzeSwatch M ⟨128, 128, 128, N, false, false⟩] none =
      ("#ffffff", "#c0c0c0") := by
  unfold darkHT
  rw [gray_darkHeading0Str M N hA hC, gray_darkText0Str M N hA hC]
  unfold darkSwapFix
  dsimp only
  rw [show ((("#808080" : String) != "") && (("#808080" : String) != "")) = true by
    with_unfolding_all rfl]
  simp only [if_true]
  rw [if_neg (lt_irrefl (lumOfHex M "#808080"))]
  rw [show ((("#808080", "#808080") : String × String).1 ==
      ("#808080", "#808080").2) = true by with_unfolding_all rfl]
  rfl

theorem gray_darkTextLumQ (M : RealModel) (N : ℕ)
    (hA : M.pow24 (5681 / 10761) > 17 / 80)
    (hC : M.pow24 (5681 / 10761) ≥ 9 / 2 * M.pow24 (1361 / 10761) + 7 / 40) :
    darkTextLumQ M [analyzeSwatch M ⟨128, 128, 128, N, false, false⟩] none =
      getLuminance M 192 192 192 := by
  unfold darkTextLumQ
  rw [gray_darkHT M N hA hC]
  rw [show ((("#ffffff", "#c0c0c0") : String × String).2 == "") = false by
    with_unfolding_all rfl]
  simp only [Bool.false_eq_true, if_false]
  rw [lumOfHex_of M hexV_c0c0c0]

theorem gray_darkMutedCands (M : RealModel) (N : ℕ)
    (hA : M.pow24 (5681 / 10761) > 17 / 80)
    (hC : M.pow24 (5681 / 10761) ≥ 9 / 2 * M.pow24 (1361 / 10761) + 7 / 40)
    (hD : M.pow24 (5681 / 10761) ≤ 23 / 100) :
    darkMutedCands M [analyzeSwatch M ⟨128, 128, 128, N, false, false⟩]
      (some ⟨20, 20, 20⟩) (getLuminance M 192 192 192) "#ffffff" "#c0c0c0" =
      [analyzeSwatch M ⟨128, 128, 128, N, false, false⟩] := by
  unfold darkMutedCands
  rw [List.filter_singleton]
  dsimp only [analyzeSwatch, Analyzed.rgb]
  rw [gray_sat]
  rw [if_neg (by norm_num : ¬((0 : ℚ) > 1 / 4))]
  rw [show decide
      (getContrastRatio M (⟨128, 128, 128⟩ : Pixel) (⟨20, 20, 20⟩ : Pixel) ≥ 4) =
      true from decide_eq_true (le_trans (by norm_num) (gray_contrast_surface_ge M hC))]
  rw [show decide
      (getContrastRatio M (⟨128, 128, 128⟩ : Pixel) (⟨20, 20, 20⟩ : Pixel) < 10) =
      true from decide_eq_true ?_]
  rw [show decide (getLuminance M 128 128 128 < getLuminance M 192 192 192) =
      true from decide_eq_true ?_]
  rw [gray_hex]
  rw [show (("#808080" : String) != "#ffffff") = true from by with_unfolding_all rfl,
    show (("#808080" : String) != "#c0c0c0") = true from by with_unfolding_all rfl]
  · rfl
  · rw [lum_808080]
    have := lum_c0c0c0_ge M
    linarith
  · rw [getContrastRatio_comm]
    refine contrast_lt M _ _ _ (getLuminance_nonneg M _ _ _ (by norm_num) (by norm_num)
      (by norm_num)) ?_ ?_
    · rw [lum_808080, lum_141414_eq]
      have h1 := M.pow24_lb (1361 / 10761) (by norm_num) (by norm_num)
      have h2 : (0 : ℚ) ≤ ((1361 : ℚ) / 10761) ^ 3 := by positivity
      nlinarith
    · rw [lum_808080]
      have h1 := getLuminance_nonneg M 20 20 20 (by norm_num) (by norm_num) (by norm_num)
      linarith

theorem gray_darkMutedStr (M : RealModel) (N : ℕ)
    (hA : M.pow24 (5681 / 10761) > 17 / 80)
    (hC : M.pow24 (5681 / 10761) ≥ 9 / 2 * M.pow24 (1361 / 10761) + 7 / 40)
    (hD : M.pow24 (5681 / 10761) ≤ 23 / 100) :
    darkMutedStr M [analyzeSwatch M ⟨128, 128, 128, N, false, false⟩] none =
      "#d0d0d0" := by
  unfold darkMutedStr
  rw [gray_darkSurfaceRgbOpt M N hA, gray_darkTextLumQ M N hA hC,
    gray_darkHT M N hA hC, gray_darkBgForText M N hA]
  rw [show ((("#ffffff", "#c0c0c0") : String × String).1) = "#ffffff" from rfl,
    show ((("#ffffff", "#c0c0c0") : String × String).2) = "#c0c0c0" from rfl]
  rw [gray_darkMutedCands M N hA hC hD]
  rw [show ([analyzeSwatch M ⟨128, 128, 128, N, false, false⟩].head?.map
      Analyzed.hex) = some "#808080" from by
    dsimp only [List.head?, Option.map, analyzeSwatch]
    rw [gray_hex]]
  unfold ensureContrast
  dsimp only
  rw [hexV_808080]
  dsimp only
  rw [if_neg ?hlow]
  rw [hexV_d0d0d0]
  dsimp only [Option.getD]
  rw [if_pos ?hfb]
  case hlow =>
    rw [ge_iff_le, not_le, getContrastRatio_comm]
    refine contrast_lt M _ _ _ (getLuminance_nonneg M _ _ _ (by norm_num) (by norm_num)
      (by norm_num)) ?_ ?_
    · rw [lum_808080, lum_141414_eq]
      have h1 := M.pow24_lb (1361 / 10761) (by norm_num) (by norm_num)
      have h2 : (0 : ℚ) ≤ ((1361 : ℚ) / 10761) ^ 3 := by positivity
      nlinarith
    · rw [lum_808080]
      have h1 := lum_141414_lb M
      linarith
  case hfb =>
    rw [getContrastRatio_comm]
    refine contrast_ge M _ _ _ (getLuminance_nonneg M _ _ _ (by norm_num) (by norm_num)
      (by norm_num)) ?_ ?_
    · have h1 := lum_141414_ub M
      have h2 := lum_d0d0d0_lb M
      linarith
    · have h1 := lum_141414_ub M
      have h2 := lum_d0d0d0_lb M
      linarith

theorem gray_darkBgStr (M : RealModel) (N : ℕ)
    (hA : M.pow24 (5681 / 10761) > 17 / 80)
    (hC : M.pow24 (5681 / 10761) ≥ 9 / 2 * M.pow24 (1361 / 10761) + 7 / 40)
    (hD : M.pow24 (5681 / 10761) ≤ 23 / 100) :
    darkBgStr M [analyzeSwatch M ⟨128, 128, 128, N, false, false⟩] none =
      "#0b0b0b" := by
  have hh : bgCheckFails M "#ffffff" ⟨11, 11, 11⟩ (9 / 2) = false := by
    refine bgCheckFails_false M hexV_ffffff _ _ ?_
    rw [getContrastRatio_comm]
    refine contrast_ge M _ _ _ (getLuminance_nonneg M _ _ _ (by norm_num) (by norm_num)
      (by norm_num)) ?_ ?_
    · rw [lum_white]
      have := lum_0b0b0b_ub M
      linarith
    · rw [lum_white]
      have := lum_0b0b0b_ub M
      linarith
  have ht : bgCheckFails M "#c0c0c0" ⟨11, 11, 11⟩ (9 / 2) = false := by
    refine bgCheckFails_false M hexV_c0c0c0 _ _ ?_
    rw [getContrastRatio_comm]
    refine contrast_ge M _ _ _ (getLuminance_nonneg M _ _ _ (by norm_num) (by norm_num)
      (by norm_num)) ?_ ?_
    · have h1 := lum_0b0b0b_ub M
      have h2 := lum_c0c0c0_ge M
      linarith
    · have h1 := lum_0b0b0b_ub M
      have h2 := lum_c0c0c0_ge M
      linarith
  have hm : bgCheckFails M "#d0d0d0" ⟨11, 11, 11⟩ 3 = false := by
    refine bgCheckFails_false M hexV_d0d0d0 _ _ ?_
    rw [getContrastRatio_comm]
    refine contrast_ge M _ _ _ (getLuminance_nonneg M _ _ _ (by norm_num) (by norm_num)
      (by norm_num)) ?_ ?_
    · have h1 := lum_0b0b0b_ub M
      have h2 := lum_d0d0d0_lb M
      linarith
    · have h1 := lum_0b0b0b_ub M
      have h2 := lum_d0d0d0_lb M
      linarith
  unfold darkBgStr
  rw [gray_darkHT M N hA hC, gray_darkMutedStr M N hA hC hD, gray_darkBg0 M N hA]
  exact darkBgFinal_keep M _ _ _ _ _ _ hexV_0b0b0b rfl hh ht hm

theorem gray_darkUsedText (M : RealModel) (N : ℕ)
    (hA : M.pow24 (5681 / 10761) > 17 / 80)
    (hC : M.pow24 (5681 / 10761) ≥ 9 / 2 * M.pow24 (1361 / 10761) + 7 / 40)
    (hD : M.pow24 (5681 / 10761) ≤ 23 / 100) :
    darkUsedText M [analyzeSwatch M ⟨128, 128, 128, N, false, false⟩] none =
      ["#ffffff", "#c0c0c0", "#d0d0d0"] := by
  unfold darkUsedText
  rw [gray_darkHT M N hA hC, gray_darkMutedStr M N hA hC hD]
  rfl

theorem gray_darkSurfForPrimary (M : RealModel) (N : ℕ)
    (hA : M.pow24 (5681 / 10761) > 17 / 80) :
    darkSurfForPrimary M [analyzeSwatch M ⟨128, 128, 128, N, false, false⟩] none =
      ⟨20, 20, 20⟩ := by
  unfold darkSurfForPrimary
  rw [gray_darkSurfaceStr M N hA]
  rw [show (("#141414" : String) == "") = false by with_unfolding_all rfl]
  simp only [Bool.false_eq_true, if_false]
  rw [hexV_141414]
  rfl

theorem gray_darkStage1 (M : RealModel) (N : ℕ) (pal : List Swatch)
    (used : List String) (surf : Pixel) :
    darkPrimaryStage1 M pal [analyzeSwatch M ⟨128, 128, 128, N, false, false⟩]
      used surf = none := by
  unfold darkPrimaryStage1
  rw [List.filter_singleton]
  dsimp only [analyzeSwatch]
  rw [gray_sat, if_pos (by norm_num : (0 : ℚ) < 1 / 5)]
  rfl

theorem gray_darkStage2 (M : RealModel) (N : ℕ)
    (used : List String) (surf : Pixel) :
    darkPrimaryStage2 M [analyzeSwatch M ⟨128, 128, 128, N, false, false⟩]
      used surf = none := by
  unfold darkPrimaryStage2
  rw [List.filter_singleton]
  dsimp only [analyzeSwatch]
  rw [gray_sat]
  rw [show decide ((0 : ℚ) < 3 / 20) = true from by norm_num]
  simp only [Bool.not_true, Bool.false_and]
  rfl

theorem gray_darkStage3 (M : RealModel) (N : ℕ)
    (used : List String) (surf : Pixel) :
    darkPrimaryStage3 M [analyzeSwatch M ⟨128, 128, 128, N, false, false⟩]
      used surf = none := by
  unfold darkPrimaryStage3
  rw [List.filter_singleton]
  dsimp only [analyzeSwatch]
  rw [gray_sat]
  rw [show decide ((0 : ℚ) < 3 / 20) = true from by norm_num]
  simp only [Bool.not_true, Bool.false_and]
  rfl

theorem sat_blue : getSaturation 0 113 227 = 1 := by
  with_unfolding_all rfl

theorem hue_blue_gray :
    isSimilarHue (rgbToHsl 0 113 227) (rgbToHsl 128 128 128) 35 = false := by
  with_unfolding_all rfl

theorem gray_blueVsSurface (M : RealModel) :
    getContrastRatio M (⟨0, 113, 227⟩ : Pixel) (⟨20, 20, 20⟩ : Pixel) ≥ 5 / 2 := by
  rw [getContrastRatio_comm]
  refine contrast_ge M _ _ _ (getLuminance_nonneg M _ _ _ (by norm_num) (by norm_num)
    (by norm_num)) ?_ ?_
  · have h1 := lum_141414_ub M
    have h2 := lum_0071e3_lb M
    linarith
  · have h1 := lum_141414_ub M
    have h2 := lum_0071e3_lb M
    linarith

theorem defaultLight_not409 (M : RealModel) :
    (!(defaultLightPrimary M).isVibrant &&
      ((defaultLightPrimary M).hex != "#409cff")) = true := by
  with_unfolding_all rfl

theorem gray_darkVariantFix (M : RealModel) (N : ℕ) :
    darkPrimaryVariantFix M [⟨128, 128, 128, N, false, false⟩] ⟨20, 20, 20⟩
      (defaultLightPrimary M) = defaultLightPrimary M := by
  unfold darkPrimaryVariantFix
  rw [defaultLight_not409 M]
  simp only [if_true]
  rw [show (defaultLightPrimary M).hex = "#0071e3" from rfl, hexV_0071e3]
  dsimp only [Option.getD]
  rw [if_neg ?hsat]
  case hsat =>
    rcases findMostVibrantVariant_cases ⟨0, 113, 227⟩
        [⟨128, 128, 128, N, false, false⟩] with hm | hm
    · rw [hm]
      rw [show (defaultLightPrimary M).saturation = getSaturation 0 113 227 from rfl]
      rw [show getSaturation (⟨0, 113, 227, 0, false, false⟩ : Swatch).r
          (⟨0, 113, 227, 0, false, false⟩ : Swatch).g
          (⟨0, 113, 227, 0, false, false⟩ : Swatch).b =
          getSaturation 0 113 227 from rfl]
      rw [sat_blue]
      norm_num
    · rw [List.mem_singleton] at hm
      rw [hm]
      rw [show (defaultLightPrimary M).saturation = getSaturation 0 113 227 from rfl]
      rw [show getSaturation (⟨128, 128, 128, N, false, false⟩ : Swatch).r
          (⟨128, 128, 128, N, false, false⟩ : Swatch).g
          (⟨128, 128, 128, N, false, false⟩ : Swatch).b =
          getSaturation 128 128 128 from rfl]
      rw [sat_blue, gray_sat]
      norm_num

theorem gray_darkPrimaryOf (M : RealModel) (N : ℕ) (used : List String) :
    darkPrimaryOf M [⟨128, 128, 128, N, false, false⟩]
      [analyzeSwatch M ⟨128, 128, 128, N, false, false⟩] used ⟨20, 20, 20⟩
      (defaultLightPrimary M) = defaultLightPrimary M := by
  unfold darkPrimaryOf
  dsimp only
  rw [gray_darkStage1 M N _ _ _]
  dsimp only
  rw [gray_darkStage2 M N _ _]
  dsimp only
  rw [gray_darkStage3 M N _ _]
  dsimp only
  rw [show (defaultLightPrimary M).hex = "#0071e3" from rfl, hexV_0071e3]
  dsimp only
  rw [if_pos (gray_blueVsSurface M)]
  exact gray_darkVariantFix M N

theorem gray_darkDp (M : RealModel) (N : ℕ)
    (hA : M.pow24 (5681 / 10761) > 17 / 80)
    (hC : M.pow24 (5681 / 10761) ≥ 9 / 2 * M.pow24 (1361 / 10761) + 7 / 40)
    (hD : M.pow24 (5681 / 10761) ≤ 23 / 100) :
    darkDp M [⟨128, 128, 128, N, false, false⟩]
      [analyzeSwatch M ⟨128, 128, 128, N, false, false⟩] none none
      (defaultLightPrimary M) = defaultLightPrimary M := by
  unfold darkDp
  rw [show isLockSet none = false from rfl]
  simp only [Bool.false_eq_true, if_false]
  rw [gray_darkSurfForPrimary M N hA]
  exact gray_darkPrimaryOf M N _

theorem gray_darkPOn (M : RealModel)
    (hB : 7152 / 10000 * M.pow24 (5081 / 10761) +
      722 / 10000 * M.pow24 (9641 / 10761) ≤ 1832 / 10000) :
    darkPrimaryAndOn M (defaultLightPrimary M) = ("#0071e3", "#ffffff") := by
  unfold darkPrimaryAndOn
  dsimp only [defaultLightPrimary, Analyzed.rgb]
  rw [if_pos ?hc]
  case hc =>
    refine contrast_ge M _ _ _ (getLuminance_nonneg M _ _ _ (by norm_num) (by norm_num)
      (by norm_num)) ?_ ?_
    · rw [lum_white, lum_0071e3_eq]
      linarith
    · rw [lum_white, lum_0071e3_eq]
      linarith

theorem gray_darkMode (M : RealModel) (N : ℕ)
    (hA : M.pow24 (5681 / 10761) > 17 / 80)
    (hB : 7152 / 10000 * M.pow24 (5081 / 10761) +
      722 / 10000 * M.pow24 (9641 / 10761) ≤ 1832 / 10000)
    (hC : M.pow24 (5681 / 10761) ≥ 9 / 2 * M.pow24 (1361 / 10761) + 7 / 40)
    (hD : M.pow24 (5681 / 10761) ≤ 23 / 100) :
    darkMode M [⟨128, 128, 128, N, false, false⟩]
      [analyzeSwatch M ⟨128, 128, 128, N, false, false⟩] none none
      (defaultLightPrimary M) =
      ⟨"#0b0b0b", "#141414", "#808080", "#c0c0c0", "#ffffff", "#d0d0d0",
        "#0071e3", "#ffffff"⟩ := by
  unfold darkMode
  dsimp only
  rw [gray_darkHT M N hA hC, gray_darkDp M N hA hC hD, gray_darkPOn M hB,
    gray_darkBgStr M N hA hC hD, gray_darkSurfaceStr M N hA,
    gray_darkBorderStr M N hA hD, gray_darkMutedStr M N hA hC hD]

theorem gray_generateTokens (M : RealModel) (N : ℕ)
    (hA : M.pow24 (5681 / 10761) > 17 / 80)
    (hB : 7152 / 10000 * M.pow24 (5081 / 10761) +
      722 / 10000 * M.pow24 (9641 / 10761) ≤ 1832 / 10000)
    (hC : M.pow24 (5681 / 10761) ≥ 9 / 2 * M.pow24 (1361 / 10761) + 7 / 40)
    (hD : M.pow24 (5681 / 10761) ≤ 23 / 100) :
    generateTokens M [⟨128, 128, 128, N, false, false⟩] none none none =
      ⟨⟨"#f7f7f7", "#ffffff", "#e0e0e0", "#333333", "#1a1a1a", "#555555",
        "#0071e3", "#ffffff"⟩,
       ⟨"#0b0b0b", "#141414", "#808080", "#c0c0c0", "#ffffff", "#d0d0d0",
        "#0071e3", "#ffffff"⟩⟩ := by
  unfold generateTokens
  dsimp only [List.map]
  rw [gray_lightMode M N [⟨128, 128, 128, N, false, false⟩] hA hB hD]
  rw [gray_darkMode M N hA hB hC hD]

/-- C3 (amended): for `N ≥ 1` copies of the gray pixel `{128,128,128}` (under
the numeric facts A–D about `x^2.4`, true of the real power function): the
quantizer alone returns one swatch per split bucket (up to 20, not 1), and it
is the subsequent dedup pass at threshold 30 that merges them into exactly one
swatch `(128,128,128)` of population `N`; the Vibrant and Brand passes produce
no candidates; and the derived tokens are the documented fallbacks for the
light mode, while in dark mode `border`, `text` and `mutedText` are derived
from the palette (`#808080`, `#c0c0c0`, `#d0d0d0`) and `primary` is the light
default `#0071e3` (reused via the Try-3 cascade), not the dark fallback
`#409cff`. -/
theorem grayScenario_amended (M : RealModel) (N : ℕ) (hN : 1 ≤ N)
    (hA : M.pow24 (5681 / 10761) > 17 / 80)
    (hB : 7152 / 10000 * M.pow24 (5081 / 10761) +
      722 / 10000 * M.pow24 (9641 / 10761) ≤ 1832 / 10000)
    (hC : M.pow24 (5681 / 10761) ≥ 9 / 2 * M.pow24 (1361 / 10761) + 7 / 40)
    (hD : M.pow24 (5681 / 10761) ≤ 23 / 100) :
    removeDuplicates (medianCut (List.replicate N ⟨128, 128, 128⟩) 20) 30 =
        [⟨128, 128, 128, N, false, false⟩] ∧
      (∀ pal : List Swatch,
        extractVibrantColors (List.replicate N ⟨128, 128, 128⟩) pal = []) ∧
      (∀ pal : List Swatch,
        extractBrandColors (List.replicate N ⟨128, 128, 128⟩) pal = []) ∧
      generateTokens M [⟨128, 128, 128, N, false, false⟩] none none none =
        ⟨⟨"#f7f7f7", "#ffffff", "#e0e0e0", "#333333", "#1a1a1a", "#555555",
          "#0071e3", "#ffffff"⟩,
         ⟨"#0b0b0b", "#141414", "#808080", "#c0c0c0", "#ffffff", "#d0d0d0",
          "#0071e3", "#ffffff"⟩⟩ := by
  refine ⟨?_, fun pal => extractVibrant_gray N pal, fun pal => extractBrand_gray N pal,
    gray_generateTokens M N hA hB hC hD⟩
  obtain ⟨ks, hne, hpos, hsum, hmc⟩ :=
    medianCut_replicate ⟨128, 128, 128⟩ N 20 (by omega) (by norm_num)
  rw [hmc]
  rw [show (removeDuplicates
      (ks.map fun k => ⟨(⟨128, 128, 128⟩ : Pixel).r, (⟨128, 128, 128⟩ : Pixel).g,
        (⟨128, 128, 128⟩ : Pixel).b, k, false, false⟩) 30) =
      [⟨128, 128, 128, ks.sum, false, false⟩] from removeDuplicates_same _ _ _ ks hne]
  rw [hsum]

/-- Witness for the amended C3 at the computable model and `N = 7`. -/
theorem grayScenario_amended_witness :
    (1 ≤ 7 ∧ ratModel.pow24 (5681 / 10761) > 17 / 80 ∧
      7152 / 10000 * ratModel.pow24 (5081 / 10761) +
        722 / 10000 * ratModel.pow24 (9641 / 10761) ≤ 1832 / 10000 ∧
      ratModel.pow24 (5681 / 10761) ≥ 9 / 2 * ratModel.pow24 (1361 / 10761) + 7 / 40 ∧
      ratModel.pow24 (5681 / 10761) ≤ 23 / 100) ∧
    (removeDuplicates (medianCut (List.replicate 7 ⟨128, 128, 128⟩) 20) 30 =
        [⟨128, 128, 128, 7, false, false⟩] ∧
      (∀ pal : List Swatch,
        extractVibrantColors (List.replicate 7 ⟨128, 128, 128⟩) pal = []) ∧
      (∀ pal : List Swatch,
        extractBrandColors (List.replicate 7 ⟨128, 128, 128⟩) pal = []) ∧
      generateTokens ratModel [⟨128, 128, 128, 7, false, false⟩] none none none =
        ⟨⟨"#f7f7f7", "#ffffff", "#e0e0e0", "#333333", "#1a1a1a", "#555555",
          "#0071e3", "#ffffff"⟩,
         ⟨"#0b0b0b", "#141414", "#808080", "#c0c0c0", "#ffffff", "#d0d0d0",
          "#0071e3", "#ffffff"⟩⟩) := by
  have hA : ratModel.pow24 (5681 / 10761) > 17 / 80 := by
    show (3 * ((5681 : ℚ) / 10761) ^ 2 + 2 * ((5681 : ℚ) / 10761) ^ 3) / 5 > 17 / 80
    norm_num
  have hB : 7152 / 10000 * ratModel.pow24 (5081 / 10761) +
      722 / 10000 * ratModel.pow24 (9641 / 10761) ≤ 1832 / 10000 := by
    show 7152 / 10000 * ((3 * ((5081 : ℚ) / 10761) ^ 2 +
        2 * ((5081 : ℚ) / 10761) ^ 3) / 5) +
      722 / 10000 * ((3 * ((9641 : ℚ) / 10761) ^ 2 +
        2 * ((9641 : ℚ) / 10761) ^ 3) / 5) ≤ 1832 / 10000
    norm_num
  have hCq : ratModel.pow24 (5681 / 10761) ≥
      9 / 2 * ratModel.pow24 (1361 / 10761) + 7 / 40 := by
    show (3 * ((5681 : ℚ) / 10761) ^ 2 + 2 * ((5681 : ℚ) / 10761) ^ 3) / 5 ≥
      9 / 2 * ((3 * ((1361 : ℚ) / 10761) ^ 2 + 2 * ((1361 : ℚ) / 10761) ^ 3) / 5) +
        7 / 40
    norm_num
  have hDq : ratModel.pow24 (5681 / 10761) ≤ 23 / 100 := by
    show (3 * ((5681 : ℚ) / 10761) ^ 2 + 2 * ((5681 : ℚ) / 10761) ^ 3) / 5 ≤ 23 / 100
    norm_num
  exact ⟨⟨by norm_num, hA, hB, hCq, hDq⟩,
    grayScenario_amended ratModel 7 (by norm_num) hA hB hCq hDq⟩

/-- C3 counterexample: two copies of the gray pixel quantize to 2 swatches
(not 1), and the dark primary for the resulting single deduped gray swatch
is `#0071e3`, not the documented dark fallback `#409cff`. -/
theorem grayScenario_counterexample :
    (medianCut (List.replicate 2 ⟨128, 128, 128⟩) 20).length = 2 ∧
      (generateTokens ratModel [⟨128, 128, 128, 2, false, false⟩] none none
          none).dark.primary = "#0071e3" ∧
      "#0071e3" ≠ "#409cff" := by
  refine ⟨by with_unfolding_all rfl, ?_, by decide⟩
  have hA : ratModel.pow24 (5681 / 10761) > 17 / 80 := by
    show (3 * ((5681 : ℚ) / 10761) ^ 2 + 2 * ((5681 : ℚ) / 10761) ^ 3) / 5 > 17 / 80
    norm_num
  have hB : 7152 / 10000 * ratModel.pow24 (5081 / 10761) +
      722 / 10000 * ratModel.pow24 (9641 / 10761) ≤ 1832 / 10000 := by
    show 7152 / 10000 * ((3 * ((5081 : ℚ) / 10761) ^ 2 +
        2 * ((5081 : ℚ) / 10761) ^ 3) / 5) +
      722 / 10000 * ((3 * ((9641 : ℚ) / 10761) ^ 2 +
        2 * ((9641 : ℚ) / 10761) ^ 3) / 5) ≤ 1832 / 10000
    norm_num
  have hCq : ratModel.pow24 (5681 / 10761) ≥
      9 / 2 * ratModel.pow24 (1361 / 10761) + 7 / 40 := by
    show (3 * ((5681 : ℚ) / 10761) ^ 2 + 2 * ((5681 : ℚ) / 10761) ^ 3) / 5 ≥
      9 / 2 * ((3 * ((1361 : ℚ) / 10761) ^ 2 + 2 * ((1361 : ℚ) / 10761) ^ 3) / 5) +
        7 / 40
    norm_num
  have hDq : ratModel.pow24 (5681 / 10761) ≤ 23 / 100 := by
    show (3 * ((5681 : ℚ) / 10761) ^ 2 + 2 * ((5681 : ℚ) / 10761) ^ 3) / 5 ≤ 23 / 100
    norm_num
  rw [gray_generateTokens ratModel 2 hA hB hCq hDq]
